import Mathlib

/-! pdraw: OpenGL ES 2.0 renderer

A shallow embedding of `libpdraw/src/pdraw_renderer_gles2.cpp` (class `Gles2Renderer`) and of
`libpdraw/src/pdraw_gles2_video.cpp` (class `Gles2Video` and its shaders).

Conventions of the embedding:

* a C++ pointer is an `Option`: `none` is `NULL`, `some x` is a pointer to the object `x`
  (or to the object named `x` when the pointee is mutable and lives in the `World`);
* every member function takes the receiver `self` and the `World` (the decoder objects the
  renderer points to) and returns the updated receiver and world together with the list of
  calls it made on its collaborators (decoder, GL, sub-renderers, session), in program order;
* what the collaborators answer (GL object names, compile and link status, what the overlay and
  distortion renderers return, the clock) is not decided by this code: it is read from an `Env`;
* `int` values are `Int` and `unsigned int` values are `Nat`; the render path reduces modulo
  `2 ^ 32` where it converts an `int` to `unsigned int` and where it multiplies two
  `unsigned int` values, and the texture upload reduces into the range of `int` where it
  passes a value as `GLint` or `GLsizei`; `int / 2` is division truncating toward zero;
* `float` values (the aspect-fit ratios, the transform matrix, the vertex and texture
  coordinates, the colors of the fragment shaders) are elements of a linearly ordered field with
  exact arithmetic: rounding, infinities and NaN are not modelled; `cosf`, `sinf`, `M_PI` and
  the quaternion helpers of `pdraw_utils` are parameters of the embedding;
* `pthread_mutex_lock` / `unlock` and the `ULOG*` log lines are left out: the embedding is
  sequential and logging has no effect on the state.
-/

namespace Pdraw

/-! ## Data model -/

/-- Identity of an `AvcDecoder` object, the target of a non-null `AvcDecoder *`. -/
abbrev DecoderId := Nat

/-- Identity of a decoder output queue, the target of a non-null `BufferQueue *`. -/
abbrev QueueHandle := Nat

/-- Identity of a `Session` object, the target of a non-null `Session *`. -/
abbrev SessionId := Nat

/-- Identity of a `Media` object, the target of a non-null `Media *`. -/
abbrev MediaId := Nat

/-- Reduction of an `int` to `unsigned int` (32 bits), as at a call that passes an `int`
expression for an `unsigned int` parameter. -/
def toUInt (i : Int) : Nat := (i % 2 ^ 32).toNat

/-- Conversion of an integer value to `GLint` / `GLsizei` (32-bit `int`) at a GL call: the value
is reduced modulo `2 ^ 32` into the range of `int`. -/
def toGLint (i : Int) : Int :=
  if i % 2 ^ 32 < 2 ^ 31 then i % 2 ^ 32 else i % 2 ^ 32 - 2 ^ 32

/-- The tag `colorFormat` of a decoder output record (`avc_decoder_color_format_t`); every value
other than the two named ones is `other`. -/
inductive AvcDecoderColorFormat where
  | AVCDECODER_COLORFORMAT_YUV420PLANAR
  | AVCDECODER_COLORFORMAT_YUV420SEMIPLANAR
  | other (tag : Nat)
  deriving DecidableEq, Repr

/-- The type `gles2_video_color_conversion_t`. -/
inductive Gles2VideoColorConversion where
  | GLES2_VIDEO_COLOR_CONVERSION_NONE
  | GLES2_VIDEO_COLOR_CONVERSION_YUV420PLANAR_TO_RGB
  | GLES2_VIDEO_COLOR_CONVERSION_YUV420SEMIPLANAR_TO_RGB
  deriving DecidableEq, Repr

/-- Modelled from the spec: `GLES2_VIDEO_TEX_UNIT_COUNT` is defined in `pdraw_gles2_video.hpp`,
which is not part of the sources at hand; the draw step uploads up to 3 textures, one per plane. -/
def GLES2_VIDEO_TEX_UNIT_COUNT : Nat := 3

/-- The fields of `video_frame_metadata_t` that the renderer reads. -/
structure VideoFrameMetadata where
  cameraPan : ℚ
  cameraTilt : ℚ
  deriving DecidableEq, Repr

/-- The record `avc_decoder_output_buffer_t` a buffer's metadata pointer points to. -/
structure AvcDecoderOutputBuffer where
  plane0 : Nat
  plane1 : Nat
  plane2 : Nat
  stride0 : Nat
  stride1 : Nat
  stride2 : Nat
  width : Nat
  height : Nat
  sarWidth : Nat
  sarHeight : Nat
  colorFormat : AvcDecoderColorFormat
  metadata : VideoFrameMetadata
  demuxOutputTimestamp : Nat
  decoderOutputTimestamp : Nat
  auNtpTimestampLocal : Nat
  deriving DecidableEq, Repr

/-- A decoder output buffer (the target of a non-null `Buffer *`): its identity and what
`getMetadataPtr()` returns. -/
structure Buffer where
  id : Nat
  metadataPtr : Option AvcDecoderOutputBuffer
  deriving DecidableEq, Repr

/-- What `Settings::getDisplayScreenSettings` and `getHmdDistorsionCorrectionSettings` write. -/
structure Settings where
  xdpi : ℚ
  ydpi : ℚ
  deviceMargin : ℚ
  hmdModel : Nat
  ipd : ℚ
  scale : ℚ
  panH : ℚ
  panV : ℚ
  deriving DecidableEq, Repr

/-- The four shaders compiled by the `Gles2Video` constructor. -/
inductive Shader where
  | vertexShader
  | fragmentShaderNoconv
  | fragmentShaderYuvsp
  | fragmentShaderYuvp
  deriving DecidableEq, Repr

/-- The OpenGL ES entry points called by the renderer and the video sub-renderer. -/
inductive GlFn where
  | glClearColor | glClear | glDisable | glEnable | glViewport
  | glGenFramebuffers | glBindFramebuffer | glDeleteFramebuffers
  | glGenTextures | glActiveTexture | glBindTexture | glTexImage2D | glDeleteTextures
  | glTexParameteri | glTexParameterf
  | glGenRenderbuffers | glBindRenderbuffer | glRenderbufferStorage | glDeleteRenderbuffers
  | glFramebufferTexture2D | glFramebufferRenderbuffer | glCheckFramebufferStatus
  | glCreateShader | glShaderSource | glCompileShader | glGetShaderiv | glGetShaderInfoLog
  | glDeleteShader
  | glCreateProgram | glAttachShader | glLinkProgram | glGetProgramiv | glGetProgramInfoLog
  | glDeleteProgram | glUseProgram
  | glGetUniformLocation | glGetAttribLocation
  | glUniform1i | glUniformMatrix4fv
  | glVertexAttribPointer | glEnableVertexAttribArray | glDisableVertexAttribArray
  | glDrawArrays
  deriving DecidableEq, Repr

/-- A call made by the renderer on one of its collaborators. GL calls carry their integer
arguments that are not compile-time constants (object names, sizes, texture units); float and
pointer payloads are left out. -/
inductive Event where
  /-- The call `decoder->addOutputQueue()`. -/
  | addOutputQueue (decoder : DecoderId)
  /-- The call `decoder->removeOutputQueue(queue)` and the value it returned. -/
  | removeOutputQueue (decoder : DecoderId) (queue : QueueHandle) (ret : Int)
  /-- The call `decoder->getMedia()`. -/
  | getMedia (decoder : DecoderId)
  /-- The call `decoder->dequeueOutputBuffer(queue, &buffer, false)`, the value it returned and
  the pointer it stored in `buffer` (`none`: it stored nothing). -/
  | dequeueOutputBuffer (decoder : DecoderId) (queue : Option QueueHandle) (ret : Int)
      (buffer : Option Buffer)
  /-- The call `decoder->releaseOutputBuffer(buffer)`. -/
  | releaseOutputBuffer (decoder : DecoderId) (buffer : Buffer)
  /-- A GL call. -/
  | gl (fn : GlFn) (args : List Int)
  /-- The expression `new Gles2Video(...)`, `new Gles2Hud(...)`, `new Gles2Hmd(...)`. -/
  | newGles2Video | newGles2Hud | newGles2Hmd
  /-- The statement `delete mGles2Video`, `delete mGles2Hud`, `delete mGles2Hmd`. -/
  | deleteGles2Video | deleteGles2Hud | deleteGles2Hmd
  /-- The call `mGles2Video->setVideoMedia(media)`, `mGles2Hud->setVideoMedia(media)`. -/
  | videoSetVideoMedia (media : Option MediaId)
  | hudSetVideoMedia (media : Option MediaId)
  /-- The call `mGles2Video->renderFrame(...)` on the record `data`. -/
  | renderFrame (data : AvcDecoderOutputBuffer) (windowWidth windowHeight : Nat)
      (colorConversion : Gles2VideoColorConversion) (headtracking : Bool)
  /-- The call `mGles2Hud->renderHud(...)`. -/
  | renderHud (videoWidth videoHeight : Nat) (windowWidth windowHeight : Int)
      (metadata : VideoFrameMetadata) (hmdDistorsionCorrection headtracking : Bool)
  /-- The call `mGles2Hmd->renderHmd(texture, width, height)`. -/
  | renderHmd (texture : Nat) (width height : Int)
  /-- A member call through the `Session *` held by the renderer; `none` is a call through a
  null pointer. -/
  | sessionGetSettings (session : Option SessionId)
  | sessionGetCurrentTime (session : Option SessionId)
  | sessionGetDuration (session : Option SessionId)
  | sessionGetSelfMetadata (session : Option SessionId)
  /-- The call `mMedia->getFov(&hFov, &vFov)` of the video sub-renderer. -/
  | mediaGetFov (media : MediaId)
  /-- The call `clock_gettime(CLOCK_MONOTONIC, &t1)`. -/
  | clockGettime
  deriving DecidableEq, Repr

/-- What the collaborators answer during one call into the renderer. -/
structure Env where
  /-- Whether `new Gles2Video` / `new Gles2Hud` / `new Gles2Hmd` yields a non-null pointer. -/
  newGles2VideoOk : Bool
  newGles2HudOk : Bool
  newGles2HmdOk : Bool
  /-- The name written by `glGenFramebuffers`, `glGenTextures`, `glGenRenderbuffers` in
  `initGles2` (0: none was produced). -/
  genFramebuffer : Nat
  genTexture : Nat
  genRenderbuffer : Nat
  /-- Whether `glCheckFramebufferStatus` answers `GL_FRAMEBUFFER_COMPLETE`. -/
  framebufferComplete : Bool
  /-- What `mSession->getSettings()` gives: `none` is a null pointer. -/
  sessionSettings : Option Settings
  /-- What `mSession->getCurrentTime()` and `getDuration()` return. -/
  sessionCurrentTime : Nat
  sessionDuration : Nat
  /-- What `glCreateShader` returns for each shader, and its `GL_COMPILE_STATUS`. -/
  createShader : Shader → Int
  compileStatus : Shader → Bool
  /-- What `glCreateProgram` returns for each variant, and its `GL_LINK_STATUS`. -/
  createProgram : Gles2VideoColorConversion → Nat
  linkStatus : Gles2VideoColorConversion → Bool
  /-- The three names written by `glGenTextures` in the `Gles2Video` constructor. -/
  videoTextures : Nat × Nat × Nat
  /-- What `Gles2Hud::renderHud` and `Gles2Hmd::renderHmd` return. -/
  renderHudRet : Int
  renderHmdRet : Int

/-! ## The decoder collaborator -/

/-- Modelled from the spec: class `AvcDecoder` is declared and defined outside the sources at
hand. Section 6 gives its interface: `addOutputQueue() → QueueHandle | Error`,
`dequeueOutputBuffer(queue, nonBlocking) → Buffer | Empty | Error`,
`releaseOutputBuffer(buffer) → Error?`, `removeOutputQueue(queue) → Error?`,
`isConfigured() → bool`, `getMediaDescriptor() → MediaRef`.
The state of a decoder is what those calls answer: the buffers waiting in each output queue
(oldest first) and the outcome of the other calls. -/
structure AvcDecoder where
  configured : Bool
  media : Option MediaId
  addOutputQueueResult : Option QueueHandle
  removeOutputQueueResult : QueueHandle → Int
  releaseOutputBufferResult : Buffer → Int
  outputQueue : QueueHandle → List Buffer

/-- Modelled from the spec: `isConfigured() → bool`. -/
def AvcDecoder.isConfigured (dec : AvcDecoder) : Bool := dec.configured

/-- Modelled from the spec: `getMediaDescriptor() → MediaRef` (`getMedia()` in the code). -/
def AvcDecoder.getMedia (dec : AvcDecoder) : Option MediaId := dec.media

/-- Modelled from the spec: `addOutputQueue() → QueueHandle | Error`; a null result is the
error. -/
def AvcDecoder.addOutputQueue (dec : AvcDecoder) : Option QueueHandle := dec.addOutputQueueResult

/-- Modelled from the spec: `removeOutputQueue(queue) → Error?`; 0 is success. -/
def AvcDecoder.removeOutputQueue (dec : AvcDecoder) (queue : QueueHandle) : Int :=
  dec.removeOutputQueueResult queue

/-- Modelled from the spec: `releaseOutputBuffer(buffer) → Error?`; 0 is success. -/
def AvcDecoder.releaseOutputBuffer (dec : AvcDecoder) (buffer : Buffer) : Int :=
  dec.releaseOutputBufferResult buffer

/-- Modelled from the spec: `dequeueOutputBuffer(queue, nonBlocking) → Buffer | Empty | Error`.
The result is the return code, the buffer written through the out-parameter (only on success)
and the decoder afterwards. The code 0 is success; -2 is "empty" (the one failure the caller
does not log); -1 is an error, reported for a null queue or a decoder that is not configured. -/
def AvcDecoder.dequeueOutputBuffer (dec : AvcDecoder) (queue : Option QueueHandle) :
    Int × Option Buffer × AvcDecoder :=
  match queue with
  | none => (-1, none, dec)
  | some q =>
    if dec.configured = false then (-1, none, dec)
    else
      match dec.outputQueue q with
      | [] => (-2, none, dec)
      | b :: rest =>
        (0, some b, { dec with outputQueue := Function.update dec.outputQueue q rest })

/-- The decoder objects that exist, by identity. -/
structure World where
  decoders : DecoderId → AvcDecoder

/-- The world after the decoder object `d` has become `dec`. -/
def World.setDecoder (w : World) (d : DecoderId) (dec : AvcDecoder) : World :=
  { decoders := Function.update w.decoders d dec }

/-! ## The video sub-renderer (`pdraw_gles2_video.cpp`) -/

/-- The members of a `Gles2Video` object. A member the constructor has not assigned is `none`
(its value is indeterminate); the cached uniform and attribute locations are left out. -/
structure Gles2Video where
  mSession : Option SessionId
  mMedia : Option MediaId
  mFirstTexUnit : Nat
  /-- The entry `mProgram[GLES2_VIDEO_COLOR_CONVERSION_NONE]`. -/
  mProgramNone : Option Nat
  /-- The entry `mProgram[GLES2_VIDEO_COLOR_CONVERSION_YUV420PLANAR_TO_RGB]`. -/
  mProgramYuvp : Option Nat
  /-- The entry `mProgram[GLES2_VIDEO_COLOR_CONVERSION_YUV420SEMIPLANAR_TO_RGB]`. -/
  mProgramYuvsp : Option Nat
  mTextures : Option (Nat × Nat × Nat)
  deriving DecidableEq, Repr

/-- The integer argument list of a GL call on an object name held in a member: empty when the
member was never assigned. -/
def glName (name : Option Nat) : List Int :=
  match name with
  | none => []
  | some n => [(n : Int)]

/-- The entry `mProgram[colorConversion]`. -/
def Gles2Video.mProgram (self : Gles2Video) (colorConversion : Gles2VideoColorConversion) :
    Option Nat :=
  match colorConversion with
  | .GLES2_VIDEO_COLOR_CONVERSION_NONE => self.mProgramNone
  | .GLES2_VIDEO_COLOR_CONVERSION_YUV420PLANAR_TO_RGB => self.mProgramYuvp
  | .GLES2_VIDEO_COLOR_CONVERSION_YUV420SEMIPLANAR_TO_RGB => self.mProgramYuvsp

/-- The entry `mTextures[i]`. -/
def Gles2Video.texture (self : Gles2Video) (i : Nat) : Option Nat :=
  match self.mTextures with
  | none => none
  | some (t0, t1, t2) => if i = 0 then some t0 else if i = 1 then some t1 else some t2

/-- One "create the shader" block followed by one "compile the shader" block of the
constructor, both guarded by `ret == 0`: the new value of `ret` and the GL calls made. -/
def Gles2Video.compileShader (env : Env) (shader : Shader) (ret : Int) : Int × List Event :=
  if ret ≠ 0 then (ret, [])
  else
    let handle := env.createShader shader
    if handle = 0 ∨ handle = 1280 then (-1, [Event.gl .glCreateShader []])
    else
      let calls := [Event.gl .glCreateShader [], Event.gl .glShaderSource [handle],
        Event.gl .glCompileShader [handle], Event.gl .glGetShaderiv [handle]]
      if env.compileStatus shader then (0, calls)
      else (-1, calls ++ [Event.gl .glGetShaderInfoLog [handle]])

/-- One "link shaders" block of the constructor, guarded by `ret == 0`: the new value of `ret`,
the value assigned to `mProgram[colorConversion]` (if the block ran) and the GL calls made. -/
def Gles2Video.linkProgram (env : Env) (colorConversion : Gles2VideoColorConversion)
    (vertexShader fragmentShader : Int) (ret : Int) : Int × Option Nat × List Event :=
  if ret ≠ 0 then (ret, none, [])
  else
    let program := env.createProgram colorConversion
    let calls := [Event.gl .glCreateProgram [], Event.gl .glAttachShader [program, vertexShader],
      Event.gl .glAttachShader [program, fragmentShader], Event.gl .glLinkProgram [program],
      Event.gl .glGetProgramiv [program]]
    if env.linkStatus colorConversion then (0, some program, calls)
    else (-1, some program, calls ++ [Event.gl .glGetProgramInfoLog [program]])

/-- The six location look-ups the constructor makes on one linked program. -/
def Gles2Video.cacheLocations (program : Nat) : List Event :=
  [Event.gl .glGetUniformLocation [program], Event.gl .glGetUniformLocation [program],
   Event.gl .glGetUniformLocation [program], Event.gl .glGetUniformLocation [program],
   Event.gl .glGetAttribLocation [program], Event.gl .glGetAttribLocation [program]]

/-- The constructor `Gles2Video::Gles2Video(session, media, firstTexUnit)`: the object built and
the GL calls made. The local `ret` is not stored and not returned. -/
def Gles2Video.new (env : Env) (session : Option SessionId) (media : Option MediaId)
    (firstTexUnit : Nat) : Gles2Video × List Event :=
  let s1 := Gles2Video.compileShader env .vertexShader 0
  let s2 := Gles2Video.compileShader env .fragmentShaderNoconv s1.1
  let s3 := Gles2Video.compileShader env .fragmentShaderYuvsp s2.1
  let s4 := Gles2Video.compileShader env .fragmentShaderYuvp s3.1
  let l1 := Gles2Video.linkProgram env .GLES2_VIDEO_COLOR_CONVERSION_NONE
    (env.createShader .vertexShader) (env.createShader .fragmentShaderNoconv) s4.1
  let l2 := Gles2Video.linkProgram env .GLES2_VIDEO_COLOR_CONVERSION_YUV420PLANAR_TO_RGB
    (env.createShader .vertexShader) (env.createShader .fragmentShaderYuvp) l1.1
  let l3 := Gles2Video.linkProgram env .GLES2_VIDEO_COLOR_CONVERSION_YUV420SEMIPLANAR_TO_RGB
    (env.createShader .vertexShader) (env.createShader .fragmentShaderYuvsp) l2.1
  let ret := l3.1
  let deleteShaders : List Event :=
    if ret = 0 then
      [Event.gl .glDeleteShader [env.createShader .vertexShader],
       Event.gl .glDeleteShader [env.createShader .fragmentShaderNoconv],
       Event.gl .glDeleteShader [env.createShader .fragmentShaderYuvp],
       Event.gl .glDeleteShader [env.createShader .fragmentShaderYuvsp]]
    else []
  let finish : List Event :=
    if ret = 0 then
      Gles2Video.cacheLocations (env.createProgram .GLES2_VIDEO_COLOR_CONVERSION_NONE)
      ++ Gles2Video.cacheLocations
          (env.createProgram .GLES2_VIDEO_COLOR_CONVERSION_YUV420PLANAR_TO_RGB)
      ++ Gles2Video.cacheLocations
          (env.createProgram .GLES2_VIDEO_COLOR_CONVERSION_YUV420SEMIPLANAR_TO_RGB)
      ++ [Event.gl .glGenTextures [(GLES2_VIDEO_TEX_UNIT_COUNT : Int)]]
      ++ (List.range GLES2_VIDEO_TEX_UNIT_COUNT).flatMap (fun i =>
          [Event.gl .glActiveTexture [((firstTexUnit + i : Nat) : Int)],
           Event.gl .glBindTexture
             [((if i = 0 then env.videoTextures.1 else if i = 1 then env.videoTextures.2.1
                else env.videoTextures.2.2 : Nat) : Int)],
           Event.gl .glTexParameteri [], Event.gl .glTexParameteri [],
           Event.gl .glTexParameterf [], Event.gl .glTexParameterf []])
    else []
  ({ mSession := session
     mMedia := media
     mFirstTexUnit := firstTexUnit
     mProgramNone := l1.2.1
     mProgramYuvp := l2.2.1
     mProgramYuvsp := l3.2.1
     mTextures := if ret = 0 then some env.videoTextures else none },
   s1.2 ++ s2.2 ++ s3.2 ++ s4.2 ++ l1.2.2 ++ l2.2.2 ++ l3.2.2 ++ deleteShaders ++ finish)

/-- The destructor `Gles2Video::~Gles2Video()`: the GL calls made. -/
def Gles2Video.delete (self : Gles2Video) : List Event :=
  [Event.gl .glDeleteTextures
     (match self.mTextures with
      | none => []
      | some (t0, t1, t2) => [(t0 : Int), (t1 : Int), (t2 : Int)]),
   Event.gl .glDeleteProgram (glName self.mProgramYuvp),
   Event.gl .glDeleteProgram (glName self.mProgramYuvsp)]

/-- The member function `Gles2Video::setVideoMedia(media)`. -/
def Gles2Video.setVideoMedia (self : Gles2Video) (media : Option MediaId) : Gles2Video :=
  { self with mMedia := media }

/-- The texture set-up of `Gles2Video::renderFrame` (the `switch (colorConversion)`). The
argument of `glUniform1i` and the sizes given to `glTexImage2D` are computed in unsigned or
`long` arithmetic and converted to 32-bit `GLint` / `GLsizei` at the call. -/
def Gles2Video.uploadTextures (self : Gles2Video) (framePlane frameStride : Nat × Nat × Nat)
    (frameHeight : Nat) (colorConversion : Gles2VideoColorConversion) : List Event :=
  match colorConversion with
  | .GLES2_VIDEO_COLOR_CONVERSION_NONE =>
    [Event.gl .glUniform1i [toGLint ((self.mFirstTexUnit + framePlane.1 : Nat) : Int)]]
  | .GLES2_VIDEO_COLOR_CONVERSION_YUV420PLANAR_TO_RGB =>
    (List.range GLES2_VIDEO_TEX_UNIT_COUNT).flatMap (fun i =>
      [Event.gl .glActiveTexture [((self.mFirstTexUnit + i : Nat) : Int)],
       Event.gl .glBindTexture (glName (self.texture i)),
       Event.gl .glUniform1i [toGLint ((self.mFirstTexUnit + i : Nat) : Int)],
       Event.gl .glTexImage2D
         [toGLint ((if i = 0 then frameStride.1 else if i = 1 then frameStride.2.1
            else frameStride.2.2 : Nat) : Int),
          toGLint ((frameHeight / (if i > 0 then 2 else 1) : Nat) : Int)]])
  | .GLES2_VIDEO_COLOR_CONVERSION_YUV420SEMIPLANAR_TO_RGB =>
    [Event.gl .glActiveTexture [((self.mFirstTexUnit + 0 : Nat) : Int)],
     Event.gl .glBindTexture (glName (self.texture 0)),
     Event.gl .glUniform1i [toGLint ((self.mFirstTexUnit + 0 : Nat) : Int)],
     Event.gl .glTexImage2D [toGLint (frameStride.1 : Int), toGLint (frameHeight : Int)],
     Event.gl .glActiveTexture [((self.mFirstTexUnit + 1 : Nat) : Int)],
     Event.gl .glBindTexture (glName (self.texture 1)),
     Event.gl .glUniform1i [toGLint ((self.mFirstTexUnit + 1 : Nat) : Int)],
     Event.gl .glTexImage2D
       [toGLint ((frameStride.2.1 / 2 : Nat) : Int), toGLint ((frameHeight / 2 : Nat) : Int)]]

/-- The branch `if ((headtracking) && (mSession))` of `Gles2Video::renderFrame`: the calls made
on the session and on the media. -/
def Gles2Video.readHeadOrientation (self : Gles2Video) (headtracking : Bool) : List Event :=
  match headtracking, self.mSession with
  | true, some s =>
    [Event.sessionGetSelfMetadata (some s), Event.sessionGetSelfMetadata (some s)]
      ++ (match self.mMedia with
          | some m => [Event.mediaGetFov m]
          | none => [])
  | _, _ => []

/-- The member function `Gles2Video::renderFrame`: the value returned and the calls made. The
vertex, texture-coordinate and matrix values it computes are float payloads of the GL calls
and do not influence the value returned. -/
def Gles2Video.renderFrame (self : Gles2Video) (framePlane frameStride : Nat × Nat × Nat)
    (frameWidth frameHeight sarWidth sarHeight windowWidth windowHeight : Nat)
    (colorConversion : Gles2VideoColorConversion) (headtracking : Bool) : Int × List Event :=
  if frameWidth = 0 ∨ frameHeight = 0 ∨ sarWidth = 0 ∨ sarHeight = 0
      ∨ windowWidth = 0 ∨ windowHeight = 0 ∨ frameStride.1 = 0 then
    (-1, [])
  else
    (0,
      [Event.gl .glUseProgram (glName (self.mProgram colorConversion)),
       Event.gl .glEnable [], Event.gl .glClear []]
      ++ self.uploadTextures framePlane frameStride frameHeight colorConversion
      ++ self.readHeadOrientation headtracking
      ++ [Event.gl .glUniformMatrix4fv [], Event.gl .glVertexAttribPointer [],
          Event.gl .glEnableVertexAttribArray [], Event.gl .glVertexAttribPointer [],
          Event.gl .glEnableVertexAttribArray [], Event.gl .glDrawArrays [0, 4],
          Event.gl .glDisableVertexAttribArray [], Event.gl .glDisableVertexAttribArray []])

/-! ### The values computed by `Gles2Video::renderFrame` and by the shaders

The `float` values `Gles2Video::renderFrame` and the shaders compute are taken in a linearly
ordered field `K` with exact arithmetic: rounding is not modelled. What the code takes from
outside this file (`cosf`, `sinf`, `M_PI`, the quaternion helpers of `pdraw_utils`) is read from
a `MathOps` record; the type `quaternion_t` is a parameter `Q`. -/

/-- A GLSL `vec4`, components `x y z w` (for a color: `r g b a`). -/
structure Vec4 (K : Type) where
  x : K
  y : K
  z : K
  w : K
  deriving DecidableEq, Repr

/-- The type `euler_t`: yaw `psi`, pitch `theta`, roll `phi`. -/
structure Euler (K : Type) where
  psi : K
  theta : K
  phi : K
  deriving DecidableEq, Repr

/-- The functions `Gles2Video::renderFrame` calls that are defined outside the sources at hand:
`cosf` and `sinf` of the math library with the constant `M_PI`, and `pdraw_quat_conj`,
`pdraw_quat_mult`, `pdraw_quat2euler` of `pdraw_utils` (each writes its result through its last
argument). -/
structure MathOps (K Q : Type) where
  cosf : K → K
  sinf : K → K
  M_PI : K
  pdraw_quat_conj : Q → Q
  pdraw_quat_mult : Q → Q → Q
  pdraw_quat2euler : Q → Euler K

/-- The macro `PDRAW_GLES2_VIDEO_DEFAULT_HFOV`. -/
def PDRAW_GLES2_VIDEO_DEFAULT_HFOV {K : Type} [LinearOrderedField K] : K := 78

/-- The macro `PDRAW_GLES2_VIDEO_DEFAULT_VFOV`. -/
def PDRAW_GLES2_VIDEO_DEFAULT_VFOV {K : Type} [LinearOrderedField K] : K := 49

/-- The locals of the block "Keep the video aspect ratio" of `Gles2Video::renderFrame`. -/
structure AspectFit (K : Type) where
  windowAR : K
  sar : K
  videoAR : K
  windowW : K
  windowH : K
  ratioW : K
  ratioH : K
  videoW : K
  videoH : K
  deriving DecidableEq, Repr

/-- The block "Keep the video aspect ratio" of `Gles2Video::renderFrame`, up to `videoH`. The
two branches of its `if` assign `ratioW`, `ratioH`, `windowW`, `windowH`, in this order in the
tuple `fit`. -/
def aspectFit {K : Type} [LinearOrderedField K]
    (frameWidth frameHeight sarWidth sarHeight windowWidth windowHeight : Nat) : AspectFit K :=
  let windowAR : K := (windowWidth : K) / (windowHeight : K)
  let sar : K := (sarWidth : K) / (sarHeight : K)
  let videoAR : K := (frameWidth : K) / (frameHeight : K) * sar
  let fit : K × K × K × K :=
    if videoAR ≥ windowAR then (1, windowAR / videoAR, 1, windowAR)
    else (videoAR / windowAR, 1, 1, windowAR)
  { windowAR := windowAR
    sar := sar
    videoAR := videoAR
    windowW := fit.2.2.1
    windowH := fit.2.2.2
    ratioW := fit.1
    ratioH := fit.2.1
    videoW := fit.1 / fit.2.2.1
    videoH := fit.2.1 / fit.2.2.2 }

/-- The locals `deltaX`, `deltaY`, `angle` of `Gles2Video::renderFrame`. -/
structure HeadTracking (K : Type) where
  deltaX : K
  deltaY : K
  angle : K
  deriving DecidableEq, Repr

/-- The field of view `Gles2Video::renderFrame` uses, in degrees: `hFov` and `vFov` start at 0,
`mMedia->getFov` overwrites them with `mediaFov` when `mMedia` is set, and a value equal to 0 is
replaced by the default. -/
def Gles2Video.fovDegrees {K : Type} [LinearOrderedField K] (self : Gles2Video)
    (mediaFov : K × K) : K × K :=
  let fov : K × K :=
    match self.mMedia with
    | some _ => mediaFov
    | none => (0, 0)
  (if fov.1 = 0 then PDRAW_GLES2_VIDEO_DEFAULT_HFOV else fov.1,
   if fov.2 = 0 then PDRAW_GLES2_VIDEO_DEFAULT_VFOV else fov.2)

/-- The statements of `Gles2Video::renderFrame` from `float deltaX = 0.` to the end of the branch
`if ((headtracking) && (mSession))`. The arguments `headQuat` and `headRefQuat` are what the
session's self metadata writes, `mediaFov` is what `mMedia->getFov` writes. -/
def Gles2Video.headTracking {K Q : Type} [LinearOrderedField K] (ops : MathOps K Q)
    (self : Gles2Video) (headtracking : Bool) (headQuat headRefQuat : Q) (mediaFov : K × K)
    (metadata : VideoFrameMetadata) (ratioW ratioH : K) : HeadTracking K :=
  match headtracking, self.mSession with
  | true, some _ =>
    let headRefQuatInv := ops.pdraw_quat_conj headRefQuat
    let headDiff := ops.pdraw_quat_mult headQuat headRefQuatInv
    let headOrientation := ops.pdraw_quat2euler headDiff
    let hFov : K := (self.fovDegrees mediaFov).1 * ops.M_PI / 180
    let vFov : K := (self.fovDegrees mediaFov).2 * ops.M_PI / 180
    let scaleW : K := hFov / ratioW
    let scaleH : K := vFov / ratioH
    { deltaX := (headOrientation.psi - (metadata.cameraPan : K)) / scaleW * 2
      deltaY := (headOrientation.theta - (metadata.cameraTilt : K)) / scaleH * 2
      angle := headOrientation.phi }
  | _, _ => { deltaX := 0, deltaY := 0, angle := 0 }

/-- The array `vertices[8]` of `Gles2Video::renderFrame`. -/
def quadVertices {K : Type} [LinearOrderedField K] (videoW videoH : K) : List K :=
  [-videoW, -videoH, videoW, -videoH, -videoW, videoH, videoW, videoH]

/-- The array `transformMatrix[16]` of `Gles2Video::renderFrame`. -/
def transformMatrix {K : Type} [LinearOrderedField K] (cosf sinf : K → K)
    (angle windowW windowH deltaX deltaY : K) : List K :=
  [cosf angle * windowW, -sinf angle * windowW, 0, -deltaX,
   sinf angle * windowH, cosf angle * windowH, 0, -deltaY,
   0, 0, 1, 0,
   0, 0, 0, 1]

/-- The array `texCoords[8]` of `Gles2Video::renderFrame`. -/
def texCoords {K : Type} [LinearOrderedField K] (frameWidth frameStride0 : Nat) : List K :=
  [0, 1, (frameWidth : K) / (frameStride0 : K), 1, 0, 0, (frameWidth : K) / (frameStride0 : K), 0]

/-- The three arrays `Gles2Video::renderFrame` hands to GL: `transformMatrix` to
`glUniformMatrix4fv`, `vertices` and `texCoords` to `glVertexAttribPointer`. -/
structure FrameGeometry (K : Type) where
  vertices : List K
  texCoords : List K
  transformMatrix : List K
  deriving DecidableEq, Repr

/-- The float payloads of the GL calls `Gles2Video::renderFrame` makes: `none` when it returns -1
at its test of the dimensions, before any of them is computed. -/
def Gles2Video.frameGeometry {K Q : Type} [LinearOrderedField K] (ops : MathOps K Q)
    (self : Gles2Video) (headQuat headRefQuat : Q) (mediaFov : K × K)
    (frameStride : Nat × Nat × Nat)
    (frameWidth frameHeight sarWidth sarHeight windowWidth windowHeight : Nat)
    (metadata : VideoFrameMetadata) (headtracking : Bool) : Option (FrameGeometry K) :=
  if frameWidth = 0 ∨ frameHeight = 0 ∨ sarWidth = 0 ∨ sarHeight = 0
      ∨ windowWidth = 0 ∨ windowHeight = 0 ∨ frameStride.1 = 0 then
    none
  else
    let fit : AspectFit K :=
      aspectFit frameWidth frameHeight sarWidth sarHeight windowWidth windowHeight
    let ht := self.headTracking ops headtracking headQuat headRefQuat mediaFov metadata
      fit.ratioW fit.ratioH
    some
      { vertices := quadVertices fit.videoW fit.videoH
        texCoords := texCoords frameWidth frameStride.1
        transformMatrix :=
          transformMatrix ops.cosf ops.sinf ht.angle fit.windowW fit.windowH ht.deltaX ht.deltaY }

/-- The attribute `position` of the vertex shader for vertex `i`: two floats are read from
`vertices` (`glVertexAttribPointer(..., 2, GL_FLOAT, ...)`), `z` is 0 and `w` is 1. -/
def vertexPosition {K : Type} [LinearOrderedField K] (vertices : List K) (i : Nat) : Vec4 K :=
  { x := vertices.getD (2 * i) 0, y := vertices.getD (2 * i + 1) 0, z := 0, w := 1 }

/-- The attribute `texcoord` of the vertex shader for vertex `i`. -/
def vertexTexcoord {K : Type} [LinearOrderedField K] (texCoords : List K) (i : Nat) : K × K :=
  (texCoords.getD (2 * i) 0, texCoords.getD (2 * i + 1) 0)

/-- The statement `gl_Position = position * transform_matrix;` of `videoVertexShader`. The
uniform is uploaded with `transpose = false`: the sixteen floats are the columns of the `mat4`,
and component `j` of `vector * matrix` is the dot product of the vector with column `j`. -/
def videoVertexShader {K : Type} [LinearOrderedField K] (transform_matrix : List K)
    (position : Vec4 K) : Vec4 K :=
  let m := fun i => transform_matrix.getD i 0
  { x := position.x * m 0 + position.y * m 1 + position.z * m 2 + position.w * m 3
    y := position.x * m 4 + position.y * m 5 + position.z * m 6 + position.w * m 7
    z := position.x * m 8 + position.y * m 9 + position.z * m 10 + position.w * m 11
    w := position.x * m 12 + position.y * m 13 + position.z * m 14 + position.w * m 15 }

/-- The body of `video420PlanarFragmentShader`: the arguments are the samples
`texture2D(s_texture_0, v_texcoord)`, `texture2D(s_texture_1, v_texcoord)` and
`texture2D(s_texture_2, v_texcoord)`, the result is `gl_FragColor`. -/
def video420PlanarFragmentShader {K : Type} [LinearOrderedField K]
    (texture0 texture1 texture2 : Vec4 K) : Vec4 K :=
  let y := texture0.x
  let u := texture1.x - 0.5
  let v := texture2.x - 0.5
  let r := y + 1.402 * v
  let g := y - 0.344 * u - 0.714 * v
  let b := y + 1.772 * u
  { x := r, y := g, z := b, w := 1.0 }

/-- The body of `video420SemiplanarFragmentShader`: the arguments are the samples
`texture2D(s_texture_0, v_texcoord)` and `texture2D(s_texture_1, v_texcoord)`, the result is
`gl_FragColor`. -/
def video420SemiplanarFragmentShader {K : Type} [LinearOrderedField K]
    (texture0 texture1 : Vec4 K) : Vec4 K :=
  let y := texture0.x
  let uv := texture1
  let u := uv.x - 0.5
  let v := uv.w - 0.5
  let r := y + 1.402 * v
  let g := y - 0.344 * u - 0.714 * v
  let b := y + 1.772 * u
  { x := r, y := g, z := b, w := 1.0 }

/-- The body of `videoNoconvFragmentShader`. -/
def videoNoconvFragmentShader {K : Type} (texture0 : Vec4 K) : Vec4 K := texture0

/-- The entry in row `r` and column `c` (both counted from 0) of a sixteen-float array read row by
row, four floats to a row. -/
def rowMajorEntry {K : Type} [LinearOrderedField K] (m : List K) (r c : Nat) : K :=
  m.getD (4 * r + c) 0

/-- The entry in row `r` and column `c` (both counted from 0) of a sixteen-float array read
column by column, which is how `glUniformMatrix4fv` with `transpose = false` fills a `mat4`. -/
def columnMajorEntry {K : Type} [LinearOrderedField K] (m : List K) (r c : Nat) : K :=
  m.getD (4 * c + r) 0

/-! ## The renderer (`pdraw_renderer_gles2.cpp`) -/

/-- The overlay sub-renderer object; class `Gles2Hud` is defined outside the sources at hand, the
record keeps the constructor arguments. -/
structure Gles2Hud where
  mSession : Option SessionId
  mMedia : Option MediaId
  mFirstTexUnit : Nat
  deriving DecidableEq, Repr

/-- The distortion-correction sub-renderer object; class `Gles2Hmd` is defined outside the
sources at hand, the record keeps the constructor arguments (`settings = none` for the
three-argument constructor call). -/
structure Gles2Hmd where
  firstTexUnit : Nat
  width : Int
  height : Int
  settings : Option Settings
  deriving DecidableEq, Repr

/-- The members of a `Gles2Renderer` object (the mutex apart). -/
structure Gles2Renderer where
  mRunning : Bool
  mSession : Option SessionId
  mMedia : Option MediaId
  mWindowWidth : Int
  mWindowHeight : Int
  mRenderX : Int
  mRenderY : Int
  mRenderWidth : Int
  mRenderHeight : Int
  mDecoder : Option DecoderId
  mDecoderOutputBufferQueue : Option QueueHandle
  mCurrentBuffer : Option Buffer
  mGles2Video : Option Gles2Video
  mGles2Hud : Option Gles2Hud
  mGles2HmdFirstTexUnit : Nat
  mGles2VideoFirstTexUnit : Nat
  mGles2HudFirstTexUnit : Nat
  mHmdDistorsionCorrection : Bool
  mHeadtracking : Bool
  mGles2Hmd : Option Gles2Hmd
  mFbo : Nat
  mFboTexture : Nat
  mFboRenderBuffer : Nat
  deriving DecidableEq, Repr

/-- What a member function of the renderer leaves behind: the value returned, the renderer, the
world and the calls made on the collaborators, in program order. -/
structure Outcome (α : Type) where
  ret : α
  self : Gles2Renderer
  world : World
  events : List Event

/-- The constructor `Gles2Renderer::Gles2Renderer(session, initGles2)`. The value of
`Gles2Hmd::getTexUnitCount()` is an argument (class `Gles2Hmd` is outside the sources at hand);
`Gles2Video::getTexUnitCount()` is `GLES2_VIDEO_TEX_UNIT_COUNT`. The constructor does not assign
`mHeadtracking`: its indeterminate value is the argument `headtracking`. -/
def Gles2Renderer.new (session : Option SessionId) (hmdTexUnitCount : Nat)
    (headtracking : Bool) : Gles2Renderer :=
  { mRunning := false
    mSession := session
    mMedia := none
    mWindowWidth := 0
    mWindowHeight := 0
    mRenderX := 0
    mRenderY := 0
    mRenderWidth := 0
    mRenderHeight := 0
    mDecoder := none
    mDecoderOutputBufferQueue := none
    mCurrentBuffer := none
    mGles2Video := none
    mGles2Hud := none
    mGles2HmdFirstTexUnit := 0
    mGles2VideoFirstTexUnit := 0 + hmdTexUnitCount
    mGles2HudFirstTexUnit := 0 + hmdTexUnitCount + GLES2_VIDEO_TEX_UNIT_COUNT
    mHmdDistorsionCorrection := false
    mHeadtracking := headtracking
    mGles2Hmd := none
    mFbo := 0
    mFboTexture := 0
    mFboRenderBuffer := 0 }

/-- The member function `Gles2Renderer::destroyGles2()`: the value returned (always 0), the
renderer afterwards and the calls made. -/
def Gles2Renderer.destroyGles2 (self : Gles2Renderer) : Int × Gles2Renderer × List Event :=
  let e1 : List Event :=
    match self.mGles2Video with
    | some v => [Event.gl .glClear [], Event.deleteGles2Video] ++ v.delete
    | none => []
  let e2 : List Event :=
    match self.mGles2Hud with
    | some _ => [Event.deleteGles2Hud]
    | none => []
  let e3 : List Event :=
    match self.mGles2Hmd with
    | some _ => [Event.deleteGles2Hmd]
    | none => []
  let e4 : List Event :=
    if self.mFboRenderBuffer > 0 then
      [Event.gl .glDeleteRenderbuffers [(self.mFboRenderBuffer : Int)]] else []
  let e5 : List Event :=
    if self.mFboTexture > 0 then [Event.gl .glDeleteTextures [(self.mFboTexture : Int)]] else []
  let e6 : List Event :=
    if self.mFbo > 0 then [Event.gl .glDeleteFramebuffers [(self.mFbo : Int)]] else []
  (0,
   { self with
     mGles2Video := none
     mGles2Hud := none
     mGles2Hmd := none
     mFboRenderBuffer := 0
     mFboTexture := 0
     mFbo := 0 },
   e1 ++ e2 ++ e3 ++ e4 ++ e5 ++ e6)

/-- The last block of `Gles2Renderer::initGles2()`, entered when `ret == 0` and distortion
correction is requested: creation of the off-screen target and of the `Gles2Hmd` context. The
argument is the renderer at that point; the result is the value of `ret` at the end of the block,
the renderer and the calls made. -/
def Gles2Renderer.initGles2Hmd (env : Env) (self : Gles2Renderer) :
    Int × Gles2Renderer × List Event :=
  let mFbo := env.genFramebuffer
  let ret1 : Int := if mFbo ≤ 0 then -1 else 0
  let mFboTexture := env.genTexture
  let ret2 : Int := if mFboTexture ≤ 0 then -1 else ret1
  let mFboRenderBuffer := env.genRenderbuffer
  let ret3 : Int := if mFboRenderBuffer ≤ 0 then -1 else ret2
  let ret4 : Int := if env.framebufferComplete = false then -1 else ret3
  let glCalls : List Event :=
    [Event.gl .glGenFramebuffers [1], Event.gl .glBindFramebuffer [(mFbo : Int)],
     Event.gl .glGenTextures [1],
     Event.gl .glActiveTexture [(self.mGles2HmdFirstTexUnit : Int)],
     Event.gl .glBindTexture [(mFboTexture : Int)],
     Event.gl .glTexImage2D [Int.tdiv self.mRenderWidth 2, self.mRenderHeight],
     Event.gl .glTexParameteri [], Event.gl .glTexParameteri [],
     Event.gl .glTexParameterf [], Event.gl .glTexParameterf [],
     Event.gl .glGenRenderbuffers [1], Event.gl .glBindRenderbuffer [(mFboRenderBuffer : Int)],
     Event.gl .glRenderbufferStorage [Int.tdiv self.mRenderWidth 2, self.mRenderHeight],
     Event.gl .glFramebufferTexture2D [(mFboTexture : Int)],
     Event.gl .glFramebufferRenderbuffer [(mFboRenderBuffer : Int)],
     Event.gl .glCheckFramebufferStatus [],
     Event.gl .glClear [], Event.gl .glBindTexture [0], Event.gl .glBindRenderbuffer [0],
     Event.gl .glBindFramebuffer [0]]
  let self1 : Gles2Renderer :=
    { self with mFbo := mFbo, mFboTexture := mFboTexture, mFboRenderBuffer := mFboRenderBuffer }
  let hmd : Int × Option Gles2Hmd × List Event :=
    if ret4 = 0 then
      let settings : Option Settings × List Event :=
        match self.mSession with
        | none => (none, [])
        | some s =>
          match env.sessionSettings with
          | none => (none, [Event.sessionGetSettings (some s)])
          | some st =>
            (some st, [Event.sessionGetSettings (some s), Event.sessionGetSettings (some s),
              Event.sessionGetSettings (some s)])
      if env.newGles2HmdOk then
        (0, some { firstTexUnit := self.mGles2HmdFirstTexUnit, width := self.mRenderWidth,
                   height := self.mRenderHeight, settings := settings.1 },
         settings.2 ++ [Event.newGles2Hmd])
      else (-1, none, settings.2 ++ [Event.newGles2Hmd])
    else (ret4, self.mGles2Hmd, [])
  let self2 : Gles2Renderer := { self1 with mGles2Hmd := hmd.2.1 }
  let self3 : Gles2Renderer :=
    if hmd.1 ≠ 0 then { self2 with mHmdDistorsionCorrection := false } else self2
  (hmd.1, self3, glCalls ++ hmd.2.2)

/-- The member function `Gles2Renderer::initGles2()`: the value returned, the renderer
afterwards and the calls made. -/
def Gles2Renderer.initGles2 (env : Env) (self : Gles2Renderer) :
    Int × Gles2Renderer × List Event :=
  -- new Gles2Video
  let video : Int × Option Gles2Video × List Event :=
    if env.newGles2VideoOk then
      let v := Gles2Video.new env self.mSession self.mMedia self.mGles2VideoFirstTexUnit
      (0, some v.1, [Event.newGles2Video] ++ v.2)
    else (-1, none, [Event.newGles2Video])
  let self1 : Gles2Renderer := { self with mGles2Video := video.2.1 }
  -- new Gles2Hud
  let hud : Int × Option Gles2Hud × List Event :=
    if video.1 = 0 then
      if env.newGles2HudOk then
        (0, some { mSession := self.mSession, mMedia := self.mMedia,
                   mFirstTexUnit := self.mGles2HudFirstTexUnit }, [Event.newGles2Hud])
      else (-1, none, [Event.newGles2Hud])
    else (video.1, self1.mGles2Hud, [])
  let self2 : Gles2Renderer := { self1 with mGles2Hud := hud.2.1 }
  -- background colour, viewport
  let clear : List Event :=
    if hud.1 = 0 then
      [Event.gl .glClearColor [], Event.gl .glClear [], Event.gl .glDisable [],
       Event.gl .glDisable [], Event.gl .glEnable [],
       Event.gl .glViewport [self.mRenderX, self.mRenderY, self.mRenderWidth, self.mRenderHeight]]
    else []
  -- off-screen target and distortion correction
  if hud.1 = 0 ∧ self2.mHmdDistorsionCorrection = true then
    let r := Gles2Renderer.initGles2Hmd env self2
    (r.1, r.2.1, video.2.2 ++ hud.2.2 ++ clear ++ r.2.2)
  else (hud.1, self2, video.2.2 ++ hud.2.2 ++ clear)

/-- The member function `Gles2Renderer::addAvcDecoder(decoder)`. -/
def Gles2Renderer.addAvcDecoder (w : World) (self : Gles2Renderer) (decoder : Option DecoderId) :
    Outcome Int :=
  match decoder with
  | none => { ret := -1, self := self, world := w, events := [] }
  | some d =>
    match self.mDecoder with
    | some _ => { ret := -1, self := self, world := w, events := [] }
    | none =>
      let queue := (w.decoders d).addOutputQueue
      let self1 : Gles2Renderer := { self with mDecoderOutputBufferQueue := queue }
      match queue with
      | none => { ret := -1, self := self1, world := w, events := [Event.addOutputQueue d] }
      | some _ =>
        let media := (w.decoders d).getMedia
        let self2 : Gles2Renderer := { self1 with mDecoder := some d, mMedia := media }
        let e1 : List Event :=
          match self2.mGles2Video with
          | some _ => [Event.videoSetVideoMedia media]
          | none => []
        let e2 : List Event :=
          match self2.mGles2Hud with
          | some _ => [Event.hudSetVideoMedia media]
          | none => []
        { ret := 0
          self :=
            { self2 with
              mGles2Video := self2.mGles2Video.map (fun v => v.setVideoMedia media)
              mGles2Hud := self2.mGles2Hud.map (fun h => { h with mMedia := media }) }
          world := w
          events := [Event.addOutputQueue d, Event.getMedia d] ++ e1 ++ e2 }

/-- The member function `Gles2Renderer::removeAvcDecoder(decoder)`. -/
def Gles2Renderer.removeAvcDecoder (w : World) (self : Gles2Renderer)
    (decoder : Option DecoderId) : Outcome Int :=
  match decoder with
  | none => { ret := -1, self := self, world := w, events := [] }
  | some d =>
    if some d ≠ self.mDecoder then { ret := -1, self := self, world := w, events := [] }
    else
      let e : List Event :=
        match self.mDecoderOutputBufferQueue with
        | some q => [Event.removeOutputQueue d q ((w.decoders d).removeOutputQueue q)]
        | none => []
      { ret := 0
        self := { self with mDecoder := none, mDecoderOutputBufferQueue := none }
        world := w
        events := e }

/-- The destructor `Gles2Renderer::~Gles2Renderer()`: the calls made (the attached decoder, if
any, is removed; then `destroyGles2()` runs). -/
def Gles2Renderer.delete (w : World) (self : Gles2Renderer) : List Event :=
  match self.mDecoder with
  | some d =>
    (self.removeAvcDecoder w (some d)).events
      ++ (self.removeAvcDecoder w (some d)).self.destroyGles2.2.2
  | none => self.destroyGles2.2.2

/-- The member function `Gles2Renderer::setRendererParams_nolock(...)`; the argument `uiHandler`
is not used by the code. -/
def Gles2Renderer.setRendererParams_nolock (env : Env) (self : Gles2Renderer)
    (windowWidth windowHeight renderX renderY renderWidth renderHeight : Int)
    (hmdDistorsionCorrection headtracking : Bool) : Int × Gles2Renderer × List Event :=
  let d := self.destroyGles2
  let self1 : Gles2Renderer :=
    { d.2.1 with
      mWindowWidth := windowWidth
      mWindowHeight := windowHeight
      mRenderX := renderX
      mRenderY := renderY
      mRenderWidth := if renderWidth ≠ 0 then renderWidth else windowWidth
      mRenderHeight := if renderHeight ≠ 0 then renderHeight else windowHeight
      mHmdDistorsionCorrection := hmdDistorsionCorrection
      mHeadtracking := headtracking }
  if self1.mRenderWidth = 0 ∨ self1.mRenderHeight = 0 then (0, self1, d.2.2)
  else
    let i := if d.1 = 0 then self1.initGles2 env else (d.1, self1, [])
    (if i.1 = 0 then 1 else i.1, i.2.1, d.2.2 ++ i.2.2)

/-- The member function `Gles2Renderer::setRendererParams(...)`. -/
def Gles2Renderer.setRendererParams (env : Env) (w : World) (self : Gles2Renderer)
    (windowWidth windowHeight renderX renderY renderWidth renderHeight : Int)
    (hmdDistorsionCorrection headtracking : Bool) : Outcome Int :=
  let self1 : Gles2Renderer := { self with mRunning := false }
  let r := self1.setRendererParams_nolock env windowWidth windowHeight renderX renderY
    renderWidth renderHeight hmdDistorsionCorrection headtracking
  { ret := r.1
    self := if r.1 > 0 then { r.2.1 with mRunning := true } else r.2.1
    world := w
    events := r.2.2 }

/-! ### The render path -/

/-- The local variables of `render_nolock` that the drain loop reads and writes, with the decoder
it talks to and the calls made so far. -/
structure DrainState where
  decoder : AvcDecoder
  buffer : Option Buffer
  prevBuffer : Option Buffer
  dequeueRet : Int
  events : List Event

/-- The number of buffers waiting in the queue `queue` of the decoder `dec` (none in a null
queue). -/
def AvcDecoder.pending (dec : AvcDecoder) (queue : Option QueueHandle) : Nat :=
  match queue with
  | none => 0
  | some q => (dec.outputQueue q).length

/-- The loop `while ((dequeueRet = mDecoder->dequeueOutputBuffer(queue, &buffer, false)) == 0)`
of `render_nolock`, from the state `s` on. -/
def drainLoop (d : DecoderId) (queue : Option QueueHandle) (s : DrainState) : DrainState :=
  if _h : (s.decoder.dequeueOutputBuffer queue).1 = 0 then
    drainLoop d queue
      { decoder := (s.decoder.dequeueOutputBuffer queue).2.2
        buffer :=
          (match (s.decoder.dequeueOutputBuffer queue).2.1 with
           | some b => some b
           | none => s.buffer)
        prevBuffer :=
          (match (s.decoder.dequeueOutputBuffer queue).2.1 with
           | some b => some b
           | none => s.buffer)
        dequeueRet := 0
        events := s.events
          ++ [Event.dequeueOutputBuffer d queue 0 (s.decoder.dequeueOutputBuffer queue).2.1]
          ++ (match s.prevBuffer with
              | some p => [Event.releaseOutputBuffer d p]
              | none => []) }
  else
    { s with
      dequeueRet := (s.decoder.dequeueOutputBuffer queue).1
      events := s.events
        ++ [Event.dequeueOutputBuffer d queue (s.decoder.dequeueOutputBuffer queue).1
              (s.decoder.dequeueOutputBuffer queue).2.1] }
termination_by s.decoder.pending queue
decreasing_by
  cases queue with
  | none => simp [AvcDecoder.dequeueOutputBuffer] at _h
  | some q =>
    unfold AvcDecoder.dequeueOutputBuffer at _h ⊢
    by_cases hc : s.decoder.configured = false
    · simp [hc] at _h
    · cases hq : s.decoder.outputQueue q with
      | nil => simp [hc, hq] at _h
      | cons b rest => simp [hc, hq, AvcDecoder.pending]

/-- The color-conversion variant `render_nolock` selects from `data->colorFormat`. -/
def colorConversionOf (colorFormat : AvcDecoderColorFormat) : Gles2VideoColorConversion :=
  match colorFormat with
  | .AVCDECODER_COLORFORMAT_YUV420SEMIPLANAR =>
    .GLES2_VIDEO_COLOR_CONVERSION_YUV420SEMIPLANAR_TO_RGB
  | _ => .GLES2_VIDEO_COLOR_CONVERSION_YUV420PLANAR_TO_RGB

/-- The render-area width the draw stages use: half of it when distortion correction is
active. -/
def Gles2Renderer.stageWidth (self : Gles2Renderer) : Int :=
  if self.mHmdDistorsionCorrection then Int.tdiv self.mRenderWidth 2 else self.mRenderWidth

/-- The block `if ((ret == 0) && (mHmdDistorsionCorrection))` that opens the draw stages of
`render_nolock` (there `ret` is 0): the off-screen target is bound and cleared. -/
def Gles2Renderer.bindOffscreen (self : Gles2Renderer) : List Event :=
  if self.mHmdDistorsionCorrection then
    [Event.gl .glBindFramebuffer [(self.mFbo : Int)],
     Event.gl .glViewport [0, 0, Int.tdiv self.mRenderWidth 2, self.mRenderHeight],
     Event.gl .glClear []]
  else []

/-- The video stage of `render_nolock`, entered with `ret == 0`: the new value of `ret` and the
calls made (the call of `renderFrame` and the calls `renderFrame` makes). -/
def Gles2Renderer.videoStage (self : Gles2Renderer) (data : AvcDecoderOutputBuffer) :
    Int × List Event :=
  match self.mGles2Video with
  | some v =>
    let r := v.renderFrame (data.plane0, data.plane1, data.plane2)
      (data.stride0, data.stride1, data.stride2) data.width data.height
      data.sarWidth data.sarHeight (toUInt self.stageWidth) (toUInt self.mRenderHeight)
      (colorConversionOf data.colorFormat) self.mHeadtracking
    (r.1, [Event.renderFrame data (toUInt self.stageWidth) (toUInt self.mRenderHeight)
            (colorConversionOf data.colorFormat) self.mHeadtracking] ++ r.2)
  | none => (0, [])

/-- The overlay stage of `render_nolock`, guarded by `ret == 0`: the new value of `ret` and the
calls made. -/
def Gles2Renderer.hudStage (env : Env) (self : Gles2Renderer) (data : AvcDecoderOutputBuffer)
    (ret : Int) : Int × List Event :=
  if ret = 0 then
    match self.mGles2Hud with
    | some _ =>
      (env.renderHudRet,
       [Event.renderHud ((data.width * data.sarWidth) % 2 ^ 32)
          ((data.height * data.sarHeight) % 2 ^ 32) self.stageWidth self.mRenderHeight
          data.metadata self.mHmdDistorsionCorrection self.mHeadtracking])
    | none => (ret, [])
  else (ret, [])

/-- The distortion-correction stage of `render_nolock`, guarded by
`(ret == 0) && (mHmdDistorsionCorrection)`: the new value of `ret` and the calls made. -/
def Gles2Renderer.hmdStage (env : Env) (self : Gles2Renderer) (ret : Int) : Int × List Event :=
  if ret = 0 ∧ self.mHmdDistorsionCorrection = true then
    match self.mGles2Hmd with
    | some _ =>
      (env.renderHmdRet,
       [Event.gl .glBindFramebuffer [0],
        Event.gl .glViewport
          [self.mRenderX, self.mRenderY, self.mRenderWidth, self.mRenderHeight],
        Event.renderHmd self.mFboTexture (Int.tdiv self.mRenderWidth 2) self.mRenderHeight])
    | none =>
      (ret,
       [Event.gl .glBindFramebuffer [0],
        Event.gl .glViewport
          [self.mRenderX, self.mRenderY, self.mRenderWidth, self.mRenderHeight]])
  else (ret, [])

/-- The instrumentation block of `render_nolock`, guarded by `ret == 0`: the clock is read, then
`mSession->getCurrentTime()` and `mSession->getDuration()` are called without a test of
`mSession`. The value is `none` when the block is not left: a call through a null `mSession` has
no defined behaviour. Otherwise it is the (unchanged) value of `ret`. -/
def Gles2Renderer.logStage (self : Gles2Renderer) (ret : Int) : Option Int × List Event :=
  if ret = 0 then
    match self.mSession with
    | some s =>
      (some ret,
       [Event.clockGettime, Event.sessionGetCurrentTime (some s),
        Event.sessionGetDuration (some s)])
    | none => (none, [Event.clockGettime, Event.sessionGetCurrentTime none])
  else (some ret, [])

/-- The block of `render_nolock` entered with a frame to draw (`data`, `mRenderWidth` and
`mRenderHeight` all non-zero), up to and excluding the statement `ret = 1`: the value of `ret`
there (`none` when that statement is not reached, see `logStage`) and the calls made. -/
def Gles2Renderer.renderStages (env : Env) (self : Gles2Renderer)
    (data : AvcDecoderOutputBuffer) : Option Int × List Event :=
  let video := self.videoStage data
  let hud := self.hudStage env data video.1
  let hmd := self.hmdStage env hud.1
  let log := self.logStage hmd.1
  (log.1, self.bindOffscreen ++ video.2 ++ hud.2 ++ hmd.2 ++ log.2)

/-- The first block of `render_nolock`: with a decoder attached and configured, the drain loop
run from `buffer = prevBuffer = NULL`. The result is the world afterwards, the local `buffer`,
the local `dequeueRet` and the calls made. -/
def Gles2Renderer.drainOutputQueue (w : World) (self : Gles2Renderer) :
    World × Option Buffer × Int × List Event :=
  match self.mDecoder with
  | some d =>
    if (w.decoders d).isConfigured then
      let s := drainLoop d self.mDecoderOutputBufferQueue
        { decoder := w.decoders d, buffer := none, prevBuffer := none, dequeueRet := 0,
          events := [] }
      (w.setDecoder d s.decoder, s.buffer, s.dequeueRet, s.events)
    else (w, none, 0, [])
  | none => (w, none, 0, [])

/-- The statement `if (!buffer) { ... } else { mCurrentBuffer = buffer; }` of `render_nolock`
(the first branch only logs). -/
def Gles2Renderer.keepBuffer (self : Gles2Renderer) (buffer : Option Buffer) : Gles2Renderer :=
  match buffer with
  | none => self
  | some b => { self with mCurrentBuffer := some b }

/-- The block `if ((mCurrentBuffer) && (ret == 0))` of `render_nolock` (there `ret` is 0): the
value of `ret` after it (`none` when the block is not left, see `logStage`) and the calls
made. -/
def Gles2Renderer.drawCurrentBuffer (env : Env) (self : Gles2Renderer) :
    Option Int × List Event :=
  match self.mCurrentBuffer with
  | some cur =>
    match cur.metadataPtr with
    | some data =>
      if self.mRenderWidth ≠ 0 ∧ self.mRenderHeight ≠ 0 then
        let st := self.renderStages env data
        (st.1.map (fun _ => 1), st.2)
      else (some 0, [])
    | none => (some 0, [])
  | none => (some 0, [])

/-- The member function `Gles2Renderer::render_nolock(lastRenderTime)`. The field `ret` of the
result is `none` when the call does not return (see `logStage`); the other fields then describe
the renderer, the world and the calls made up to that point. The argument `lastRenderTime` only
feeds the log line. -/
def Gles2Renderer.render_nolock (env : Env) (w : World) (self : Gles2Renderer)
    (_lastRenderTime : Nat) : Outcome (Option Int) :=
  let drained := self.drainOutputQueue w
  let self1 := self.keepBuffer drained.2.1
  let drawn := self1.drawCurrentBuffer env
  match drawn.1 with
  | none =>
    { ret := none, self := self1, world := drained.1, events := drained.2.2.2 ++ drawn.2 }
  | some ret =>
    -- release the buffer dequeued by this call (`buffer` is non-null only after a dequeue,
    -- hence only with a decoder attached)
    match drained.2.1, self.mDecoder with
    | some b, some d =>
      let releaseRet := (drained.1.decoders d).releaseOutputBuffer b
      { ret := some (if releaseRet ≠ 0 then releaseRet else ret)
        self := self1
        world := drained.1
        events := drained.2.2.2 ++ drawn.2 ++ [Event.releaseOutputBuffer d b] }
    | _, _ =>
      { ret := some ret, self := self1, world := drained.1, events := drained.2.2.2 ++ drawn.2 }

/-- The member function `Gles2Renderer::render(lastRenderTime)`. -/
def Gles2Renderer.render (env : Env) (w : World) (self : Gles2Renderer)
    (lastRenderTime : Nat) : Outcome (Option Int) :=
  if self.mRunning = false then { ret := some 0, self := self, world := w, events := [] }
  else self.render_nolock env w lastRenderTime

/-- A sequence of `render()` calls on one renderer. Each call comes with what the collaborators
answer during it, the world it is made in (the decoder fills its queues between the calls) and
its argument. The result is the renderer after the last call and the calls made on the
collaborators by the whole sequence; it is `none` when one of the calls does not return. -/
def Gles2Renderer.renderCalls (self : Gles2Renderer) :
    List (Env × World × Nat) → Option (Gles2Renderer × List Event)
  | [] => some (self, [])
  | (env, w, t) :: rest =>
    match (self.render env w t).ret with
    | none => none
    | some _ =>
      ((self.render env w t).self.renderCalls rest).map
        (fun p => (p.1, (self.render env w t).events ++ p.2))

/-! ## Observations on a list of calls -/

/-- The buffers passed to `releaseOutputBuffer`, in call order. -/
def releasedBuffers (events : List Event) : List Buffer :=
  events.filterMap (fun e =>
    match e with
    | .releaseOutputBuffer _ b => some b
    | _ => none)

/-- The buffers handed out by successful `dequeueOutputBuffer` calls, in call order. -/
def dequeuedBuffers (events : List Event) : List Buffer :=
  events.filterMap (fun e =>
    match e with
    | .dequeueOutputBuffer _ _ 0 (some b) => some b
    | _ => none)

/-- Whether the call is made on the decoder's buffer interface (dequeue or release). -/
def Event.isBufferCall (e : Event) : Bool :=
  match e with
  | .dequeueOutputBuffer _ _ _ _ => true
  | .releaseOutputBuffer _ _ => true
  | _ => false

/-- Whether the call enters one of the three sub-renderers (video, overlay, distortion). -/
def Event.isStageCall (e : Event) : Bool :=
  match e with
  | .renderFrame _ _ _ _ _ => true
  | .renderHud _ _ _ _ _ _ _ => true
  | .renderHmd _ _ _ => true
  | _ => false

/-- Whether the call draws: a GL call or a call into one of the three sub-renderers. -/
def Event.isDrawCall (e : Event) : Bool :=
  match e with
  | .gl _ _ => true
  | .renderFrame _ _ _ _ _ => true
  | .renderHud _ _ _ _ _ _ _ => true
  | .renderHmd _ _ _ => true
  | _ => false

/-- The value of the local `buffer` after the drain loop has dequeued `pending`, oldest first,
when it was `buffer` before. -/
def lastBuffer (buffer : Option Buffer) (pending : List Buffer) : Option Buffer :=
  pending.foldl (fun _ b => some b) buffer

/-- The calls the drain loop makes on a configured decoder whose queue `q` holds `pending`, when
entered with `prevBuffer = prev`: one successful dequeue per buffer, each but the first followed
by the release of the buffer dequeued before it, and the dequeue that reports "empty". -/
def drainEvents (d : DecoderId) (q : QueueHandle) (prev : Option Buffer) :
    List Buffer → List Event
  | [] => [Event.dequeueOutputBuffer d (some q) (-2) none]
  | b :: rest =>
    [Event.dequeueOutputBuffer d (some q) 0 (some b)]
      ++ (match prev with
          | some p => [Event.releaseOutputBuffer d p]
          | none => [])
      ++ drainEvents d q (some b) rest

/-- Whether a call is one of the GL calls that create and compile a shader. -/
def Event.isShaderBuildCall (e : Event) : Bool :=
  match e with
  | .gl .glCreateShader _ => true
  | .gl .glShaderSource _ => true
  | .gl .glCompileShader _ => true
  | .gl .glGetShaderiv _ => true
  | .gl .glGetShaderInfoLog _ => true
  | _ => false

/-- Whether a call is one of the GL calls that create and link a program. -/
def Event.isProgramBuildCall (e : Event) : Bool :=
  match e with
  | .gl .glCreateProgram _ => true
  | .gl .glAttachShader _ => true
  | .gl .glLinkProgram _ => true
  | .gl .glGetProgramiv _ => true
  | .gl .glGetProgramInfoLog _ => true
  | _ => false

/-- Whether a call is a member call through a null `Session *`. -/
def Event.isNullSessionCall (e : Event) : Bool :=
  match e with
  | .sessionGetSettings none => true
  | .sessionGetCurrentTime none => true
  | .sessionGetDuration none => true
  | .sessionGetSelfMetadata none => true
  | _ => false

/-! ## Sample inputs -/

/-- A 16x8 planar frame with square pixels. -/
def sampleFrame : AvcDecoderOutputBuffer :=
  { plane0 := 1, plane1 := 2, plane2 := 3, stride0 := 16, stride1 := 8, stride2 := 8
    width := 16, height := 8, sarWidth := 1, sarHeight := 1
    colorFormat := .AVCDECODER_COLORFORMAT_YUV420PLANAR
    metadata := { cameraPan := 0, cameraTilt := 0 }
    demuxOutputTimestamp := 0, decoderOutputTimestamp := 0, auNtpTimestampLocal := 0 }

/-- Three buffers carrying `sampleFrame`. -/
def bufferA : Buffer := { id := 1, metadataPtr := some sampleFrame }

def bufferB : Buffer := { id := 2, metadataPtr := some sampleFrame }

def bufferC : Buffer := { id := 3, metadataPtr := some sampleFrame }

/-- A buffer whose frame has width 0: `Gles2Video::renderFrame` rejects it. -/
def bufferZeroWidth : Buffer := { id := 4, metadataPtr := some { sampleFrame with width := 0 } }

/-- A configured decoder that hands out queue 5, every queue of which holds `pending`, and whose
calls all succeed. -/
def sampleDecoder (pending : List Buffer) : AvcDecoder :=
  { configured := true
    media := some 7
    addOutputQueueResult := some 5
    removeOutputQueueResult := fun _ => 0
    releaseOutputBufferResult := fun _ => 0
    outputQueue := fun _ => pending }

/-- A world in which every decoder is `sampleDecoder pending`. -/
def sampleWorld (pending : List Buffer) : World := { decoders := fun _ => sampleDecoder pending }

/-- An environment in which every collaborator succeeds. -/
def sampleEnv : Env :=
  { newGles2VideoOk := true, newGles2HudOk := true, newGles2HmdOk := true
    genFramebuffer := 1, genTexture := 2, genRenderbuffer := 3, framebufferComplete := true
    sessionSettings := none, sessionCurrentTime := 0, sessionDuration := 0
    createShader := fun _ => 1, compileStatus := fun _ => true
    createProgram := fun _ => 1, linkStatus := fun _ => true
    videoTextures := (1, 2, 3), renderHudRet := 0, renderHmdRet := 0 }

/-- A renderer with session 1, just constructed. -/
def freshRenderer : Gles2Renderer := Gles2Renderer.new (some 1) 1 false

/-- The renderer `freshRenderer` after decoder 4 was attached. -/
def attachedRenderer : Gles2Renderer :=
  (freshRenderer.addAvcDecoder (sampleWorld []) (some 4)).self

/-- The renderer `attachedRenderer` after a 640x480 configuration without distortion
correction: it is running. -/
def runningRenderer : Gles2Renderer :=
  (attachedRenderer.setRendererParams sampleEnv (sampleWorld []) 640 480 0 0 0 0 false false).self

/-- The renderer `attachedRenderer` after a 640x480 configuration with distortion correction: it
is running. -/
def runningHmdRenderer : Gles2Renderer :=
  (attachedRenderer.setRendererParams sampleEnv (sampleWorld []) 640 480 0 0 0 0 true false).self

/-- A sample `MathOps` over the trigonometric functions given: an orientation is written as its
Euler triple and composed component by component, which is how rotations about one axis
compose. -/
def sampleOps {K : Type} [LinearOrderedField K] (cosf sinf : K → K) (M_PI : K) :
    MathOps K (Euler K) :=
  { cosf := cosf
    sinf := sinf
    M_PI := M_PI
    pdraw_quat_conj := fun q => { psi := -q.psi, theta := -q.theta, phi := -q.phi }
    pdraw_quat_mult := fun p q =>
      { psi := p.psi + q.psi, theta := p.theta + q.theta, phi := p.phi + q.phi }
    pdraw_quat2euler := fun q => q }

/-- An environment in which every collaborator succeeds and every GL object gets a name of its
own: shaders 21 to 24, programs 10 to 12, textures 31 to 33. -/
def distinctNamesEnv : Env :=
  { sampleEnv with
    createShader := fun s =>
      match s with
      | .vertexShader => 21
      | .fragmentShaderNoconv => 22
      | .fragmentShaderYuvsp => 23
      | .fragmentShaderYuvp => 24
    createProgram := fun c =>
      match c with
      | .GLES2_VIDEO_COLOR_CONVERSION_NONE => 10
      | .GLES2_VIDEO_COLOR_CONVERSION_YUV420PLANAR_TO_RGB => 11
      | .GLES2_VIDEO_COLOR_CONVERSION_YUV420SEMIPLANAR_TO_RGB => 12
    videoTextures := (31, 32, 33) }

/-- The environment `distinctNamesEnv` except that the vertex shader does not compile. -/
def vertexShaderFailureEnv : Env :=
  { distinctNamesEnv with
    compileStatus := fun s =>
      match s with
      | .vertexShader => false
      | _ => true }

/-- A video sub-renderer with session 1 and media 7 whose constructor succeeded. -/
def sampleVideo : Gles2Video := (Gles2Video.new distinctNamesEnv (some 1) (some 7) 0).1

/-- A renderer constructed without a session, after decoder 4 was attached and after a 640x480
configuration without distortion correction: it is running. -/
def sessionlessRenderer : Gles2Renderer :=
  (((Gles2Renderer.new none 1 false).addAvcDecoder (sampleWorld []) (some 4)).self.setRendererParams
    sampleEnv (sampleWorld []) 640 480 0 0 0 0 false false).self

/-- A renderer with session 1 and decoder 4 attached, after a 640x480 configuration with
distortion correction in `distinctNamesEnv`: it holds a video sub-renderer with the programs 10,
11, 12 and the textures 31, 32, 33, an overlay and a distortion sub-renderer, and the off-screen
objects 1 (framebuffer), 2 (texture) and 3 (render buffer). -/
def distinctNamesRenderer : Gles2Renderer :=
  (attachedRenderer.setRendererParams distinctNamesEnv (sampleWorld []) 640 480 0 0 0 0 true
    false).self

/-! ## Lemmas on the drain loop and on the calls made by `render_nolock` -/

theorem drainLoop_null (d : DecoderId) (s : DrainState) :
    drainLoop d none s
      = { s with dequeueRet := -1
                 events := s.events ++ [Event.dequeueOutputBuffer d none (-1) none] } := by
  rw [drainLoop]
  simp [AvcDecoder.dequeueOutputBuffer]

theorem drainLoop_queue (d : DecoderId) (q : QueueHandle) (pending : List Buffer) :
    ∀ s : DrainState, s.decoder.configured = true → s.decoder.outputQueue q = pending →
      (drainLoop d (some q) s).buffer = lastBuffer s.buffer pending
      ∧ (drainLoop d (some q) s).events = s.events ++ drainEvents d q s.prevBuffer pending
      ∧ (drainLoop d (some q) s).decoder
          = { s.decoder with outputQueue := Function.update s.decoder.outputQueue q [] } := by
  induction pending with
  | nil =>
    intro s hc hq
    rcases s with ⟨⟨c, m, a, rm, rl, oq⟩, buf, prev, ret, ev⟩
    simp only at hc hq
    subst hc
    rw [drainLoop]
    simp [AvcDecoder.dequeueOutputBuffer, hq, lastBuffer, drainEvents]
  | cons b rest ih =>
    intro s hc hq
    rcases s with ⟨⟨c, m, a, rm, rl, oq⟩, buf, prev, ret, ev⟩
    simp only at hc hq
    subst hc
    rw [drainLoop]
    simp only [AvcDecoder.dequeueOutputBuffer, hq]
    simp only [Bool.true_eq_false, ↓reduceIte, ↓reduceDIte]
    obtain ⟨h1, h2, h3⟩ := ih
      { decoder := ⟨true, m, a, rm, rl, Function.update oq q rest⟩
        buffer := some b
        prevBuffer := some b
        dequeueRet := 0
        events := ev ++ [Event.dequeueOutputBuffer d (some q) 0 (some b)]
          ++ (match prev with
              | some p => [Event.releaseOutputBuffer d p]
              | none => []) } rfl (by simp)
    refine ⟨?_, ?_, ?_⟩
    · simpa [lastBuffer] using h1
    · simpa [drainEvents] using h2
    · simpa using h3

theorem releasedBuffers_append (a b : List Event) :
    releasedBuffers (a ++ b) = releasedBuffers a ++ releasedBuffers b := by
  simp [releasedBuffers, List.filterMap_append]

theorem dequeuedBuffers_append (a b : List Event) :
    dequeuedBuffers (a ++ b) = dequeuedBuffers a ++ dequeuedBuffers b := by
  simp [dequeuedBuffers, List.filterMap_append]

theorem releasedBuffers_eq_nil (es : List Event) (h : ∀ e ∈ es, e.isBufferCall = false) :
    releasedBuffers es = [] := by
  unfold releasedBuffers
  rw [List.filterMap_eq_nil_iff]
  intro e he
  have := h e he
  cases e <;> simp_all [Event.isBufferCall]

theorem dequeuedBuffers_eq_nil (es : List Event) (h : ∀ e ∈ es, e.isBufferCall = false) :
    dequeuedBuffers es = [] := by
  unfold dequeuedBuffers
  rw [List.filterMap_eq_nil_iff]
  intro e he
  have := h e he
  cases e <;> simp_all [Event.isBufferCall]

theorem lastBuffer_append (buffer : Option Buffer) (bs : List Buffer) (b : Buffer) :
    lastBuffer buffer (bs ++ [b]) = some b := by
  simp [lastBuffer, List.foldl_append]

theorem dequeuedBuffers_drainEvents (d : DecoderId) (q : QueueHandle) (pending : List Buffer) :
    ∀ prev, dequeuedBuffers (drainEvents d q prev pending) = pending := by
  induction pending with
  | nil => intro prev; simp [drainEvents, dequeuedBuffers]
  | cons b rest ih =>
    intro prev
    have h := ih (some b)
    cases prev with
    | none =>
      simp only [drainEvents, dequeuedBuffers_append, h]
      simp [dequeuedBuffers]
    | some p =>
      simp only [drainEvents, dequeuedBuffers_append, h]
      simp [dequeuedBuffers]

theorem releasedBuffers_drainEvents (d : DecoderId) (q : QueueHandle) (pending : List Buffer) :
    ∀ prev, releasedBuffers (drainEvents d q prev pending) ++ (lastBuffer prev pending).toList
      = prev.toList ++ pending := by
  induction pending with
  | nil => intro prev; simp [drainEvents, releasedBuffers, lastBuffer]
  | cons b rest ih =>
    intro prev
    have h := ih (some b)
    cases prev with
    | none =>
      simp only [drainEvents, releasedBuffers_append, lastBuffer, List.foldl_cons] at h ⊢
      simpa [releasedBuffers] using h
    | some p =>
      simp only [drainEvents, releasedBuffers_append, lastBuffer, List.foldl_cons] at h ⊢
      simpa [releasedBuffers] using h

theorem isBufferCall_drainEvents (d : DecoderId) (q : QueueHandle) (pending : List Buffer) :
    ∀ prev, ∀ e ∈ drainEvents d q prev pending, e.isBufferCall = true := by
  induction pending with
  | nil => intro prev e he; simp [drainEvents] at he; subst he; rfl
  | cons b rest ih =>
    intro prev e he
    simp only [drainEvents, List.mem_append, List.mem_singleton] at he
    rcases he with (he | he) | he
    · subst he; rfl
    · cases prev with
      | none => simp at he
      | some p => simp at he; subst he; rfl
    · exact ih _ e he

theorem isBufferCall_renderFrame (v : Gles2Video) (framePlane frameStride : Nat × Nat × Nat)
    (frameWidth frameHeight sarWidth sarHeight windowWidth windowHeight : Nat)
    (cc : Gles2VideoColorConversion) (headtracking : Bool) :
    ∀ e ∈ (v.renderFrame framePlane frameStride frameWidth frameHeight sarWidth sarHeight
        windowWidth windowHeight cc headtracking).2,
      e.isBufferCall = false ∧ e.isStageCall = false := by
  unfold Gles2Video.renderFrame
  split
  · simp
  · have hup : ∀ e ∈ v.uploadTextures framePlane frameStride frameHeight cc,
        e.isBufferCall = false ∧ e.isStageCall = false := by
      unfold Gles2Video.uploadTextures
      cases cc <;> simp [List.mem_flatMap, Event.isBufferCall, Event.isStageCall]
      intro e i _ he
      rcases he with he | he | he | he <;> subst he <;> exact ⟨rfl, rfl⟩
    have hht : ∀ e ∈ v.readHeadOrientation headtracking,
        e.isBufferCall = false ∧ e.isStageCall = false := by
      unfold Gles2Video.readHeadOrientation
      split
      · split <;> simp [Event.isBufferCall, Event.isStageCall]
      · simp
    simp only [List.forall_mem_append]
    refine ⟨⟨⟨?_, hup⟩, hht⟩, ?_⟩ <;> simp [Event.isBufferCall, Event.isStageCall]

theorem isBufferCall_renderStages (env : Env) (self : Gles2Renderer)
    (data : AvcDecoderOutputBuffer) :
    ∀ e ∈ (self.renderStages env data).2, e.isBufferCall = false := by
  have h0 : ∀ e ∈ self.bindOffscreen, e.isBufferCall = false := by
    unfold Gles2Renderer.bindOffscreen
    split <;> simp [Event.isBufferCall]
  have h1 : ∀ e ∈ (self.videoStage data).2, e.isBufferCall = false := by
    unfold Gles2Renderer.videoStage
    split
    · simp only [List.forall_mem_append]
      exact ⟨by simp [Event.isBufferCall],
        fun e he => (isBufferCall_renderFrame _ _ _ _ _ _ _ _ _ _ _ e he).1⟩
    · simp
  have h2 : ∀ ret, ∀ e ∈ (self.hudStage env data ret).2, e.isBufferCall = false := by
    intro ret
    unfold Gles2Renderer.hudStage
    split
    · split <;> simp [Event.isBufferCall]
    · simp
  have h3 : ∀ ret, ∀ e ∈ (self.hmdStage env ret).2, e.isBufferCall = false := by
    intro ret
    unfold Gles2Renderer.hmdStage
    split
    · split <;> simp [Event.isBufferCall]
    · simp
  have h4 : ∀ ret, ∀ e ∈ (self.logStage ret).2, e.isBufferCall = false := by
    intro ret
    unfold Gles2Renderer.logStage
    split
    · split <;> simp [Event.isBufferCall]
    · simp
  unfold Gles2Renderer.renderStages
  simp only [List.forall_mem_append]
  exact ⟨⟨⟨⟨h0, h1⟩, h2 _⟩, h3 _⟩, h4 _⟩

/-- What the first block of `render_nolock` yields, case by case. -/
theorem drainOutputQueue_none (w : World) (r : Gles2Renderer) (h : r.mDecoder = none) :
    r.drainOutputQueue w = (w, none, 0, []) := by
  simp [Gles2Renderer.drainOutputQueue, h]

theorem drainOutputQueue_unconfigured (w : World) (r : Gles2Renderer) (d : DecoderId)
    (h : r.mDecoder = some d) (hc : (w.decoders d).configured = false) :
    r.drainOutputQueue w = (w, none, 0, []) := by
  simp [Gles2Renderer.drainOutputQueue, h, AvcDecoder.isConfigured, hc]

theorem drainOutputQueue_nullQueue (w : World) (r : Gles2Renderer) (d : DecoderId)
    (h : r.mDecoder = some d) (hc : (w.decoders d).configured = true)
    (hq : r.mDecoderOutputBufferQueue = none) :
    r.drainOutputQueue w
      = (w.setDecoder d (w.decoders d), none, -1,
         [Event.dequeueOutputBuffer d none (-1) none]) := by
  simp [Gles2Renderer.drainOutputQueue, h, AvcDecoder.isConfigured, hc, hq, drainLoop_null]

theorem drainOutputQueue_queue (w : World) (r : Gles2Renderer) (d : DecoderId) (q : QueueHandle)
    (h : r.mDecoder = some d) (hc : (w.decoders d).configured = true)
    (hq : r.mDecoderOutputBufferQueue = some q) :
    (r.drainOutputQueue w).1
        = w.setDecoder d { w.decoders d with
            outputQueue := Function.update (w.decoders d).outputQueue q [] }
      ∧ (r.drainOutputQueue w).2.1 = lastBuffer none ((w.decoders d).outputQueue q)
      ∧ (r.drainOutputQueue w).2.2.2 = drainEvents d q none ((w.decoders d).outputQueue q) := by
  obtain ⟨h1, h2, h3⟩ := drainLoop_queue d q ((w.decoders d).outputQueue q)
    { decoder := w.decoders d, buffer := none, prevBuffer := none, dequeueRet := 0,
      events := [] } hc rfl
  simp only [Gles2Renderer.drainOutputQueue, h, AvcDecoder.isConfigured, hc, hq, if_true]
  simp only [h1, h2, h3]
  simp [hc]

/-- Every buffer the drain loop dequeues is released by it, the one left in `buffer` apart; and
`buffer` is set only with a decoder attached. -/
theorem drainOutputQueue_balance (w : World) (r : Gles2Renderer) :
    dequeuedBuffers (r.drainOutputQueue w).2.2.2
        = releasedBuffers (r.drainOutputQueue w).2.2.2 ++ (r.drainOutputQueue w).2.1.toList
      ∧ ((r.drainOutputQueue w).2.1 ≠ none → r.mDecoder ≠ none) := by
  cases h : r.mDecoder with
  | none => simp [drainOutputQueue_none w r h, dequeuedBuffers, releasedBuffers]
  | some d =>
    cases hc : (w.decoders d).configured with
    | false =>
      simp [drainOutputQueue_unconfigured w r d h hc, dequeuedBuffers, releasedBuffers]
    | true =>
      cases hq : r.mDecoderOutputBufferQueue with
      | none =>
        simp [drainOutputQueue_nullQueue w r d h hc hq, dequeuedBuffers, releasedBuffers]
      | some q =>
        obtain ⟨_, h2, h3⟩ := drainOutputQueue_queue w r d q h hc hq
        rw [h2, h3, dequeuedBuffers_drainEvents]
        have := releasedBuffers_drainEvents d q ((w.decoders d).outputQueue q) none
        simp at this
        simp [this]

theorem isBufferCall_drawCurrentBuffer (env : Env) (self : Gles2Renderer) :
    ∀ e ∈ (self.drawCurrentBuffer env).2, e.isBufferCall = false := by
  unfold Gles2Renderer.drawCurrentBuffer
  split
  · split
    · split
      · exact isBufferCall_renderStages env self _
      · simp
    · simp
  · simp

theorem render_nolock_balance (env : Env) (w : World) (r : Gles2Renderer) (t : Nat) (v : Int)
    (h : (r.render_nolock env w t).ret = some v) :
    releasedBuffers (r.render_nolock env w t).events
      = dequeuedBuffers (r.render_nolock env w t).events := by
  obtain ⟨hb, hd⟩ := drainOutputQueue_balance w r
  have hr := releasedBuffers_eq_nil _
    (isBufferCall_drawCurrentBuffer env (r.keepBuffer (r.drainOutputQueue w).2.1))
  have hq := dequeuedBuffers_eq_nil _
    (isBufferCall_drawCurrentBuffer env (r.keepBuffer (r.drainOutputQueue w).2.1))
  unfold Gles2Renderer.render_nolock at h ⊢
  simp only [] at h ⊢
  generalize r.drainOutputQueue w = drained at h hb hd hr hq ⊢
  obtain ⟨w1, buffer, dequeueRet, events⟩ := drained
  simp only [] at h hb hd hr hq ⊢
  generalize (r.keepBuffer buffer).drawCurrentBuffer env = drawn at h hr hq ⊢
  obtain ⟨dret, devents⟩ := drawn
  simp only [] at h hr hq ⊢
  cases dret with
  | none => simp at h
  | some ret =>
    cases buffer with
    | none => simp [releasedBuffers_append, dequeuedBuffers_append, hr, hq, hb]
    | some b =>
      cases hdec : r.mDecoder with
      | none => exact absurd hdec (hd (by simp))
      | some d =>
        simp [releasedBuffers_append, dequeuedBuffers_append, hr, hq, hb]
        simp [releasedBuffers, dequeuedBuffers]

theorem isDrawCall_of_isBufferCall (e : Event) (h : e.isBufferCall = true) :
    e.isDrawCall = false := by
  cases e <;> simp_all [Event.isBufferCall, Event.isDrawCall]

/-- The frame handed to `renderFrame` is the one `mCurrentBuffer` points to. -/
theorem renderFrame_mem_drawCurrentBuffer (env : Env) (self : Gles2Renderer)
    (data : AvcDecoderOutputBuffer) (ww wh : Nat) (cc : Gles2VideoColorConversion) (ht : Bool)
    (h : Event.renderFrame data ww wh cc ht ∈ (self.drawCurrentBuffer env).2) :
    ∃ cur, self.mCurrentBuffer = some cur ∧ cur.metadataPtr = some data := by
  unfold Gles2Renderer.drawCurrentBuffer at h
  split at h
  next cur hcur =>
    split at h
    next data' hdata =>
      split at h
      · refine ⟨cur, hcur, ?_⟩
        rw [hdata]
        simp only [Gles2Renderer.renderStages, List.mem_append] at h
        rcases h with (((h | h) | h) | h) | h
        · unfold Gles2Renderer.bindOffscreen at h
          split at h <;> simp at h
        · unfold Gles2Renderer.videoStage at h
          split at h
          · simp only [List.mem_append, List.mem_singleton] at h
            rcases h with h | h
            · injection h with h1; rw [h1]
            · have := (isBufferCall_renderFrame _ _ _ _ _ _ _ _ _ _ _ _ h).2
              simp [Event.isStageCall] at this
          · simp at h
        · unfold Gles2Renderer.hudStage at h
          split at h
          · split at h <;> simp at h
          · simp at h
        · unfold Gles2Renderer.hmdStage at h
          split at h
          · split at h <;> simp at h
          · simp at h
        · unfold Gles2Renderer.logStage at h
          split at h
          · split at h <;> simp at h
          · simp at h
      · simp at h
    · simp at h
  · simp at h


/-- The parts of what `render_nolock` leaves behind, in terms of its three blocks. -/
theorem render_nolock_shape (env : Env) (w : World) (r : Gles2Renderer) (t : Nat) :
    (r.render_nolock env w t).self = r.keepBuffer (r.drainOutputQueue w).2.1
    ∧ (r.render_nolock env w t).world = (r.drainOutputQueue w).1
    ∧ ∃ tail, (r.render_nolock env w t).events
          = (r.drainOutputQueue w).2.2.2
            ++ ((r.keepBuffer (r.drainOutputQueue w).2.1).drawCurrentBuffer env).2 ++ tail
        ∧ (tail = [] ∨ ∃ d b, r.mDecoder = some d ∧ (r.drainOutputQueue w).2.1 = some b
            ∧ tail = [Event.releaseOutputBuffer d b])
        ∧ (∀ v b, (r.render_nolock env w t).ret = some v → (r.drainOutputQueue w).2.1 = some b →
            ∃ d, r.mDecoder = some d ∧ tail = [Event.releaseOutputBuffer d b]) := by
  obtain ⟨_, hd⟩ := drainOutputQueue_balance w r
  unfold Gles2Renderer.render_nolock
  simp only []
  generalize r.drainOutputQueue w = drained at hd ⊢
  obtain ⟨w1, buffer, dequeueRet, events⟩ := drained
  simp only [] at hd ⊢
  generalize (r.keepBuffer buffer).drawCurrentBuffer env = drawn
  obtain ⟨dret, devents⟩ := drawn
  cases dret with
  | none => exact ⟨rfl, rfl, [], by simp⟩
  | some ret =>
    cases buffer with
    | none => exact ⟨rfl, rfl, [], by simp⟩
    | some b =>
      cases hdec : r.mDecoder with
      | none => exact absurd hdec (hd (by simp))
      | some d => exact ⟨rfl, rfl, [Event.releaseOutputBuffer d b], by simp⟩

/-- What `render_nolock` does on a configured decoder whose queue holds `bs ++ [bn]`. -/
theorem render_nolock_queue (env : Env) (w : World) (r : Gles2Renderer) (t : Nat)
    (d : DecoderId) (q : QueueHandle) (bs : List Buffer) (bn : Buffer)
    (hd : r.mDecoder = some d) (hq : r.mDecoderOutputBufferQueue = some q)
    (hc : (w.decoders d).configured = true)
    (hp : (w.decoders d).outputQueue q = bs ++ [bn]) :
    (r.render_nolock env w t).self = r.keepBuffer (some bn)
    ∧ (r.render_nolock env w t).ret
        = (((r.keepBuffer (some bn)).drawCurrentBuffer env).1.map fun ret =>
            if (w.decoders d).releaseOutputBuffer bn ≠ 0
            then (w.decoders d).releaseOutputBuffer bn else ret)
    ∧ (r.render_nolock env w t).events
        = drainEvents d q none (bs ++ [bn]) ++ ((r.keepBuffer (some bn)).drawCurrentBuffer env).2
          ++ (match ((r.keepBuffer (some bn)).drawCurrentBuffer env).1 with
              | some _ => [Event.releaseOutputBuffer d bn]
              | none => []) := by
  obtain ⟨hw, hb, he⟩ := drainOutputQueue_queue w r d q hd hc hq
  rw [hp] at hb he
  rw [lastBuffer_append] at hb
  unfold Gles2Renderer.render_nolock
  simp only [hb, he, hw, hd]
  cases ((r.keepBuffer (some bn)).drawCurrentBuffer env).1 with
  | none => simp
  | some ret => simp [World.setDecoder, AvcDecoder.releaseOutputBuffer]

theorem keepBuffer_mSession (r : Gles2Renderer) (buffer : Option Buffer) :
    (r.keepBuffer buffer).mSession = r.mSession := by
  cases buffer <;> rfl

/-- With a session, the draw block of `render_nolock` is always left. -/
theorem drawCurrentBuffer_returns (env : Env) (self : Gles2Renderer)
    (hs : self.mSession ≠ none) : ∃ v, (self.drawCurrentBuffer env).1 = some v := by
  unfold Gles2Renderer.drawCurrentBuffer
  split
  · split
    · split
      · simp only [Gles2Renderer.renderStages, Gles2Renderer.logStage]
        split
        · cases hses : self.mSession with
          | none => exact absurd hses hs
          | some s => exact ⟨1, rfl⟩
        · exact ⟨1, rfl⟩
      · exact ⟨0, rfl⟩
    · exact ⟨0, rfl⟩
  · exact ⟨0, rfl⟩

theorem render_nolock_self (env : Env) (w : World) (r : Gles2Renderer) (t : Nat) :
    (r.render_nolock env w t).self = r.keepBuffer (r.drainOutputQueue w).2.1 :=
  (render_nolock_shape env w r t).1

theorem render_mSession (env : Env) (w : World) (r : Gles2Renderer) (t : Nat) :
    (r.render env w t).self.mSession = r.mSession := by
  unfold Gles2Renderer.render
  split
  · rfl
  · rw [render_nolock_self, keepBuffer_mSession]

/-- With a session, `render()` returns. -/
theorem render_returns (env : Env) (w : World) (r : Gles2Renderer) (t : Nat)
    (hs : r.mSession ≠ none) : ∃ v, (r.render env w t).ret = some v := by
  unfold Gles2Renderer.render
  split
  · exact ⟨0, rfl⟩
  · obtain ⟨v, hv⟩ := drawCurrentBuffer_returns env (r.keepBuffer (r.drainOutputQueue w).2.1)
      (by rw [keepBuffer_mSession]; exact hs)
    unfold Gles2Renderer.render_nolock
    simp only [hv]
    split <;> exact ⟨_, rfl⟩

theorem render_balance (env : Env) (w : World) (r : Gles2Renderer) (t : Nat) (v : Int)
    (h : (r.render env w t).ret = some v) :
    releasedBuffers (r.render env w t).events = dequeuedBuffers (r.render env w t).events := by
  unfold Gles2Renderer.render at h ⊢
  split at h
  · next hrun => simp [hrun, releasedBuffers, dequeuedBuffers]
  · next hrun =>
    simp only [hrun, if_false]
    exact render_nolock_balance env w r t v h

theorem render_of_running (env : Env) (w : World) (r : Gles2Renderer) (t : Nat)
    (h : r.mRunning = true) : r.render env w t = r.render_nolock env w t := by
  simp [Gles2Renderer.render, h]

theorem render_of_not_running (env : Env) (w : World) (r : Gles2Renderer) (t : Nat)
    (h : r.mRunning = false) :
    r.render env w t = { ret := some 0, self := r, world := w, events := [] } := by
  simp [Gles2Renderer.render, h]

/-- The teardown creates no sub-renderer. -/
theorem destroyGles2_creates_nothing (r : Gles2Renderer) :
    Event.newGles2Video ∉ r.destroyGles2.2.2 ∧ Event.newGles2Hud ∉ r.destroyGles2.2.2
    ∧ Event.newGles2Hmd ∉ r.destroyGles2.2.2 := by
  simp only [Gles2Renderer.destroyGles2, Gles2Video.delete, List.mem_append, not_or]
  refine ⟨⟨⟨⟨⟨⟨?_, ?_⟩, ?_⟩, ?_⟩, ?_⟩, ?_⟩, ⟨⟨⟨⟨⟨?_, ?_⟩, ?_⟩, ?_⟩, ?_⟩, ?_⟩,
    ⟨⟨⟨⟨⟨?_, ?_⟩, ?_⟩, ?_⟩, ?_⟩, ?_⟩⟩ <;> split <;> simp

theorem initGles2Hmd_preserves (env : Env) (r : Gles2Renderer) :
    (r.initGles2Hmd env).2.1.mDecoder = r.mDecoder
    ∧ (r.initGles2Hmd env).2.1.mCurrentBuffer = r.mCurrentBuffer
    ∧ (r.initGles2Hmd env).2.1.mRunning = r.mRunning
    ∧ (r.initGles2Hmd env).2.1.mSession = r.mSession := by
  simp only [Gles2Renderer.initGles2Hmd]
  split_ifs <;> exact ⟨rfl, rfl, rfl, rfl⟩

theorem initGles2_preserves (env : Env) (r : Gles2Renderer) :
    (r.initGles2 env).2.1.mDecoder = r.mDecoder
    ∧ (r.initGles2 env).2.1.mCurrentBuffer = r.mCurrentBuffer
    ∧ (r.initGles2 env).2.1.mRunning = r.mRunning
    ∧ (r.initGles2 env).2.1.mSession = r.mSession := by
  unfold Gles2Renderer.initGles2
  simp only []
  split_ifs <;> first | exact ⟨rfl, rfl, rfl, rfl⟩ | exact initGles2Hmd_preserves env _

theorem setRendererParams_nolock_preserves (env : Env) (r : Gles2Renderer)
    (windowWidth windowHeight renderX renderY renderWidth renderHeight : Int)
    (hmdDistorsionCorrection headtracking : Bool) :
    (r.setRendererParams_nolock env windowWidth windowHeight renderX renderY renderWidth
        renderHeight hmdDistorsionCorrection headtracking).2.1.mDecoder = r.mDecoder
    ∧ (r.setRendererParams_nolock env windowWidth windowHeight renderX renderY renderWidth
        renderHeight hmdDistorsionCorrection headtracking).2.1.mCurrentBuffer
        = r.mCurrentBuffer
    ∧ (r.setRendererParams_nolock env windowWidth windowHeight renderX renderY renderWidth
        renderHeight hmdDistorsionCorrection headtracking).2.1.mRunning = r.mRunning
    ∧ (r.setRendererParams_nolock env windowWidth windowHeight renderX renderY renderWidth
        renderHeight hmdDistorsionCorrection headtracking).2.1.mSession = r.mSession := by
  unfold Gles2Renderer.setRendererParams_nolock
  simp only []
  split_ifs <;> first | exact ⟨rfl, rfl, rfl, rfl⟩ | exact initGles2_preserves env _

/-- A configuration that does not return a positive value leaves the renderer not running. -/
theorem setRendererParams_not_running (env : Env) (w : World) (r : Gles2Renderer)
    (windowWidth windowHeight renderX renderY renderWidth renderHeight : Int)
    (hmdDistorsionCorrection headtracking : Bool)
    (h : (r.setRendererParams env w windowWidth windowHeight renderX renderY renderWidth
        renderHeight hmdDistorsionCorrection headtracking).ret ≤ 0) :
    (r.setRendererParams env w windowWidth windowHeight renderX renderY renderWidth
        renderHeight hmdDistorsionCorrection headtracking).self.mRunning = false := by
  have hp := (setRendererParams_nolock_preserves env { r with mRunning := false } windowWidth
    windowHeight renderX renderY renderWidth renderHeight hmdDistorsionCorrection
    headtracking).2.2.1
  unfold Gles2Renderer.setRendererParams at h ⊢
  simp only [] at h ⊢
  rw [if_neg (not_lt.mpr h)]
  exact hp

theorem frameGeometry_of_valid {K Q : Type} [LinearOrderedField K] (ops : MathOps K Q)
    (self : Gles2Video) (headQuat headRefQuat : Q) (mediaFov : K × K)
    (frameStride : Nat × Nat × Nat)
    (frameWidth frameHeight sarWidth sarHeight windowWidth windowHeight : Nat)
    (metadata : VideoFrameMetadata) (headtracking : Bool)
    (h : ¬ (frameWidth = 0 ∨ frameHeight = 0 ∨ sarWidth = 0 ∨ sarHeight = 0
      ∨ windowWidth = 0 ∨ windowHeight = 0 ∨ frameStride.1 = 0)) :
    self.frameGeometry ops headQuat headRefQuat mediaFov frameStride frameWidth frameHeight
        sarWidth sarHeight windowWidth windowHeight metadata headtracking
      = some
        { vertices :=
            quadVertices
              (aspectFit frameWidth frameHeight sarWidth sarHeight windowWidth
                windowHeight : AspectFit K).videoW
              (aspectFit frameWidth frameHeight sarWidth sarHeight windowWidth
                windowHeight : AspectFit K).videoH
          texCoords := texCoords frameWidth frameStride.1
          transformMatrix :=
            transformMatrix ops.cosf ops.sinf
              (self.headTracking ops headtracking headQuat headRefQuat mediaFov metadata
                (aspectFit frameWidth frameHeight sarWidth sarHeight windowWidth
                  windowHeight : AspectFit K).ratioW
                (aspectFit frameWidth frameHeight sarWidth sarHeight windowWidth
                  windowHeight : AspectFit K).ratioH).angle
              (aspectFit frameWidth frameHeight sarWidth sarHeight windowWidth
                windowHeight : AspectFit K).windowW
              (aspectFit frameWidth frameHeight sarWidth sarHeight windowWidth
                windowHeight : AspectFit K).windowH
              (self.headTracking ops headtracking headQuat headRefQuat mediaFov metadata
                (aspectFit frameWidth frameHeight sarWidth sarHeight windowWidth
                  windowHeight : AspectFit K).ratioW
                (aspectFit frameWidth frameHeight sarWidth sarHeight windowWidth
                  windowHeight : AspectFit K).ratioH).deltaX
              (self.headTracking ops headtracking headQuat headRefQuat mediaFov metadata
                (aspectFit frameWidth frameHeight sarWidth sarHeight windowWidth
                  windowHeight : AspectFit K).ratioW
                (aspectFit frameWidth frameHeight sarWidth sarHeight windowWidth
                  windowHeight : AspectFit K).ratioH).deltaY } := by
  unfold Gles2Video.frameGeometry
  rw [if_neg h]

/-- The arrays are handed to GL exactly when `Gles2Video::renderFrame` returns 0. -/
theorem frameGeometry_isSome_iff {K Q : Type} [LinearOrderedField K] (ops : MathOps K Q)
    (self : Gles2Video) (headQuat headRefQuat : Q) (mediaFov : K × K)
    (framePlane frameStride : Nat × Nat × Nat)
    (frameWidth frameHeight sarWidth sarHeight windowWidth windowHeight : Nat)
    (metadata : VideoFrameMetadata) (colorConversion : Gles2VideoColorConversion)
    (headtracking : Bool) :
    (self.frameGeometry ops headQuat headRefQuat mediaFov frameStride frameWidth frameHeight
        sarWidth sarHeight windowWidth windowHeight metadata headtracking).isSome = true
      ↔ (self.renderFrame framePlane frameStride frameWidth frameHeight sarWidth sarHeight
          windowWidth windowHeight colorConversion headtracking).1 = 0 := by
  unfold Gles2Video.frameGeometry Gles2Video.renderFrame
  split_ifs <;> simp

theorem aspectFit_windowAR {K : Type} [LinearOrderedField K]
    (fw fh sw sh ww wh : Nat) :
    (aspectFit fw fh sw sh ww wh : AspectFit K).windowAR = (ww : K) / (wh : K) := rfl

theorem aspectFit_videoAR {K : Type} [LinearOrderedField K]
    (fw fh sw sh ww wh : Nat) :
    (aspectFit fw fh sw sh ww wh : AspectFit K).videoAR
      = (fw : K) / (fh : K) * ((sw : K) / (sh : K)) := rfl

theorem aspectFit_windowAR_pos {K : Type} [LinearOrderedField K]
    (fw fh sw sh ww wh : Nat) (hww : 0 < ww) (hwh : 0 < wh) :
    0 < (aspectFit fw fh sw sh ww wh : AspectFit K).windowAR := by
  rw [aspectFit_windowAR]; positivity

theorem aspectFit_videoAR_pos {K : Type} [LinearOrderedField K]
    (fw fh sw sh ww wh : Nat) (hfw : 0 < fw) (hfh : 0 < fh) (hsw : 0 < sw) (hsh : 0 < sh) :
    0 < (aspectFit fw fh sw sh ww wh : AspectFit K).videoAR := by
  rw [aspectFit_videoAR]; positivity

theorem aspectFit_letterbox {K : Type} [LinearOrderedField K]
    (fw fh sw sh ww wh : Nat)
    (h : (aspectFit fw fh sw sh ww wh : AspectFit K).videoAR
      ≥ (aspectFit fw fh sw sh ww wh : AspectFit K).windowAR) :
    (aspectFit fw fh sw sh ww wh : AspectFit K).ratioW = 1
    ∧ (aspectFit fw fh sw sh ww wh : AspectFit K).ratioH
      = (aspectFit fw fh sw sh ww wh : AspectFit K).windowAR
        / (aspectFit fw fh sw sh ww wh : AspectFit K).videoAR := by
  rw [aspectFit_windowAR, aspectFit_videoAR] at h
  simp only [aspectFit, if_pos h, and_self]

theorem aspectFit_pillarbox {K : Type} [LinearOrderedField K]
    (fw fh sw sh ww wh : Nat)
    (h : (aspectFit fw fh sw sh ww wh : AspectFit K).videoAR
      < (aspectFit fw fh sw sh ww wh : AspectFit K).windowAR) :
    (aspectFit fw fh sw sh ww wh : AspectFit K).ratioH = 1
    ∧ (aspectFit fw fh sw sh ww wh : AspectFit K).ratioW
      = (aspectFit fw fh sw sh ww wh : AspectFit K).videoAR
        / (aspectFit fw fh sw sh ww wh : AspectFit K).windowAR := by
  rw [aspectFit_windowAR, aspectFit_videoAR] at h
  simp only [aspectFit, ge_iff_le, if_neg (not_le.mpr h), and_self]

theorem aspectFit_videoW {K : Type} [LinearOrderedField K]
    (fw fh sw sh ww wh : Nat) :
    (aspectFit fw fh sw sh ww wh : AspectFit K).videoW
      = (aspectFit fw fh sw sh ww wh : AspectFit K).ratioW
    ∧ (aspectFit fw fh sw sh ww wh : AspectFit K).windowW = 1
    ∧ (aspectFit fw fh sw sh ww wh : AspectFit K).windowH
      = (aspectFit fw fh sw sh ww wh : AspectFit K).windowAR
    ∧ (aspectFit fw fh sw sh ww wh : AspectFit K).videoH
      = (aspectFit fw fh sw sh ww wh : AspectFit K).ratioH
        / (aspectFit fw fh sw sh ww wh : AspectFit K).windowAR := by
  simp only [aspectFit]
  split_ifs <;> simp

theorem aspectFit_ratio_pos {K : Type} [LinearOrderedField K]
    (fw fh sw sh ww wh : Nat) (hfw : 0 < fw) (hfh : 0 < fh) (hsw : 0 < sw) (hsh : 0 < sh)
    (hww : 0 < ww) (hwh : 0 < wh) :
    0 < (aspectFit fw fh sw sh ww wh : AspectFit K).ratioW
    ∧ 0 < (aspectFit fw fh sw sh ww wh : AspectFit K).ratioH := by
  have hw := aspectFit_windowAR_pos (K := K) fw fh sw sh ww wh hww hwh
  have hv := aspectFit_videoAR_pos (K := K) fw fh sw sh ww wh hfw hfh hsw hsh
  rcases le_or_lt (aspectFit fw fh sw sh ww wh : AspectFit K).windowAR
    (aspectFit fw fh sw sh ww wh : AspectFit K).videoAR with h | h
  · have := aspectFit_letterbox fw fh sw sh ww wh h
    rw [this.1, this.2]
    exact ⟨one_pos, div_pos hw hv⟩
  · have := aspectFit_pillarbox fw fh sw sh ww wh h
    rw [this.1, this.2]
    exact ⟨div_pos hv hw, one_pos⟩

theorem nat_pos_of_valid {a b c d e f g : Nat}
    (h : ¬ (a = 0 ∨ b = 0 ∨ c = 0 ∨ d = 0 ∨ e = 0 ∨ f = 0 ∨ g = 0)) :
    0 < a ∧ 0 < b ∧ 0 < c ∧ 0 < d ∧ 0 < e ∧ 0 < f ∧ 0 < g := by
  simp only [not_or] at h
  omega

theorem aspectFit_screen_ratio {K : Type} [LinearOrderedField K]
    (fw fh sw sh ww wh : Nat) (hfw : 0 < fw) (hfh : 0 < fh) (hsw : 0 < sw) (hsh : 0 < sh)
    (hww : 0 < ww) (hwh : 0 < wh) :
    (aspectFit fw fh sw sh ww wh : AspectFit K).ratioW * (ww : K)
        / ((aspectFit fw fh sw sh ww wh : AspectFit K).ratioH * (wh : K))
      = (aspectFit fw fh sw sh ww wh : AspectFit K).videoAR := by
  have hw := aspectFit_windowAR_pos (K := K) fw fh sw sh ww wh hww hwh
  have hv := aspectFit_videoAR_pos (K := K) fw fh sw sh ww wh hfw hfh hsw hsh
  have hwhK : (0 : K) < (wh : K) := by exact_mod_cast hwh
  have hwwK : (0 : K) < (ww : K) := by exact_mod_cast hww
  have hwAR : (ww : K) = (aspectFit fw fh sw sh ww wh : AspectFit K).windowAR * (wh : K) := by
    rw [aspectFit_windowAR]; field_simp
  rcases le_or_lt (aspectFit fw fh sw sh ww wh : AspectFit K).windowAR
    (aspectFit fw fh sw sh ww wh : AspectFit K).videoAR with h | h
  · have hl := aspectFit_letterbox fw fh sw sh ww wh h
    rw [hl.1, hl.2, hwAR]
    field_simp
  · have hl := aspectFit_pillarbox fw fh sw sh ww wh h
    rw [hl.1, hl.2, hwAR]
    field_simp

theorem videoVertexShader_transformMatrix {K : Type} [LinearOrderedField K]
    (cosf sinf : K → K) (angle windowW windowH deltaX deltaY : K) (p : Vec4 K) :
    videoVertexShader (transformMatrix cosf sinf angle windowW windowH deltaX deltaY) p
      = { x := p.x * (cosf angle * windowW) + p.y * (-sinf angle * windowW) + p.z * 0
            + p.w * (-deltaX)
          y := p.x * (sinf angle * windowH) + p.y * (cosf angle * windowH) + p.z * 0
            + p.w * (-deltaY)
          z := p.x * 0 + p.y * 0 + p.z * 1 + p.w * 0
          w := p.x * 0 + p.y * 0 + p.z * 0 + p.w * 1 } := by
  simp [videoVertexShader, transformMatrix]

theorem vertexPosition_quadVertices {K : Type} [LinearOrderedField K] (videoW videoH : K) :
    vertexPosition (quadVertices videoW videoH) 0 = ⟨-videoW, -videoH, 0, 1⟩
    ∧ vertexPosition (quadVertices videoW videoH) 1 = ⟨videoW, -videoH, 0, 1⟩
    ∧ vertexPosition (quadVertices videoW videoH) 2 = ⟨-videoW, videoH, 0, 1⟩
    ∧ vertexPosition (quadVertices videoW videoH) 3 = ⟨videoW, videoH, 0, 1⟩ := by
  simp [vertexPosition, quadVertices]

theorem vertexTexcoord_texCoords {K : Type} [LinearOrderedField K] (frameWidth frameStride0 : Nat) :
    vertexTexcoord (texCoords frameWidth frameStride0 : List K) 0 = (0, 1)
    ∧ vertexTexcoord (texCoords frameWidth frameStride0 : List K) 1
      = ((frameWidth : K) / (frameStride0 : K), 1)
    ∧ vertexTexcoord (texCoords frameWidth frameStride0 : List K) 2 = (0, 0)
    ∧ vertexTexcoord (texCoords frameWidth frameStride0 : List K) 3
      = ((frameWidth : K) / (frameStride0 : K), 0) := by
  simp [vertexTexcoord, texCoords]

theorem headTracking_disabled {K Q : Type} [LinearOrderedField K] (ops : MathOps K Q)
    (self : Gles2Video) (headtracking : Bool) (headQuat headRefQuat : Q) (mediaFov : K × K)
    (metadata : VideoFrameMetadata) (ratioW ratioH : K)
    (h : headtracking = false ∨ self.mSession = none) :
    self.headTracking ops headtracking headQuat headRefQuat mediaFov metadata ratioW ratioH
      = { deltaX := 0, deltaY := 0, angle := 0 } := by
  unfold Gles2Video.headTracking
  rcases h with h | h
  · subst h; rfl
  · rw [h]; cases headtracking <;> rfl

theorem readHeadOrientation_disabled (self : Gles2Video) (headtracking : Bool)
    (h : headtracking = false ∨ self.mSession = none) :
    self.readHeadOrientation headtracking = [] := by
  unfold Gles2Video.readHeadOrientation
  rcases h with h | h
  · subst h; rfl
  · rw [h]; cases headtracking <;> rfl

theorem fovDegrees_eq {K : Type} [LinearOrderedField K] (self : Gles2Video) (mediaFov : K × K) :
    (self.fovDegrees mediaFov).1
      = (if self.mMedia = none ∨ mediaFov.1 = 0 then 78 else mediaFov.1)
    ∧ (self.fovDegrees mediaFov).2
      = (if self.mMedia = none ∨ mediaFov.2 = 0 then 49 else mediaFov.2) := by
  unfold Gles2Video.fovDegrees PDRAW_GLES2_VIDEO_DEFAULT_HFOV PDRAW_GLES2_VIDEO_DEFAULT_VFOV
  cases self.mMedia with
  | none => simp
  | some m => simp

theorem fovDegrees_ne_zero {K : Type} [LinearOrderedField K] (self : Gles2Video)
    (mediaFov : K × K) :
    (self.fovDegrees mediaFov).1 ≠ 0 ∧ (self.fovDegrees mediaFov).2 ≠ 0 := by
  unfold Gles2Video.fovDegrees PDRAW_GLES2_VIDEO_DEFAULT_HFOV PDRAW_GLES2_VIDEO_DEFAULT_VFOV
  constructor
  · dsimp only
    split_ifs with h
    · norm_num
    · exact h
  · dsimp only
    split_ifs with h
    · norm_num
    · exact h

theorem headTracking_enabled {K Q : Type} [LinearOrderedField K] (ops : MathOps K Q)
    (self : Gles2Video) (s : SessionId) (headQuat headRefQuat : Q) (mediaFov : K × K)
    (metadata : VideoFrameMetadata) (ratioW ratioH : K) (hs : self.mSession = some s) :
    self.headTracking ops true headQuat headRefQuat mediaFov metadata ratioW ratioH
      = { deltaX :=
            ((ops.pdraw_quat2euler
                (ops.pdraw_quat_mult headQuat (ops.pdraw_quat_conj headRefQuat))).psi
              - (metadata.cameraPan : K))
              / ((self.fovDegrees mediaFov).1 * ops.M_PI / 180 / ratioW) * 2
          deltaY :=
            ((ops.pdraw_quat2euler
                (ops.pdraw_quat_mult headQuat (ops.pdraw_quat_conj headRefQuat))).theta
              - (metadata.cameraTilt : K))
              / ((self.fovDegrees mediaFov).2 * ops.M_PI / 180 / ratioH) * 2
          angle :=
            (ops.pdraw_quat2euler
              (ops.pdraw_quat_mult headQuat (ops.pdraw_quat_conj headRefQuat))).phi } := by
  unfold Gles2Video.headTracking
  rw [hs]

/-! ## Lemmas on the constructor and the destructor of `Gles2Video` -/

theorem compileShader_ret (env : Env) (shader : Shader) (ret : Int)
    (h : (Gles2Video.compileShader env shader ret).1 = 0) :
    ret = 0 ∧ env.compileStatus shader = true := by
  unfold Gles2Video.compileShader at h
  simp only [] at h
  split_ifs at h <;> simp_all

theorem linkProgram_ret (env : Env) (colorConversion : Gles2VideoColorConversion)
    (vertexShader fragmentShader : Int) (ret : Int)
    (h : (Gles2Video.linkProgram env colorConversion vertexShader fragmentShader ret).1 = 0) :
    ret = 0 ∧ env.linkStatus colorConversion = true := by
  unfold Gles2Video.linkProgram at h
  simp only [] at h
  split_ifs at h <;> simp_all

theorem linkProgram_skipped (env : Env) (colorConversion : Gles2VideoColorConversion)
    (vertexShader fragmentShader : Int) (ret : Int) (h : ret ≠ 0) :
    Gles2Video.linkProgram env colorConversion vertexShader fragmentShader ret
      = (ret, none, []) := by
  unfold Gles2Video.linkProgram
  rw [if_pos h]

theorem compileShader_calls (env : Env) (shader : Shader) (ret : Int) :
    ∀ e ∈ (Gles2Video.compileShader env shader ret).2, e.isShaderBuildCall = true := by
  unfold Gles2Video.compileShader
  simp only []
  split_ifs <;> simp [Event.isShaderBuildCall]

theorem linkProgram_calls (env : Env) (colorConversion : Gles2VideoColorConversion)
    (vertexShader fragmentShader : Int) (ret : Int) :
    ∀ e ∈ (Gles2Video.linkProgram env colorConversion vertexShader fragmentShader ret).2.2,
      e.isProgramBuildCall = true := by
  unfold Gles2Video.linkProgram
  simp only []
  split_ifs <;> simp [Event.isProgramBuildCall]

/-- The local `ret` of the constructor at its end, read off the object built: the textures are
generated exactly when it is 0, and then every shader compiled and every program linked. -/
theorem new_mTextures (env : Env) (session : Option SessionId) (media : Option MediaId)
    (firstTexUnit : Nat)
    (h : (Gles2Video.new env session media firstTexUnit).1.mTextures ≠ none) :
    (∀ shader, env.compileStatus shader = true) ∧ (∀ c, env.linkStatus c = true) := by
  unfold Gles2Video.new at h
  simp only [] at h
  split_ifs at h with h0
  · obtain ⟨h1, l3⟩ := linkProgram_ret _ _ _ _ _ h0
    obtain ⟨h2, l2⟩ := linkProgram_ret _ _ _ _ _ h1
    obtain ⟨h3, l1⟩ := linkProgram_ret _ _ _ _ _ h2
    obtain ⟨h4, s4⟩ := compileShader_ret _ _ _ h3
    obtain ⟨h5, s3⟩ := compileShader_ret _ _ _ h4
    obtain ⟨h6, s2⟩ := compileShader_ret _ _ _ h5
    obtain ⟨-, s1⟩ := compileShader_ret _ _ _ h6
    exact ⟨fun shader => by cases shader <;> assumption, fun c => by cases c <;> assumption⟩
  · exact absurd rfl h

/-- When the constructor fails it makes no call after the shader and program build calls. -/
theorem new_failure_calls (env : Env) (session : Option SessionId) (media : Option MediaId)
    (firstTexUnit : Nat)
    (h : (Gles2Video.new env session media firstTexUnit).1.mTextures = none) :
    ∀ e ∈ (Gles2Video.new env session media firstTexUnit).2,
      e.isShaderBuildCall = true ∨ e.isProgramBuildCall = true := by
  unfold Gles2Video.new at h ⊢
  simp only [] at h ⊢
  split_ifs at h with h0
  simp only [if_neg h0, List.append_nil, List.forall_mem_append]
  have hc := fun shader ret e he => Or.inl (b := Event.isProgramBuildCall e = true)
    (compileShader_calls env shader ret e he)
  have hl := fun c v f ret e he => Or.inr (a := Event.isShaderBuildCall e = true)
    (linkProgram_calls env c v f ret e he)
  exact ⟨⟨⟨⟨⟨⟨hc _ _, hc _ _⟩, hc _ _⟩, hc _ _⟩, hl _ _ _ _⟩, hl _ _ _ _⟩, hl _ _ _ _⟩

/-- When a shader does not compile the constructor assigns no program and makes no call on a
program. -/
theorem new_compile_failure (env : Env) (session : Option SessionId) (media : Option MediaId)
    (firstTexUnit : Nat) (shader : Shader) (h : env.compileStatus shader = false) :
    (Gles2Video.new env session media firstTexUnit).1
      = { mSession := session, mMedia := media, mFirstTexUnit := firstTexUnit
          mProgramNone := none, mProgramYuvp := none, mProgramYuvsp := none
          mTextures := none }
    ∧ ∀ e ∈ (Gles2Video.new env session media firstTexUnit).2, e.isShaderBuildCall = true := by
  have h4 : (Gles2Video.compileShader env .fragmentShaderYuvp
      (Gles2Video.compileShader env .fragmentShaderYuvsp
        (Gles2Video.compileShader env .fragmentShaderNoconv
          (Gles2Video.compileShader env .vertexShader 0).1).1).1).1 ≠ 0 := by
    intro h4
    obtain ⟨h3, s4⟩ := compileShader_ret _ _ _ h4
    obtain ⟨h2, s3⟩ := compileShader_ret _ _ _ h3
    obtain ⟨h1, s2⟩ := compileShader_ret _ _ _ h2
    obtain ⟨-, s1⟩ := compileShader_ret _ _ _ h1
    cases shader <;> simp_all
  unfold Gles2Video.new
  simp only []
  simp only [linkProgram_skipped _ _ _ _ _ h4, if_neg h4, List.append_nil,
    List.forall_mem_append, true_and]
  exact ⟨⟨⟨compileShader_calls _ _ _, compileShader_calls _ _ _⟩, compileShader_calls _ _ _⟩,
    compileShader_calls _ _ _⟩

theorem compileShader_ok (env : Env) (shader : Shader)
    (hh : env.createShader shader ≠ 0 ∧ env.createShader shader ≠ 1280)
    (hs : env.compileStatus shader = true) :
    Gles2Video.compileShader env shader 0
      = (0, [Event.gl .glCreateShader [], Event.gl .glShaderSource [env.createShader shader],
          Event.gl .glCompileShader [env.createShader shader],
          Event.gl .glGetShaderiv [env.createShader shader]]) := by
  unfold Gles2Video.compileShader
  simp [hh.1, hh.2, hs]

theorem linkProgram_ok (env : Env) (colorConversion : Gles2VideoColorConversion)
    (vertexShader fragmentShader : Int) (hl : env.linkStatus colorConversion = true) :
    Gles2Video.linkProgram env colorConversion vertexShader fragmentShader 0
      = (0, some (env.createProgram colorConversion),
          [Event.gl .glCreateProgram [],
           Event.gl .glAttachShader [env.createProgram colorConversion, vertexShader],
           Event.gl .glAttachShader [env.createProgram colorConversion, fragmentShader],
           Event.gl .glLinkProgram [env.createProgram colorConversion],
           Event.gl .glGetProgramiv [env.createProgram colorConversion]]) := by
  unfold Gles2Video.linkProgram
  simp [hl]

/-- The object built by a constructor in which every step succeeds, and the fact that it linked
the pass-through program. -/
theorem new_success (env : Env) (session : Option SessionId) (media : Option MediaId)
    (firstTexUnit : Nat)
    (hh : ∀ shader, env.createShader shader ≠ 0 ∧ env.createShader shader ≠ 1280)
    (hs : ∀ shader, env.compileStatus shader = true) (hl : ∀ c, env.linkStatus c = true) :
    (Gles2Video.new env session media firstTexUnit).1
      = { mSession := session, mMedia := media, mFirstTexUnit := firstTexUnit
          mProgramNone := some (env.createProgram .GLES2_VIDEO_COLOR_CONVERSION_NONE)
          mProgramYuvp :=
            some (env.createProgram .GLES2_VIDEO_COLOR_CONVERSION_YUV420PLANAR_TO_RGB)
          mProgramYuvsp :=
            some (env.createProgram .GLES2_VIDEO_COLOR_CONVERSION_YUV420SEMIPLANAR_TO_RGB)
          mTextures := some env.videoTextures }
    ∧ Event.gl .glLinkProgram [(env.createProgram .GLES2_VIDEO_COLOR_CONVERSION_NONE : Int)]
        ∈ (Gles2Video.new env session media firstTexUnit).2 := by
  unfold Gles2Video.new
  simp only [compileShader_ok env _ (hh _) (hs _), linkProgram_ok env _ _ _ (hl _)]
  simp

theorem destroyGles2_deleteProgram (r : Gles2Renderer) (v : Gles2Video) (a : List Int)
    (hv : r.mGles2Video = some v) (h : Event.gl .glDeleteProgram a ∈ r.destroyGles2.2.2) :
    a = glName v.mProgramYuvp ∨ a = glName v.mProgramYuvsp := by
  unfold Gles2Renderer.destroyGles2 at h
  simp only [hv, Gles2Video.delete] at h
  simp only [List.mem_append] at h
  rcases h with ((((h | h) | h) | h) | h) | h
  · simpa using h
  · split at h <;> simp at h
  · split at h <;> simp at h
  · split_ifs at h <;> simp at h
  · split_ifs at h <;> simp at h
  · split_ifs at h <;> simp at h

theorem setRendererParams_video (env : Env) (w : World) (r : Gles2Renderer)
    (windowWidth windowHeight renderX renderY renderWidth renderHeight : Int)
    (headtracking : Bool)
    (hw : (if renderWidth ≠ 0 then renderWidth else windowWidth) ≠ 0)
    (hh : (if renderHeight ≠ 0 then renderHeight else windowHeight) ≠ 0)
    (hvideo : env.newGles2VideoOk = true) (hhud : env.newGles2HudOk = true) :
    (r.setRendererParams env w windowWidth windowHeight renderX renderY renderWidth
        renderHeight false headtracking).ret = 1
    ∧ (r.setRendererParams env w windowWidth windowHeight renderX renderY renderWidth
        renderHeight false headtracking).self.mRunning = true
    ∧ (r.setRendererParams env w windowWidth windowHeight renderX renderY renderWidth
        renderHeight false headtracking).self.mGles2Video
      = some (Gles2Video.new env r.mSession r.mMedia r.mGles2VideoFirstTexUnit).1 := by
  simp only [Gles2Renderer.setRendererParams, Gles2Renderer.setRendererParams_nolock,
    Gles2Renderer.destroyGles2, Gles2Renderer.initGles2, hvideo, hhud]
  simp only [ne_eq, ite_not] at hw hh
  simp [hw, hh]

/-! ## Lemmas on the uses of the session -/

theorem logStage_null (r : Gles2Renderer) (ret : Int) (hs : r.mSession = none) :
    r.logStage ret
      = if ret = 0 then (none, [Event.clockGettime, Event.sessionGetCurrentTime none])
        else (some ret, []) := by
  unfold Gles2Renderer.logStage
  rw [hs]

theorem renderStages_null (env : Env) (r : Gles2Renderer) (data : AvcDecoderOutputBuffer)
    (hs : r.mSession = none) :
    ((r.renderStages env data).1 = none
      ↔ (r.hmdStage env (r.hudStage env data (r.videoStage data).1).1).1 = 0)
    ∧ ((r.renderStages env data).1 = none →
        (r.renderStages env data).2
          = r.bindOffscreen ++ (r.videoStage data).2
            ++ (r.hudStage env data (r.videoStage data).1).2
            ++ (r.hmdStage env (r.hudStage env data (r.videoStage data).1).1).2
            ++ [Event.clockGettime, Event.sessionGetCurrentTime none]) := by
  unfold Gles2Renderer.renderStages
  simp only [logStage_null _ _ hs]
  split_ifs with h <;> simp [h]

theorem drawCurrentBuffer_null (env : Env) (r : Gles2Renderer) (hs : r.mSession = none) :
    ((r.drawCurrentBuffer env).1 = none
      ↔ ∃ b data, r.mCurrentBuffer = some b ∧ b.metadataPtr = some data
          ∧ r.mRenderWidth ≠ 0 ∧ r.mRenderHeight ≠ 0
          ∧ (r.hmdStage env (r.hudStage env data (r.videoStage data).1).1).1 = 0)
    ∧ ((r.drawCurrentBuffer env).1 = none →
        (r.drawCurrentBuffer env).2.getLast? = some (Event.sessionGetCurrentTime none)) := by
  unfold Gles2Renderer.drawCurrentBuffer
  cases hcur : r.mCurrentBuffer with
  | none => simp
  | some b =>
    cases hdata : b.metadataPtr with
    | none => simp [hdata]
    | some data =>
      simp only [hdata]
      by_cases hdim : r.mRenderWidth ≠ 0 ∧ r.mRenderHeight ≠ 0
      · obtain ⟨h1, h2⟩ := renderStages_null env r data hs
        simp only [if_pos hdim, Option.map_eq_none', h1]
        constructor
        · constructor
          · intro h
            exact ⟨b, data, rfl, hdata, hdim.1, hdim.2, h⟩
          · rintro ⟨b', data', hb, hd, -, -, h⟩
            cases hb
            rw [hdata] at hd
            cases hd
            exact h
        · intro h
          rw [h2 (h1.mpr h)]
          simp
      · simp only [if_neg hdim]
        constructor
        · constructor
          · intro h; cases h
          · rintro ⟨b', data', -, -, hw, hh, -⟩
            exact absurd ⟨hw, hh⟩ hdim
        · intro h; cases h

theorem keepBuffer_stages (env : Env) (r : Gles2Renderer) (buffer : Option Buffer)
    (data : AvcDecoderOutputBuffer) :
    (r.keepBuffer buffer).mRenderWidth = r.mRenderWidth
    ∧ (r.keepBuffer buffer).mRenderHeight = r.mRenderHeight
    ∧ (r.keepBuffer buffer).hmdStage env
        ((r.keepBuffer buffer).hudStage env data ((r.keepBuffer buffer).videoStage data).1).1
      = r.hmdStage env (r.hudStage env data (r.videoStage data).1).1 := by
  cases buffer <;> exact ⟨rfl, rfl, rfl⟩

theorem render_nolock_ret_none (env : Env) (w : World) (r : Gles2Renderer) (t : Nat) :
    ((r.render_nolock env w t).ret = none
      ↔ ((r.keepBuffer (r.drainOutputQueue w).2.1).drawCurrentBuffer env).1 = none)
    ∧ ((r.render_nolock env w t).ret = none →
        (r.render_nolock env w t).events
          = (r.drainOutputQueue w).2.2.2
            ++ ((r.keepBuffer (r.drainOutputQueue w).2.1).drawCurrentBuffer env).2) := by
  unfold Gles2Renderer.render_nolock
  cases h : ((r.keepBuffer (r.drainOutputQueue w).2.1).drawCurrentBuffer env).1 with
  | none => simp [h]
  | some v =>
    simp only [h]
    split <;> simp

theorem isNullSessionCall_renderFrame (v : Gles2Video)
    (framePlane frameStride : Nat × Nat × Nat)
    (frameWidth frameHeight sarWidth sarHeight windowWidth windowHeight : Nat)
    (cc : Gles2VideoColorConversion) (headtracking : Bool) :
    ∀ e ∈ (v.renderFrame framePlane frameStride frameWidth frameHeight sarWidth sarHeight
        windowWidth windowHeight cc headtracking).2, e.isNullSessionCall = false := by
  unfold Gles2Video.renderFrame
  split
  · simp
  · have hup : ∀ e ∈ v.uploadTextures framePlane frameStride frameHeight cc,
        e.isNullSessionCall = false := by
      unfold Gles2Video.uploadTextures
      cases cc <;> simp [List.mem_flatMap, Event.isNullSessionCall]
      intro e i _ he
      rcases he with he | he | he | he <;> subst he <;> rfl
    have hht : ∀ e ∈ v.readHeadOrientation headtracking, e.isNullSessionCall = false := by
      unfold Gles2Video.readHeadOrientation
      split
      · split <;> simp [Event.isNullSessionCall]
      · simp
    simp only [List.forall_mem_append]
    refine ⟨⟨⟨?_, hup⟩, hht⟩, ?_⟩ <;> simp [Event.isNullSessionCall]

theorem isNullSessionCall_initGles2Hmd (env : Env) (r : Gles2Renderer) :
    ∀ e ∈ (r.initGles2Hmd env).2.2, e.isNullSessionCall = false := by
  cases hs : r.mSession <;> cases hset : env.sessionSettings <;>
    simp only [Gles2Renderer.initGles2Hmd, hs, hset, List.forall_mem_append] <;>
    refine ⟨by simp [Event.isNullSessionCall], ?_⟩ <;>
    split_ifs <;> simp [Event.isNullSessionCall]

theorem isNullSessionCall_new (env : Env) (session : Option SessionId) (media : Option MediaId)
    (firstTexUnit : Nat) :
    ∀ e ∈ (Gles2Video.new env session media firstTexUnit).2, e.isNullSessionCall = false := by
  have hc : ∀ shader ret, ∀ e ∈ (Gles2Video.compileShader env shader ret).2,
      e.isNullSessionCall = false := by
    intro shader ret
    unfold Gles2Video.compileShader
    simp only []
    split_ifs <;> simp [Event.isNullSessionCall]
  have hl : ∀ c v f ret, ∀ e ∈ (Gles2Video.linkProgram env c v f ret).2.2,
      e.isNullSessionCall = false := by
    intro c v f ret
    unfold Gles2Video.linkProgram
    simp only []
    split_ifs <;> simp [Event.isNullSessionCall]
  unfold Gles2Video.new
  simp only [List.forall_mem_append]
  refine ⟨⟨⟨⟨⟨⟨⟨⟨hc _ _, hc _ _⟩, hc _ _⟩, hc _ _⟩, hl _ _ _ _⟩, hl _ _ _ _⟩, hl _ _ _ _⟩, ?_⟩, ?_⟩
  · split_ifs <;> simp [Event.isNullSessionCall]
  · split_ifs
    · simp only [List.forall_mem_append]
      refine ⟨⟨⟨⟨?_, ?_⟩, ?_⟩, ?_⟩, ?_⟩
      · simp [Gles2Video.cacheLocations, Event.isNullSessionCall]
      · simp [Gles2Video.cacheLocations, Event.isNullSessionCall]
      · simp [Gles2Video.cacheLocations, Event.isNullSessionCall]
      · simp [Event.isNullSessionCall]
      · simp only [List.mem_flatMap]
        rintro e ⟨i, -, he⟩
        simp only [List.mem_cons, List.mem_singleton, List.not_mem_nil, or_false] at he
        rcases he with he | he | he | he | he | he <;> subst he <;> rfl
    · simp

theorem isNullSessionCall_destroyGles2 (r : Gles2Renderer) :
    ∀ e ∈ r.destroyGles2.2.2, e.isNullSessionCall = false := by
  simp only [Gles2Renderer.destroyGles2, Gles2Video.delete, List.forall_mem_append]
  refine ⟨⟨⟨⟨⟨?_, ?_⟩, ?_⟩, ?_⟩, ?_⟩, ?_⟩ <;> split <;> simp [Event.isNullSessionCall]

theorem isNullSessionCall_initGles2 (env : Env) (r : Gles2Renderer) :
    ∀ e ∈ (r.initGles2 env).2.2, e.isNullSessionCall = false := by
  have hnew := isNullSessionCall_new env r.mSession r.mMedia r.mGles2VideoFirstTexUnit
  cases hv : env.newGles2VideoOk with
  | false => simp [Gles2Renderer.initGles2, hv, Event.isNullSessionCall]
  | true =>
    cases hh : env.newGles2HudOk with
    | false =>
      simp only [Gles2Renderer.initGles2, hv, hh, if_true, if_false, Bool.false_eq_true,
        false_and, List.forall_mem_append]
      simp only [show ((-1 : Int) = 0) = False from by decide, if_false, false_and,
        List.forall_mem_append]
      exact ⟨⟨⟨by simp [Event.isNullSessionCall], hnew⟩, by simp [Event.isNullSessionCall]⟩,
        by simp⟩
    | true =>
      cases hd : r.mHmdDistorsionCorrection with
      | false =>
        simp only [Gles2Renderer.initGles2, hv, hh, hd, if_true, if_false, Bool.false_eq_true,
          and_false, List.forall_mem_append]
        exact ⟨⟨⟨by simp [Event.isNullSessionCall], hnew⟩, by simp [Event.isNullSessionCall]⟩,
          by simp [Event.isNullSessionCall]⟩
      | true =>
        simp only [Gles2Renderer.initGles2, hv, hh, hd, if_true, and_self,
          List.forall_mem_append]
        exact ⟨⟨⟨⟨by simp [Event.isNullSessionCall], hnew⟩, by simp [Event.isNullSessionCall]⟩,
          by simp [Event.isNullSessionCall]⟩, isNullSessionCall_initGles2Hmd env _⟩

theorem isNullSessionCall_setRendererParams (env : Env) (w : World) (r : Gles2Renderer)
    (windowWidth windowHeight renderX renderY renderWidth renderHeight : Int)
    (hmdDistorsionCorrection headtracking : Bool) :
    ∀ e ∈ (r.setRendererParams env w windowWidth windowHeight renderX renderY renderWidth
        renderHeight hmdDistorsionCorrection headtracking).events,
      e.isNullSessionCall = false := by
  have hnolock : ∀ (r : Gles2Renderer),
      ∀ e ∈ (r.setRendererParams_nolock env windowWidth windowHeight renderX renderY renderWidth
        renderHeight hmdDistorsionCorrection headtracking).2.2, e.isNullSessionCall = false := by
    intro r
    unfold Gles2Renderer.setRendererParams_nolock
    simp only []
    split_ifs
    all_goals
      intro e he
      dsimp only at he
      first
        | (rw [List.mem_append] at he
           rcases he with h | h
           · exact isNullSessionCall_destroyGles2 r e h
           · first
               | exact isNullSessionCall_initGles2 env _ e h
               | exact absurd h (List.not_mem_nil e))
        | exact isNullSessionCall_destroyGles2 r e he
  intro e he
  exact hnolock { r with mRunning := false } e he

/-! ## Lemmas on what a call releases and on what the teardown deletes -/

/-- A call of `render_nolock` that does not return has released every buffer it dequeued except
the one it kept in `buffer`. -/
theorem render_nolock_leak (env : Env) (w : World) (r : Gles2Renderer) (t : Nat)
    (h : (r.render_nolock env w t).ret = none) :
    dequeuedBuffers (r.render_nolock env w t).events
      = releasedBuffers (r.render_nolock env w t).events ++ (r.drainOutputQueue w).2.1.toList := by
  rw [(render_nolock_ret_none env w r t).2 h, dequeuedBuffers_append, releasedBuffers_append,
    releasedBuffers_eq_nil _ (isBufferCall_drawCurrentBuffer _ _),
    dequeuedBuffers_eq_nil _ (isBufferCall_drawCurrentBuffer _ _), List.append_nil,
    List.append_nil]
  exact (drainOutputQueue_balance w r).1

/-- On a running renderer without a session, a call that finds the buffers `bs ++ [bn]` in the
queue and draws `bn` with success does not return: `bn` was dequeued and is not released. -/
theorem render_null_session_leak (env : Env) (w : World) (r : Gles2Renderer) (t : Nat)
    (d : DecoderId) (q : QueueHandle) (bs : List Buffer) (bn : Buffer)
    (data : AvcDecoderOutputBuffer)
    (hs : r.mSession = none) (hrun : r.mRunning = true)
    (hd : r.mDecoder = some d) (hq : r.mDecoderOutputBufferQueue = some q)
    (hc : (w.decoders d).configured = true)
    (hp : (w.decoders d).outputQueue q = bs ++ [bn])
    (hdata : bn.metadataPtr = some data)
    (hw : r.mRenderWidth ≠ 0) (hh : r.mRenderHeight ≠ 0)
    (hst : (r.hmdStage env (r.hudStage env data (r.videoStage data).1).1).1 = 0) :
    (r.render env w t).ret = none
    ∧ dequeuedBuffers (r.render env w t).events = bs ++ [bn]
    ∧ releasedBuffers (r.render env w t).events = bs := by
  have hbuf : (r.drainOutputQueue w).2.1 = some bn := by
    rw [(drainOutputQueue_queue w r d q hd hc hq).2.1, hp, lastBuffer_append]
  have hk := keepBuffer_stages env r (some bn) data
  have hks : (r.keepBuffer (some bn)).mSession = none := by
    rw [keepBuffer_mSession]; exact hs
  have hdraw : ((r.keepBuffer (r.drainOutputQueue w).2.1).drawCurrentBuffer env).1 = none := by
    rw [hbuf]
    refine (drawCurrentBuffer_null env _ hks).1.mpr ⟨bn, data, rfl, hdata, ?_, ?_, ?_⟩
    · rw [hk.1]; exact hw
    · rw [hk.2.1]; exact hh
    · rw [hk.2.2]; exact hst
  have hnone : (r.render_nolock env w t).ret = none :=
    (render_nolock_ret_none env w r t).1.mpr hdraw
  have hleak := render_nolock_leak env w r t hnone
  have hdeq : dequeuedBuffers (r.render_nolock env w t).events = bs ++ [bn] := by
    rw [(render_nolock_ret_none env w r t).2 hnone, dequeuedBuffers_append,
      dequeuedBuffers_eq_nil _ (isBufferCall_drawCurrentBuffer _ _), List.append_nil,
      (drainOutputQueue_queue w r d q hd hc hq).2.2, hp, dequeuedBuffers_drainEvents]
  rw [render_of_running env w r t hrun]
  refine ⟨hnone, hdeq, ?_⟩
  rw [hdeq, hbuf] at hleak
  exact (List.append_cancel_right hleak).symm

/-- Over a sequence of `render()` calls that all return, the buffers released are the buffers
dequeued; a renderer with a session completes every sequence. -/
theorem renderCalls_balance (r : Gles2Renderer) (calls : List (Env × World × Nat)) :
    (r.mSession ≠ none → ∃ out, r.renderCalls calls = some out)
    ∧ ∀ out, r.renderCalls calls = some out →
        releasedBuffers out.2 = dequeuedBuffers out.2
        ∧ ∀ b, (releasedBuffers out.2).count b = (dequeuedBuffers out.2).count b := by
  induction calls generalizing r with
  | nil =>
    refine ⟨fun _ => ⟨(r, []), rfl⟩, ?_⟩
    intro out hout
    simp only [Gles2Renderer.renderCalls, Option.some.injEq] at hout
    subst hout
    exact ⟨rfl, fun _ => rfl⟩
  | cons c rest ih =>
    obtain ⟨env, w, t⟩ := c
    constructor
    · intro hs
      obtain ⟨v, hv⟩ := render_returns env w r t hs
      obtain ⟨out, hout⟩ := (ih (r.render env w t).self).1 (by rw [render_mSession]; exact hs)
      exact ⟨(out.1, (r.render env w t).events ++ out.2), by
        simp [Gles2Renderer.renderCalls, hv, hout]⟩
    · intro out hout
      simp only [Gles2Renderer.renderCalls] at hout
      cases hv : (r.render env w t).ret with
      | none => simp [hv] at hout
      | some v =>
        simp only [hv, Option.map_eq_some'] at hout
        obtain ⟨p, hp, hout⟩ := hout
        subst hout
        have h1 := render_balance env w r t v hv
        have h2 := ((ih (r.render env w t).self).2 p hp).1
        have h3 : releasedBuffers ((r.render env w t).events ++ p.2)
            = dequeuedBuffers ((r.render env w t).events ++ p.2) := by
          rw [releasedBuffers_append, dequeuedBuffers_append, h1, h2]
        exact ⟨h3, fun b => by simp only []; rw [h3]⟩

/-- The calls `destroyGles2` makes: every sub-renderer object held is deleted, and with the video
sub-renderer its textures and its planar and semi-planar programs; every off-screen object held
is deleted; the pass-through program of the video sub-renderer is not. -/
theorem destroyGles2_deletes (r : Gles2Renderer) :
    (∀ v, r.mGles2Video = some v →
      Event.deleteGles2Video ∈ r.destroyGles2.2.2
      ∧ (∀ t0 t1 t2, v.mTextures = some (t0, t1, t2) →
          Event.gl .glDeleteTextures [(t0 : Int), (t1 : Int), (t2 : Int)] ∈ r.destroyGles2.2.2)
      ∧ (∀ p, v.mProgramYuvp = some p →
          Event.gl .glDeleteProgram [(p : Int)] ∈ r.destroyGles2.2.2)
      ∧ (∀ p, v.mProgramYuvsp = some p →
          Event.gl .glDeleteProgram [(p : Int)] ∈ r.destroyGles2.2.2)
      ∧ (∀ p, v.mProgramNone = some p → v.mProgramYuvp ≠ some p → v.mProgramYuvsp ≠ some p →
          Event.gl .glDeleteProgram [(p : Int)] ∉ r.destroyGles2.2.2))
    ∧ (r.mGles2Hud ≠ none → Event.deleteGles2Hud ∈ r.destroyGles2.2.2)
    ∧ (r.mGles2Hmd ≠ none → Event.deleteGles2Hmd ∈ r.destroyGles2.2.2)
    ∧ (r.mFboRenderBuffer > 0 →
        Event.gl .glDeleteRenderbuffers [(r.mFboRenderBuffer : Int)] ∈ r.destroyGles2.2.2)
    ∧ (r.mFboTexture > 0 →
        Event.gl .glDeleteTextures [(r.mFboTexture : Int)] ∈ r.destroyGles2.2.2)
    ∧ (r.mFbo > 0 → Event.gl .glDeleteFramebuffers [(r.mFbo : Int)] ∈ r.destroyGles2.2.2) := by
  refine ⟨?_, ?_, ?_, ?_, ?_, ?_⟩
  · intro v hv
    refine ⟨?_, ?_, ?_, ?_, ?_⟩
    · simp [Gles2Renderer.destroyGles2, hv]
    · intro t0 t1 t2 ht
      simp [Gles2Renderer.destroyGles2, hv, Gles2Video.delete, ht]
    · intro p hp
      simp [Gles2Renderer.destroyGles2, hv, Gles2Video.delete, hp, glName]
    · intro p hp
      simp [Gles2Renderer.destroyGles2, hv, Gles2Video.delete, hp, glName]
    · intro p _ hp hsp hmem
      rcases destroyGles2_deleteProgram r v _ hv hmem with h | h
      · cases hy : v.mProgramYuvp with
        | none => rw [hy] at h; simp [glName] at h
        | some p' =>
          rw [hy] at h hp
          simp only [glName, List.cons.injEq, Nat.cast_inj, and_true] at h
          exact hp (by rw [h])
      · cases hy : v.mProgramYuvsp with
        | none => rw [hy] at h; simp [glName] at h
        | some p' =>
          rw [hy] at h hsp
          simp only [glName, List.cons.injEq, Nat.cast_inj, and_true] at h
          exact hsp (by rw [h])
  · intro h
    cases hh : r.mGles2Hud with
    | none => exact absurd hh h
    | some x => simp [Gles2Renderer.destroyGles2, hh]
  · intro h
    cases hh : r.mGles2Hmd with
    | none => exact absurd hh h
    | some x => simp [Gles2Renderer.destroyGles2, hh]
  · intro h
    simp [Gles2Renderer.destroyGles2, h]
  · intro h
    simp [Gles2Renderer.destroyGles2, h]
  · intro h
    simp [Gles2Renderer.destroyGles2, h]

/-! ## The claims -/

/-- C1. Frame-drop drain: on a running renderer whose attached, configured decoder holds
`bs ++ [bn]` in its output queue (oldest first), one `render()` call leaves `bn` in
`mCurrentBuffer` and the queue empty. The calls it makes split into `pre ++ post`: `pre` holds
only dequeue and release calls (no draw call), dequeues exactly `bs ++ [bn]` and releases exactly
`bs`, in that order; every draw call is in `post`, which dequeues nothing, releases nothing but
`bn`, and hands `renderFrame` no frame other than the one of `bn`. With distinct buffers each
buffer of `bs` is therefore released exactly once by the call. -/
theorem render_drains_queue_keeps_newest (env : Env) (w : World) (r : Gles2Renderer) (t : Nat)
    (d : DecoderId) (q : QueueHandle) (bs : List Buffer) (bn : Buffer)
    (hrun : r.mRunning = true) (hd : r.mDecoder = some d)
    (hq : r.mDecoderOutputBufferQueue = some q)
    (hc : (w.decoders d).configured = true)
    (hp : (w.decoders d).outputQueue q = bs ++ [bn]) :
    (r.render env w t).self.mCurrentBuffer = some bn
    ∧ ((r.render env w t).world.decoders d).outputQueue q = []
    ∧ ∃ pre post, (r.render env w t).events = pre ++ post
        ∧ dequeuedBuffers pre = bs ++ [bn]
        ∧ releasedBuffers pre = bs
        ∧ (∀ e ∈ pre, e.isDrawCall = false)
        ∧ dequeuedBuffers post = []
        ∧ (releasedBuffers post = [] ∨ releasedBuffers post = [bn])
        ∧ (∀ data ww wh cc ht, Event.renderFrame data ww wh cc ht ∈ post →
            bn.metadataPtr = some data)
        ∧ ((bs ++ [bn]).Nodup →
            ∀ b ∈ bs, (releasedBuffers (r.render env w t).events).count b = 1) := by
  have hrender : r.render env w t = r.render_nolock env w t := by
    simp [Gles2Renderer.render, hrun]
  obtain ⟨hw, hb, he⟩ := drainOutputQueue_queue w r d q hd hc hq
  rw [hp] at hb he
  rw [lastBuffer_append] at hb
  obtain ⟨hself, hworld, tail, hev, htail, _⟩ := render_nolock_shape env w r t
  rw [hb] at hself htail hev
  rw [he] at hev
  have hrel : releasedBuffers (drainEvents d q none (bs ++ [bn])) = bs := by
    have := releasedBuffers_drainEvents d q (bs ++ [bn]) none
    rw [lastBuffer_append] at this
    simpa using this
  have hdraw := isBufferCall_drawCurrentBuffer env (r.keepBuffer (some bn))
  have htailrel : releasedBuffers tail = [] ∨ releasedBuffers tail = [bn] := by
    rcases htail with h | ⟨d', b, _, hb', h⟩
    · left; rw [h]; rfl
    · right; rw [h]; simp at hb'; subst hb'; rfl
  have htaildeq : dequeuedBuffers tail = [] := by
    rcases htail with h | ⟨d', b, _, _, h⟩ <;> rw [h] <;> rfl
  have hpost : releasedBuffers (((r.keepBuffer (some bn)).drawCurrentBuffer env).2 ++ tail) = []
      ∨ releasedBuffers (((r.keepBuffer (some bn)).drawCurrentBuffer env).2 ++ tail) = [bn] := by
    rw [releasedBuffers_append, releasedBuffers_eq_nil _ hdraw]
    simpa using htailrel
  rw [hrender]
  refine ⟨?_, ?_, drainEvents d q none (bs ++ [bn]),
    ((r.keepBuffer (some bn)).drawCurrentBuffer env).2 ++ tail, ?_, ?_, hrel, ?_, ?_, hpost, ?_, ?_⟩
  · rw [hself]; rfl
  · rw [hworld, hw]; simp [World.setDecoder]
  · rw [hev, List.append_assoc]
  · exact dequeuedBuffers_drainEvents d q _ none
  · intro e he'
    exact isDrawCall_of_isBufferCall e (isBufferCall_drainEvents d q _ none e he')
  · rw [dequeuedBuffers_append, dequeuedBuffers_eq_nil _ hdraw, htaildeq]; rfl
  · intro data ww wh cc ht hmem
    rw [List.mem_append] at hmem
    rcases hmem with hmem | hmem
    · obtain ⟨cur, hcur, hdata⟩ := renderFrame_mem_drawCurrentBuffer env _ data ww wh cc ht hmem
      simp [Gles2Renderer.keepBuffer] at hcur
      rw [hcur]; exact hdata
    · rcases htail with h | ⟨d', b, _, _, h⟩ <;> rw [h] at hmem <;> simp at hmem
  · intro hnd b hmem
    rw [hev, List.append_assoc, releasedBuffers_append, hrel]
    have hne : b ≠ bn := by
      intro h; subst h
      rw [List.nodup_append] at hnd
      exact hnd.2.2 hmem (by simp)
    have hcnt : bs.count b = 1 := List.count_eq_one_of_mem (List.Nodup.of_append_left hnd) hmem
    rcases hpost with h | h <;> rw [h] <;> simp [List.count_append, hcnt, hne]

/-- C1, on the queue `[A, B, C]`: `C` is retained, `A` then `B` are released before any draw
call. -/
theorem render_drains_queue_keeps_newest_witness :
    runningRenderer.mRunning = true
    ∧ runningRenderer.mDecoder = some 4
    ∧ runningRenderer.mDecoderOutputBufferQueue = some 5
    ∧ ((sampleWorld [bufferA, bufferB, bufferC]).decoders 4).configured = true
    ∧ ((sampleWorld [bufferA, bufferB, bufferC]).decoders 4).outputQueue 5
        = [bufferA, bufferB] ++ [bufferC]
    ∧ (runningRenderer.render sampleEnv (sampleWorld [bufferA, bufferB, bufferC])
        0).self.mCurrentBuffer = some bufferC
    ∧ ∃ pre post,
        (runningRenderer.render sampleEnv (sampleWorld [bufferA, bufferB, bufferC]) 0).events
          = pre ++ post
        ∧ releasedBuffers pre = [bufferA, bufferB]
        ∧ (∀ e ∈ pre, e.isDrawCall = false)
        ∧ (releasedBuffers post = [] ∨ releasedBuffers post = [bufferC]) :=
  have h := render_drains_queue_keeps_newest sampleEnv (sampleWorld [bufferA, bufferB, bufferC])
    runningRenderer 0 4 5 [bufferA, bufferB] bufferC (by decide) (by decide) (by decide)
    (by decide) (by decide)
  ⟨by decide, by decide, by decide, by decide, by decide, h.1,
    h.2.2.elim fun pre hpre => hpre.elim fun post hpost =>
      ⟨pre, post, hpost.1, hpost.2.2.1, hpost.2.2.2.1, hpost.2.2.2.2.2.1⟩⟩

/-- C3 does not hold of the code. Over every sequence of `render()` calls that return, release
is matched 1:1 with acquisition, whatever the stages return and whatever the decoder queues
between the calls: the buffers passed to `releaseOutputBuffer` are the buffers dequeued, in the
same order, and a renderer with a session completes every such sequence. But a call need not
return: on a renderer without a session, a call that draws its frame with success reaches the
unguarded `mSession->getCurrentTime()` of `render_nolock` before the final
`releaseOutputBuffer`. Such a call has dequeued the buffer it kept and has not released it (the
buffers it dequeued are the ones it released followed by that buffer), and no sequence that
contains it is completed. This happens on every running renderer without a session, attached
to a configured decoder whose queue holds `bs ++ [bn]`, when the three stages succeed on the
frame of `bn`: `bs ++ [bn]` is dequeued, `bs` is released, `bn` is released zero times. -/
theorem renderCalls_release_matches_dequeue (r : Gles2Renderer)
    (calls : List (Env × World × Nat)) :
    (r.mSession ≠ none → ∃ out, r.renderCalls calls = some out)
    ∧ (∀ out, r.renderCalls calls = some out →
        releasedBuffers out.2 = dequeuedBuffers out.2
        ∧ ∀ b, (releasedBuffers out.2).count b = (dequeuedBuffers out.2).count b)
    ∧ (∀ env w t, (r.render env w t).ret = none →
        r.mSession = none
        ∧ dequeuedBuffers (r.render env w t).events
          = releasedBuffers (r.render env w t).events ++ (r.drainOutputQueue w).2.1.toList
        ∧ ∀ rest, r.renderCalls ((env, w, t) :: rest) = none)
    ∧ (∀ env w t d q bs bn data,
        r.mSession = none → r.mRunning = true → r.mDecoder = some d →
        r.mDecoderOutputBufferQueue = some q → (w.decoders d).configured = true →
        (w.decoders d).outputQueue q = bs ++ [bn] → bn.metadataPtr = some data →
        r.mRenderWidth ≠ 0 → r.mRenderHeight ≠ 0 →
        (r.hmdStage env (r.hudStage env data (r.videoStage data).1).1).1 = 0 →
        (r.render env w t).ret = none
        ∧ dequeuedBuffers (r.render env w t).events = bs ++ [bn]
        ∧ releasedBuffers (r.render env w t).events = bs) := by
  refine ⟨(renderCalls_balance r calls).1, (renderCalls_balance r calls).2, ?_, ?_⟩
  · intro env w t hnone
    refine ⟨?_, ?_, ?_⟩
    · by_contra hs
      obtain ⟨v, hv⟩ := render_returns env w r t hs
      rw [hv] at hnone
      cases hnone
    · cases hrun : r.mRunning with
      | false =>
        rw [render_of_not_running env w r t hrun] at hnone
        cases hnone
      | true =>
        rw [render_of_running env w r t hrun] at hnone ⊢
        exact render_nolock_leak env w r t hnone
    · intro rest
      simp [Gles2Renderer.renderCalls, hnone]
  · intro env w t d q bs bn data hs hrun hd hq hc hp hdata hw hh hst
    exact render_null_session_leak env w r t d q bs bn data hs hrun hd hq hc hp hdata hw hh hst

/-- C3 at the failing input: the renderer without a session, running, with one valid frame in the
queue of its decoder: `render()` does not return, the buffer was dequeued and is not
released. -/
theorem renderCalls_release_matches_dequeue_witness :
    sessionlessRenderer.mSession = none
    ∧ (sessionlessRenderer.render sampleEnv (sampleWorld [bufferA]) 0).ret = none
    ∧ dequeuedBuffers (sessionlessRenderer.render sampleEnv (sampleWorld [bufferA]) 0).events
        = [bufferA]
    ∧ releasedBuffers (sessionlessRenderer.render sampleEnv (sampleWorld [bufferA]) 0).events
        = []
    ∧ sessionlessRenderer.renderCalls [(sampleEnv, sampleWorld [bufferA], 0)] = none :=
  have h := renderCalls_release_matches_dequeue sessionlessRenderer []
  have hleak := h.2.2.2 sampleEnv (sampleWorld [bufferA]) 0 4 5 [] bufferA sampleFrame rfl rfl
    rfl rfl rfl rfl rfl (by decide) (by decide) rfl
  ⟨rfl, hleak.1, hleak.2.1, hleak.2.2, (h.2.2.1 sampleEnv (sampleWorld [bufferA]) 0 hleak.1).2.2 []⟩

/-- C4, the code at the failing inputs: the video stage rejects a frame of width 0 (it returns
-1), the overlay and distortion stages are then not entered (`renderFrame` is the only call into
a sub-renderer), and `render()` returns 1 (`Rendered`); it returns 1 as well when the overlay
stage returns -1 and when the distortion stage returns -1. -/
theorem render_returns_rendered_after_stage_failure :
    ((runningRenderer.keepBuffer (some bufferZeroWidth)).videoStage
        { sampleFrame with width := 0 }).1 = -1
    ∧ (runningRenderer.render sampleEnv (sampleWorld [bufferZeroWidth]) 0).ret = some 1
    ∧ ((runningRenderer.render sampleEnv (sampleWorld [bufferZeroWidth]) 0).events.filter
        Event.isStageCall).length = 1
    ∧ (runningRenderer.render { sampleEnv with renderHudRet := -1 } (sampleWorld [bufferA]) 0).ret
        = some 1
    ∧ (runningHmdRenderer.render { sampleEnv with renderHmdRet := -1 } (sampleWorld [bufferA])
        0).ret = some 1 := by
  refine ⟨rfl, ?_, ?_, ?_, ?_⟩
  · have h : runningRenderer.render sampleEnv (sampleWorld [bufferZeroWidth]) 0
        = runningRenderer.render_nolock sampleEnv (sampleWorld [bufferZeroWidth]) 0 := rfl
    rw [h, (render_nolock_queue sampleEnv (sampleWorld [bufferZeroWidth]) runningRenderer 0
      4 5 [] bufferZeroWidth rfl rfl rfl rfl).2.1]
    rfl
  · have h : runningRenderer.render sampleEnv (sampleWorld [bufferZeroWidth]) 0
        = runningRenderer.render_nolock sampleEnv (sampleWorld [bufferZeroWidth]) 0 := rfl
    rw [h, (render_nolock_queue sampleEnv (sampleWorld [bufferZeroWidth]) runningRenderer 0
      4 5 [] bufferZeroWidth rfl rfl rfl rfl).2.2]
    rfl
  · have h : runningRenderer.render { sampleEnv with renderHudRet := -1 }
          (sampleWorld [bufferA]) 0
        = runningRenderer.render_nolock { sampleEnv with renderHudRet := -1 }
          (sampleWorld [bufferA]) 0 := rfl
    rw [h, (render_nolock_queue _ (sampleWorld [bufferA]) runningRenderer 0
      4 5 [] bufferA rfl rfl rfl rfl).2.1]
    rfl
  · have h : runningHmdRenderer.render { sampleEnv with renderHmdRet := -1 }
          (sampleWorld [bufferA]) 0
        = runningHmdRenderer.render_nolock { sampleEnv with renderHmdRet := -1 }
          (sampleWorld [bufferA]) 0 := rfl
    rw [h, (render_nolock_queue _ (sampleWorld [bufferA]) runningHmdRenderer 0
      4 5 [] bufferA rfl rfl rfl rfl).2.1]
    rfl

/-- C5, counterexample: framebuffer creation fails in a 640x480 configuration with distortion
correction; the configuration returns -1 and the next `render()`, with frame `A` queued on the
attached decoder, returns `NothingRendered` and makes no call at all. -/
theorem setRendererParams_failure_stops_rendering :
    (attachedRenderer.setRendererParams { sampleEnv with genFramebuffer := 0 } (sampleWorld [])
        640 480 0 0 0 0 true false).ret = -1
    ∧ ((attachedRenderer.setRendererParams { sampleEnv with genFramebuffer := 0 }
        (sampleWorld []) 640 480 0 0 0 0 true false).self.render sampleEnv
          (sampleWorld [bufferA]) 0).ret = some 0
    ∧ ((attachedRenderer.setRendererParams { sampleEnv with genFramebuffer := 0 }
        (sampleWorld []) 640 480 0 0 0 0 true false).self.render sampleEnv
          (sampleWorld [bufferA]) 0).events = [] := by
  refine ⟨rfl, rfl, rfl⟩

/-- C5, amended: a configuration with non-zero render area and distortion correction requested,
whose video and overlay sub-renderers are created and whose off-screen target fails at any step
(framebuffer, texture, render buffer or completeness check), returns -1, disables distortion
correction, creates no distortion sub-renderer, keeps the video sub-renderer, and leaves the
renderer not running: every later `render()` returns `NothingRendered` and makes no call. -/
theorem setRendererParams_offscreen_failure (env : Env) (w : World) (r : Gles2Renderer)
    (windowWidth windowHeight renderX renderY renderWidth renderHeight : Int)
    (headtracking : Bool)
    (hw : (if renderWidth ≠ 0 then renderWidth else windowWidth) ≠ 0)
    (hh : (if renderHeight ≠ 0 then renderHeight else windowHeight) ≠ 0)
    (hvideo : env.newGles2VideoOk = true) (hhud : env.newGles2HudOk = true)
    (hfail : env.genFramebuffer = 0 ∨ env.genTexture = 0 ∨ env.genRenderbuffer = 0
      ∨ env.framebufferComplete = false) :
    (r.setRendererParams env w windowWidth windowHeight renderX renderY renderWidth
        renderHeight true headtracking).ret = -1
    ∧ (r.setRendererParams env w windowWidth windowHeight renderX renderY renderWidth
        renderHeight true headtracking).self.mHmdDistorsionCorrection = false
    ∧ (r.setRendererParams env w windowWidth windowHeight renderX renderY renderWidth
        renderHeight true headtracking).self.mGles2Hmd = none
    ∧ (r.setRendererParams env w windowWidth windowHeight renderX renderY renderWidth
        renderHeight true headtracking).self.mGles2Video ≠ none
    ∧ (r.setRendererParams env w windowWidth windowHeight renderX renderY renderWidth
        renderHeight true headtracking).self.mRunning = false
    ∧ ∀ env' w' t,
        ((r.setRendererParams env w windowWidth windowHeight renderX renderY renderWidth
          renderHeight true headtracking).self.render env' w' t).ret = some 0
        ∧ ((r.setRendererParams env w windowWidth windowHeight renderX renderY renderWidth
          renderHeight true headtracking).self.render env' w' t).events = [] := by
  have hret4 : (if env.framebufferComplete = false then (-1 : Int)
      else if env.genRenderbuffer ≤ 0 then -1
      else if env.genTexture ≤ 0 then -1
      else if env.genFramebuffer ≤ 0 then -1 else 0) = -1 := by
    rcases hfail with h | h | h | h <;> simp [h]
  have key : (r.setRendererParams env w windowWidth windowHeight renderX renderY renderWidth
        renderHeight true headtracking).ret = -1
      ∧ (r.setRendererParams env w windowWidth windowHeight renderX renderY renderWidth
        renderHeight true headtracking).self.mHmdDistorsionCorrection = false
      ∧ (r.setRendererParams env w windowWidth windowHeight renderX renderY renderWidth
        renderHeight true headtracking).self.mGles2Hmd = none
      ∧ (r.setRendererParams env w windowWidth windowHeight renderX renderY renderWidth
        renderHeight true headtracking).self.mGles2Video ≠ none
      ∧ (r.setRendererParams env w windowWidth windowHeight renderX renderY renderWidth
        renderHeight true headtracking).self.mRunning = false := by
    simp only [Gles2Renderer.setRendererParams, Gles2Renderer.setRendererParams_nolock,
      Gles2Renderer.destroyGles2, Gles2Renderer.initGles2, Gles2Renderer.initGles2Hmd,
      hvideo, hhud, hret4]
    simp only [ne_eq, ite_not] at hw hh
    simp [hw, hh]
  obtain ⟨k1, k2, k3, k4, k5⟩ := key
  refine ⟨k1, k2, k3, k4, k5, ?_⟩
  intro env' w' t
  rw [render_of_not_running env' w' _ t k5]
  exact ⟨rfl, rfl⟩

/-- C5, amended, on the sample renderer when framebuffer creation fails. -/
theorem setRendererParams_offscreen_failure_witness :
    (if (0 : Int) ≠ 0 then (0 : Int) else 640) ≠ 0
    ∧ (if (0 : Int) ≠ 0 then (0 : Int) else 480) ≠ 0
    ∧ ({ sampleEnv with genFramebuffer := 0 } : Env).newGles2VideoOk = true
    ∧ ({ sampleEnv with genFramebuffer := 0 } : Env).newGles2HudOk = true
    ∧ ({ sampleEnv with genFramebuffer := 0 } : Env).genFramebuffer = 0
    ∧ (attachedRenderer.setRendererParams { sampleEnv with genFramebuffer := 0 } (sampleWorld [])
        640 480 0 0 0 0 true false).ret = -1
    ∧ (attachedRenderer.setRendererParams { sampleEnv with genFramebuffer := 0 } (sampleWorld [])
        640 480 0 0 0 0 true false).self.mRunning = false :=
  have h := setRendererParams_offscreen_failure { sampleEnv with genFramebuffer := 0 }
    (sampleWorld []) attachedRenderer 640 480 0 0 0 0 false (by decide) (by decide) rfl rfl
    (Or.inl rfl)
  ⟨by decide, by decide, rfl, rfl, rfl, h.1, h.2.2.2.2.1⟩

/-- C6 does not hold of the code in one respect. A configuration whose resulting render area is
zero in either dimension returns 0, leaves the renderer not running, without sub-renderers and
without off-screen objects, and makes exactly the calls of the teardown, none of which creates
a sub-renderer. The teardown deletes every sub-renderer object the renderer held, the textures
and the planar and semi-planar programs of the video sub-renderer, and the off-screen render
buffer, texture and framebuffer. It does not delete the pass-through program of the video
sub-renderer: no `glDeleteProgram` is made on `mProgram[GLES2_VIDEO_COLOR_CONVERSION_NONE]`
(when its name differs from the two others), so that prior GPU resource stays live. -/
theorem setRendererParams_zero_area (env : Env) (w : World) (r : Gles2Renderer)
    (windowWidth windowHeight renderX renderY renderWidth renderHeight : Int)
    (hmdDistorsionCorrection headtracking : Bool)
    (h : (if renderWidth ≠ 0 then renderWidth else windowWidth) = 0
      ∨ (if renderHeight ≠ 0 then renderHeight else windowHeight) = 0) :
    (r.setRendererParams env w windowWidth windowHeight renderX renderY renderWidth
        renderHeight hmdDistorsionCorrection headtracking).ret = 0
    ∧ (r.setRendererParams env w windowWidth windowHeight renderX renderY renderWidth
        renderHeight hmdDistorsionCorrection headtracking).self.mRunning = false
    ∧ (r.setRendererParams env w windowWidth windowHeight renderX renderY renderWidth
        renderHeight hmdDistorsionCorrection headtracking).self.mGles2Video = none
    ∧ (r.setRendererParams env w windowWidth windowHeight renderX renderY renderWidth
        renderHeight hmdDistorsionCorrection headtracking).self.mGles2Hud = none
    ∧ (r.setRendererParams env w windowWidth windowHeight renderX renderY renderWidth
        renderHeight hmdDistorsionCorrection headtracking).self.mGles2Hmd = none
    ∧ (r.setRendererParams env w windowWidth windowHeight renderX renderY renderWidth
        renderHeight hmdDistorsionCorrection headtracking).self.mFbo = 0
    ∧ (r.setRendererParams env w windowWidth windowHeight renderX renderY renderWidth
        renderHeight hmdDistorsionCorrection headtracking).self.mFboTexture = 0
    ∧ (r.setRendererParams env w windowWidth windowHeight renderX renderY renderWidth
        renderHeight hmdDistorsionCorrection headtracking).self.mFboRenderBuffer = 0
    ∧ (r.setRendererParams env w windowWidth windowHeight renderX renderY renderWidth
        renderHeight hmdDistorsionCorrection headtracking).events = r.destroyGles2.2.2
    ∧ Event.newGles2Video ∉ (r.setRendererParams env w windowWidth windowHeight renderX renderY
        renderWidth renderHeight hmdDistorsionCorrection headtracking).events
    ∧ Event.newGles2Hud ∉ (r.setRendererParams env w windowWidth windowHeight renderX renderY
        renderWidth renderHeight hmdDistorsionCorrection headtracking).events
    ∧ Event.newGles2Hmd ∉ (r.setRendererParams env w windowWidth windowHeight renderX renderY
        renderWidth renderHeight hmdDistorsionCorrection headtracking).events
    ∧ (∀ v, r.mGles2Video = some v →
        Event.deleteGles2Video ∈ (r.setRendererParams env w windowWidth windowHeight renderX renderY renderWidth
          renderHeight hmdDistorsionCorrection headtracking).events
        ∧ (∀ t0 t1 t2, v.mTextures = some (t0, t1, t2) →
            Event.gl .glDeleteTextures [(t0 : Int), (t1 : Int), (t2 : Int)]
              ∈ (r.setRendererParams env w windowWidth windowHeight renderX renderY renderWidth
          renderHeight hmdDistorsionCorrection headtracking).events)
        ∧ (∀ p, v.mProgramYuvp = some p →
            Event.gl .glDeleteProgram [(p : Int)]
              ∈ (r.setRendererParams env w windowWidth windowHeight renderX renderY renderWidth
          renderHeight hmdDistorsionCorrection headtracking).events)
        ∧ (∀ p, v.mProgramYuvsp = some p →
            Event.gl .glDeleteProgram [(p : Int)]
              ∈ (r.setRendererParams env w windowWidth windowHeight renderX renderY renderWidth
          renderHeight hmdDistorsionCorrection headtracking).events)
        ∧ (∀ p, v.mProgramNone = some p → v.mProgramYuvp ≠ some p → v.mProgramYuvsp ≠ some p →
            Event.gl .glDeleteProgram [(p : Int)]
              ∉ (r.setRendererParams env w windowWidth windowHeight renderX renderY renderWidth
          renderHeight hmdDistorsionCorrection headtracking).events))
    ∧ (r.mGles2Hud ≠ none →
        Event.deleteGles2Hud ∈ (r.setRendererParams env w windowWidth windowHeight renderX renderY renderWidth
          renderHeight hmdDistorsionCorrection headtracking).events)
    ∧ (r.mGles2Hmd ≠ none →
        Event.deleteGles2Hmd ∈ (r.setRendererParams env w windowWidth windowHeight renderX renderY renderWidth
          renderHeight hmdDistorsionCorrection headtracking).events)
    ∧ (r.mFboRenderBuffer > 0 →
        Event.gl .glDeleteRenderbuffers [(r.mFboRenderBuffer : Int)]
          ∈ (r.setRendererParams env w windowWidth windowHeight renderX renderY renderWidth
          renderHeight hmdDistorsionCorrection headtracking).events)
    ∧ (r.mFboTexture > 0 →
        Event.gl .glDeleteTextures [(r.mFboTexture : Int)]
          ∈ (r.setRendererParams env w windowWidth windowHeight renderX renderY renderWidth
          renderHeight hmdDistorsionCorrection headtracking).events)
    ∧ (r.mFbo > 0 →
        Event.gl .glDeleteFramebuffers [(r.mFbo : Int)]
          ∈ (r.setRendererParams env w windowWidth windowHeight renderX renderY renderWidth
          renderHeight hmdDistorsionCorrection headtracking).events) := by
  have hz : (if renderWidth = 0 then windowWidth else renderWidth) = 0
      ∨ (if renderHeight = 0 then windowHeight else renderHeight) = 0 := by
    simpa only [ne_eq, ite_not] using h
  have key : r.setRendererParams env w windowWidth windowHeight renderX renderY renderWidth
        renderHeight hmdDistorsionCorrection headtracking
      = { ret := 0
          self := { r.destroyGles2.2.1 with
            mRunning := false
            mWindowWidth := windowWidth
            mWindowHeight := windowHeight
            mRenderX := renderX
            mRenderY := renderY
            mRenderWidth := if renderWidth ≠ 0 then renderWidth else windowWidth
            mRenderHeight := if renderHeight ≠ 0 then renderHeight else windowHeight
            mHmdDistorsionCorrection := hmdDistorsionCorrection
            mHeadtracking := headtracking }
          world := w
          events := r.destroyGles2.2.2 } := by
    simp only [Gles2Renderer.setRendererParams, Gles2Renderer.setRendererParams_nolock,
      Gles2Renderer.destroyGles2, ne_eq, ite_not, hz, if_true]
    simp
  rw [key]
  obtain ⟨h1, h2, h3⟩ := destroyGles2_creates_nothing r
  obtain ⟨d1, d2, d3, d4, d5, d6⟩ := destroyGles2_deletes r
  exact ⟨rfl, rfl, rfl, rfl, rfl, rfl, rfl, rfl, rfl, h1, h2, h3, d1, d2, d3, d4, d5, d6⟩

/-- C6, on the running sample renderer configured with a window and a render area of size 0, and
on a renderer that holds every kind of GPU resource: the teardown makes ten calls, and none of
them deletes program 10. -/
theorem setRendererParams_zero_area_witness :
    ((if (0 : Int) ≠ 0 then (0 : Int) else 0) = 0 ∨ (if (0 : Int) ≠ 0 then (0 : Int) else 0) = 0)
    ∧ (runningRenderer.setRendererParams sampleEnv (sampleWorld []) 0 0 0 0 0 0 false false).ret
        = 0
    ∧ (runningRenderer.setRendererParams sampleEnv (sampleWorld []) 0 0 0 0 0 0 false
        false).self.mRunning = false
    ∧ (runningRenderer.setRendererParams sampleEnv (sampleWorld []) 0 0 0 0 0 0 false
        false).self.mGles2Video = none
    ∧ (distinctNamesRenderer.mGles2Video.map fun v => v.mProgramNone) = some (some 10)
    ∧ (distinctNamesRenderer.setRendererParams sampleEnv (sampleWorld []) 0 0 0 0 0 0 false
        false).ret = 0
    ∧ (distinctNamesRenderer.setRendererParams sampleEnv (sampleWorld []) 0 0 0 0 0 0 false
        false).self.mRunning = false
    ∧ (distinctNamesRenderer.setRendererParams sampleEnv (sampleWorld []) 0 0 0 0 0 0 false
        false).events
      = [Event.gl .glClear [], Event.deleteGles2Video,
         Event.gl .glDeleteTextures [31, 32, 33], Event.gl .glDeleteProgram [11],
         Event.gl .glDeleteProgram [12], Event.deleteGles2Hud, Event.deleteGles2Hmd,
         Event.gl .glDeleteRenderbuffers [3], Event.gl .glDeleteTextures [2],
         Event.gl .glDeleteFramebuffers [1]]
    ∧ Event.gl .glDeleteProgram [10]
      ∉ (distinctNamesRenderer.setRendererParams sampleEnv (sampleWorld []) 0 0 0 0 0 0 false
          false).events :=
  have h := setRendererParams_zero_area sampleEnv (sampleWorld []) runningRenderer 0 0 0 0 0 0
    false false (Or.inl (by decide))
  have h2 := setRendererParams_zero_area sampleEnv (sampleWorld []) distinctNamesRenderer 0 0 0
    0 0 0 false false (Or.inl (by decide))
  ⟨Or.inl (by decide), h.1, h.2.1, h.2.2.1, by decide, h2.1, h2.2.1,
    h2.2.2.2.2.2.2.2.2.1.trans (by decide),
    (h2.2.2.2.2.2.2.2.2.2.2.2.2.1 _ rfl).2.2.2.2 10 rfl (by decide) (by decide)⟩

/-- C8. While `mRunning` is false, `render()` returns `NothingRendered`, makes no call on any
collaborator and changes neither the renderer nor the world, whatever its argument. And
`mRunning` is false on a renderer just constructed and after every configuration that returns 0
(zero render area) or a negative value (failure). -/
theorem render_not_running_is_noop (env : Env) (w : World) (r : Gles2Renderer) (t : Nat)
    (h : r.mRunning = false) :
    (r.render env w t).ret = some 0
    ∧ (r.render env w t).self = r
    ∧ (r.render env w t).world = w
    ∧ (r.render env w t).events = []
    ∧ (∀ session hmdTexUnitCount headtracking,
        (Gles2Renderer.new session hmdTexUnitCount headtracking).mRunning = false)
    ∧ (∀ (env0 : Env) (w0 : World) (r0 : Gles2Renderer) (ww wh rx ry rw rh : Int)
        (hmd ht : Bool), (r0.setRendererParams env0 w0 ww wh rx ry rw rh hmd ht).ret ≤ 0 →
        (r0.setRendererParams env0 w0 ww wh rx ry rw rh hmd ht).self.mRunning = false) := by
  refine ⟨?_, ?_, ?_, ?_, fun _ _ _ => rfl, ?_⟩
  · simp [Gles2Renderer.render, h]
  · simp [Gles2Renderer.render, h]
  · simp [Gles2Renderer.render, h]
  · simp [Gles2Renderer.render, h]
  · intro env0 w0 r0 ww wh rx ry rw rh hmd ht hret
    exact setRendererParams_not_running env0 w0 r0 ww wh rx ry rw rh hmd ht hret

/-- C8, on the renderer just constructed (never configured). -/
theorem render_not_running_is_noop_witness :
    freshRenderer.mRunning = false
    ∧ (freshRenderer.render sampleEnv (sampleWorld [bufferA]) 7).ret = some 0
    ∧ (freshRenderer.render sampleEnv (sampleWorld [bufferA]) 7).self = freshRenderer
    ∧ (freshRenderer.render sampleEnv (sampleWorld [bufferA]) 7).events = [] :=
  have h := render_not_running_is_noop sampleEnv (sampleWorld [bufferA]) freshRenderer 7 rfl
  ⟨rfl, h.1, h.2.1, h.2.2.2.1⟩

/-- C9. With a decoder attached, `addAvcDecoder` fails for every argument (null, the attached
decoder, another decoder), makes no call on any decoder and leaves the renderer unchanged. -/
theorem addAvcDecoder_already_attached (w : World) (r : Gles2Renderer) (attached : DecoderId)
    (decoder : Option DecoderId) (h : r.mDecoder = some attached) :
    (r.addAvcDecoder w decoder).ret = -1
    ∧ (r.addAvcDecoder w decoder).self = r
    ∧ (r.addAvcDecoder w decoder).world = w
    ∧ (r.addAvcDecoder w decoder).events = [] := by
  cases decoder <;> simp [Gles2Renderer.addAvcDecoder, h]

/-- C9, on the sample renderer with decoder 4 attached and decoder 9 offered. -/
theorem addAvcDecoder_already_attached_witness :
    attachedRenderer.mDecoder = some 4
    ∧ (attachedRenderer.addAvcDecoder (sampleWorld []) (some 9)).ret = -1
    ∧ (attachedRenderer.addAvcDecoder (sampleWorld []) (some 9)).self = attachedRenderer
    ∧ (attachedRenderer.addAvcDecoder (sampleWorld []) (some 9)).events = [] :=
  have h := addAvcDecoder_already_attached (sampleWorld []) attachedRenderer 4 (some 9) rfl
  ⟨rfl, h.1, h.2.1, h.2.2.2⟩

/-- C10. `removeAvcDecoder` returns 0 exactly when its argument is the attached decoder. When it
fails it returns -1, makes no call and leaves the renderer unchanged. When it succeeds it clears
`mDecoder` and `mDecoderOutputBufferQueue` and, the queue being bound, makes the one call
`removeOutputQueue` on that decoder, whose return value does not influence the result. -/
theorem removeAvcDecoder_iff_attached (w : World) (r : Gles2Renderer)
    (decoder : Option DecoderId) :
    ((r.removeAvcDecoder w decoder).ret = 0 ↔ ∃ d, decoder = some d ∧ r.mDecoder = some d)
    ∧ ((r.removeAvcDecoder w decoder).ret ≠ 0 →
        (r.removeAvcDecoder w decoder).ret = -1
        ∧ (r.removeAvcDecoder w decoder).self = r
        ∧ (r.removeAvcDecoder w decoder).events = [])
    ∧ (∀ d, decoder = some d → r.mDecoder = some d →
        (r.removeAvcDecoder w decoder).ret = 0
        ∧ (r.removeAvcDecoder w decoder).self.mDecoder = none
        ∧ (r.removeAvcDecoder w decoder).self.mDecoderOutputBufferQueue = none
        ∧ ∀ q, r.mDecoderOutputBufferQueue = some q →
            (r.removeAvcDecoder w decoder).events
              = [Event.removeOutputQueue d q ((w.decoders d).removeOutputQueue q)]) := by
  cases decoder with
  | none => simp [Gles2Renderer.removeAvcDecoder]
  | some d =>
    by_cases hd : some d = r.mDecoder
    · simp only [Gles2Renderer.removeAvcDecoder, hd.symm]
      simp
      intro q hq
      simp [hq]
    · simp only [Gles2Renderer.removeAvcDecoder]
      have hd' : ¬ r.mDecoder = some d := fun h => hd h.symm
      simp [hd, hd']

/-- C11. `Gles2Video::renderFrame` returns -1 and makes no call at all when one of `frameWidth`,
`frameHeight`, `sarWidth`, `sarHeight`, `windowWidth`, `windowHeight`, `frameStride[0]` is zero,
whatever the color conversion and the other arguments; when all seven are non-zero it returns 0
(and then it does select a program, clear and draw). -/
theorem renderFrame_geometry_guard (self : Gles2Video) (framePlane frameStride : Nat × Nat × Nat)
    (frameWidth frameHeight sarWidth sarHeight windowWidth windowHeight : Nat)
    (colorConversion : Gles2VideoColorConversion) (headtracking : Bool) :
    ((frameWidth = 0 ∨ frameHeight = 0 ∨ sarWidth = 0 ∨ sarHeight = 0
        ∨ windowWidth = 0 ∨ windowHeight = 0 ∨ frameStride.1 = 0) →
      self.renderFrame framePlane frameStride frameWidth frameHeight sarWidth sarHeight
        windowWidth windowHeight colorConversion headtracking = (-1, []))
    ∧ ((frameWidth ≠ 0 ∧ frameHeight ≠ 0 ∧ sarWidth ≠ 0 ∧ sarHeight ≠ 0
        ∧ windowWidth ≠ 0 ∧ windowHeight ≠ 0 ∧ frameStride.1 ≠ 0) →
      (self.renderFrame framePlane frameStride frameWidth frameHeight sarWidth sarHeight
        windowWidth windowHeight colorConversion headtracking).1 = 0
      ∧ Event.gl .glUseProgram (glName (self.mProgram colorConversion))
        ∈ (self.renderFrame framePlane frameStride frameWidth frameHeight sarWidth sarHeight
          windowWidth windowHeight colorConversion headtracking).2
      ∧ Event.gl .glClear []
        ∈ (self.renderFrame framePlane frameStride frameWidth frameHeight sarWidth sarHeight
          windowWidth windowHeight colorConversion headtracking).2
      ∧ Event.gl .glDrawArrays [0, 4]
        ∈ (self.renderFrame framePlane frameStride frameWidth frameHeight sarWidth sarHeight
          windowWidth windowHeight colorConversion headtracking).2) := by
  constructor
  · intro h
    unfold Gles2Video.renderFrame
    rw [if_pos h]
  · intro h
    have hn : ¬ (frameWidth = 0 ∨ frameHeight = 0 ∨ sarWidth = 0 ∨ sarHeight = 0
        ∨ windowWidth = 0 ∨ windowHeight = 0 ∨ frameStride.1 = 0) := by
      simp only [not_or]; exact h
    unfold Gles2Video.renderFrame
    rw [if_neg hn]
    simp

/-- Witness of C11: a 16x8 frame whose stride is 0 is refused without a call, the same frame with
stride 16 is drawn. -/
theorem renderFrame_geometry_guard_witness :
    sampleVideo.renderFrame (1, 2, 3) (0, 8, 8) 16 8 1 1 640 480
        .GLES2_VIDEO_COLOR_CONVERSION_YUV420PLANAR_TO_RGB false = (-1, [])
    ∧ (sampleVideo.renderFrame (1, 2, 3) (16, 8, 8) 16 8 1 1 640 480
        .GLES2_VIDEO_COLOR_CONVERSION_YUV420PLANAR_TO_RGB false).1 = 0 :=
  ⟨(renderFrame_geometry_guard sampleVideo (1, 2, 3) (0, 8, 8) 16 8 1 1 640 480
      .GLES2_VIDEO_COLOR_CONVERSION_YUV420PLANAR_TO_RGB false).1 (by decide),
   ((renderFrame_geometry_guard sampleVideo (1, 2, 3) (16, 8, 8) 16 8 1 1 640 480
      .GLES2_VIDEO_COLOR_CONVERSION_YUV420PLANAR_TO_RGB false).2 (by decide)).1⟩

/-- C12. For positive frame, pixel-aspect and window dimensions (exact arithmetic), with
`windowAR = windowWidth / windowHeight` and `videoAR = frameWidth / frameHeight * (sarWidth /
sarHeight)`: if `videoAR ≥ windowAR` then `ratioW = 1` and `ratioH = windowAR / videoAR`, which
lies in (0, 1]; otherwise `ratioH = 1` and `ratioW = videoAR / windowAR`, which lies in
(0, 1). -/
theorem aspectFit_ratios {K : Type} [LinearOrderedField K]
    (frameWidth frameHeight sarWidth sarHeight windowWidth windowHeight : Nat)
    (hfw : 0 < frameWidth) (hfh : 0 < frameHeight) (hsw : 0 < sarWidth) (hsh : 0 < sarHeight)
    (hww : 0 < windowWidth) (hwh : 0 < windowHeight) :
    (aspectFit frameWidth frameHeight sarWidth sarHeight windowWidth
        windowHeight : AspectFit K).windowAR = (windowWidth : K) / (windowHeight : K)
    ∧ (aspectFit frameWidth frameHeight sarWidth sarHeight windowWidth
        windowHeight : AspectFit K).videoAR
      = (frameWidth : K) / (frameHeight : K) * ((sarWidth : K) / (sarHeight : K))
    ∧ ((frameWidth : K) / (frameHeight : K) * ((sarWidth : K) / (sarHeight : K))
          ≥ (windowWidth : K) / (windowHeight : K) →
        (aspectFit frameWidth frameHeight sarWidth sarHeight windowWidth
          windowHeight : AspectFit K).ratioW = 1
        ∧ (aspectFit frameWidth frameHeight sarWidth sarHeight windowWidth
            windowHeight : AspectFit K).ratioH
          = (windowWidth : K) / (windowHeight : K)
            / ((frameWidth : K) / (frameHeight : K) * ((sarWidth : K) / (sarHeight : K)))
        ∧ 0 < (aspectFit frameWidth frameHeight sarWidth sarHeight windowWidth
            windowHeight : AspectFit K).ratioH
        ∧ (aspectFit frameWidth frameHeight sarWidth sarHeight windowWidth
            windowHeight : AspectFit K).ratioH ≤ 1)
    ∧ ((frameWidth : K) / (frameHeight : K) * ((sarWidth : K) / (sarHeight : K))
          < (windowWidth : K) / (windowHeight : K) →
        (aspectFit frameWidth frameHeight sarWidth sarHeight windowWidth
          windowHeight : AspectFit K).ratioH = 1
        ∧ (aspectFit frameWidth frameHeight sarWidth sarHeight windowWidth
            windowHeight : AspectFit K).ratioW
          = (frameWidth : K) / (frameHeight : K) * ((sarWidth : K) / (sarHeight : K))
            / ((windowWidth : K) / (windowHeight : K))
        ∧ 0 < (aspectFit frameWidth frameHeight sarWidth sarHeight windowWidth
            windowHeight : AspectFit K).ratioW
        ∧ (aspectFit frameWidth frameHeight sarWidth sarHeight windowWidth
            windowHeight : AspectFit K).ratioW < 1) := by
  have hw := aspectFit_windowAR_pos (K := K) frameWidth frameHeight sarWidth sarHeight
    windowWidth windowHeight hww hwh
  have hv := aspectFit_videoAR_pos (K := K) frameWidth frameHeight sarWidth sarHeight
    windowWidth windowHeight hfw hfh hsw hsh
  have hp := aspectFit_ratio_pos (K := K) frameWidth frameHeight sarWidth sarHeight
    windowWidth windowHeight hfw hfh hsw hsh hww hwh
  refine ⟨rfl, rfl, ?_, ?_⟩
  · intro h
    have hl := aspectFit_letterbox (K := K) frameWidth frameHeight sarWidth sarHeight
      windowWidth windowHeight h
    refine ⟨hl.1, hl.2, hp.2, ?_⟩
    rw [hl.2]
    exact (div_le_one hv).mpr h
  · intro h
    have hl := aspectFit_pillarbox (K := K) frameWidth frameHeight sarWidth sarHeight
      windowWidth windowHeight h
    refine ⟨hl.1, hl.2, hp.1, ?_⟩
    rw [hl.2]
    exact (div_lt_one hw).mpr h

/-- Witness of C12: a 16x8 frame with square pixels in a 640x480 window is letterboxed with
height ratio 2/3; a 8x16 frame is pillarboxed with width ratio 3/8. -/
theorem aspectFit_ratios_witness :
    (aspectFit 16 8 1 1 640 480 : AspectFit ℚ).windowAR = 4 / 3
    ∧ (aspectFit 16 8 1 1 640 480 : AspectFit ℚ).videoAR = 2
    ∧ (aspectFit 16 8 1 1 640 480 : AspectFit ℚ).ratioW = 1
    ∧ (aspectFit 16 8 1 1 640 480 : AspectFit ℚ).ratioH = 2 / 3
    ∧ (aspectFit 8 16 1 1 640 480 : AspectFit ℚ).ratioH = 1
    ∧ (aspectFit 8 16 1 1 640 480 : AspectFit ℚ).ratioW = 3 / 8 :=
  have h := aspectFit_ratios (K := ℚ) 16 8 1 1 640 480 (by decide) (by decide) (by decide)
    (by decide) (by decide) (by decide)
  have h2 := aspectFit_ratios (K := ℚ) 8 16 1 1 640 480 (by decide) (by decide) (by decide)
    (by decide) (by decide) (by decide)
  ⟨h.1.trans (by norm_num), h.2.1.trans (by norm_num), (h.2.2.1 (by norm_num)).1,
   (h.2.2.1 (by norm_num)).2.1.trans (by norm_num), (h2.2.2.2 (by norm_num)).1,
   (h2.2.2.2 (by norm_num)).2.1.trans (by norm_num)⟩

/-- C13. With head-tracking disabled and all dimensions positive (exact arithmetic, `cosf 0 = 1`
and `sinf 0 = 0`), `Gles2Video::renderFrame` hands GL a quad and a matrix such that the vertex
shader (`position * transform_matrix`) puts the four vertices at (-ratioW, -ratioH),
(ratioW, -ratioH), (-ratioW, ratioH), (ratioW, ratioH) with `z = 0` and `w = 1`: a rectangle
centred on the origin whose size in pixels, `ratioW * windowWidth` by `ratioH * windowHeight`,
has the ratio `videoAR`. -/
theorem renderFrame_quad_preserves_aspect {K Q : Type} [LinearOrderedField K] (ops : MathOps K Q)
    (self : Gles2Video) (headQuat headRefQuat : Q) (mediaFov : K × K)
    (frameStride : Nat × Nat × Nat)
    (frameWidth frameHeight sarWidth sarHeight windowWidth windowHeight : Nat)
    (metadata : VideoFrameMetadata)
    (hcos : ops.cosf 0 = 1) (hsin : ops.sinf 0 = 0)
    (hvalid : ¬ (frameWidth = 0 ∨ frameHeight = 0 ∨ sarWidth = 0 ∨ sarHeight = 0
      ∨ windowWidth = 0 ∨ windowHeight = 0 ∨ frameStride.1 = 0)) :
    ∃ g : FrameGeometry K,
      self.frameGeometry ops headQuat headRefQuat mediaFov frameStride frameWidth frameHeight
        sarWidth sarHeight windowWidth windowHeight metadata false = some g
      ∧ videoVertexShader g.transformMatrix (vertexPosition g.vertices 0)
        = ⟨-(aspectFit frameWidth frameHeight sarWidth sarHeight windowWidth
              windowHeight : AspectFit K).ratioW,
            -(aspectFit frameWidth frameHeight sarWidth sarHeight windowWidth
              windowHeight : AspectFit K).ratioH, 0, 1⟩
      ∧ videoVertexShader g.transformMatrix (vertexPosition g.vertices 1)
        = ⟨(aspectFit frameWidth frameHeight sarWidth sarHeight windowWidth
              windowHeight : AspectFit K).ratioW,
            -(aspectFit frameWidth frameHeight sarWidth sarHeight windowWidth
              windowHeight : AspectFit K).ratioH, 0, 1⟩
      ∧ videoVertexShader g.transformMatrix (vertexPosition g.vertices 2)
        = ⟨-(aspectFit frameWidth frameHeight sarWidth sarHeight windowWidth
              windowHeight : AspectFit K).ratioW,
            (aspectFit frameWidth frameHeight sarWidth sarHeight windowWidth
              windowHeight : AspectFit K).ratioH, 0, 1⟩
      ∧ videoVertexShader g.transformMatrix (vertexPosition g.vertices 3)
        = ⟨(aspectFit frameWidth frameHeight sarWidth sarHeight windowWidth
              windowHeight : AspectFit K).ratioW,
            (aspectFit frameWidth frameHeight sarWidth sarHeight windowWidth
              windowHeight : AspectFit K).ratioH, 0, 1⟩
      ∧ 0 < (aspectFit frameWidth frameHeight sarWidth sarHeight windowWidth
              windowHeight : AspectFit K).ratioW
      ∧ 0 < (aspectFit frameWidth frameHeight sarWidth sarHeight windowWidth
              windowHeight : AspectFit K).ratioH
      ∧ (aspectFit frameWidth frameHeight sarWidth sarHeight windowWidth
            windowHeight : AspectFit K).ratioW * (windowWidth : K)
          / ((aspectFit frameWidth frameHeight sarWidth sarHeight windowWidth
            windowHeight : AspectFit K).ratioH * (windowHeight : K))
        = (frameWidth : K) / (frameHeight : K) * ((sarWidth : K) / (sarHeight : K)) := by
  obtain ⟨hfw, hfh, hsw, hsh, hww, hwh, -⟩ := nat_pos_of_valid hvalid
  have hw := aspectFit_windowAR_pos (K := K) frameWidth frameHeight sarWidth sarHeight
    windowWidth windowHeight hww hwh
  have hp := aspectFit_ratio_pos (K := K) frameWidth frameHeight sarWidth sarHeight
    windowWidth windowHeight hfw hfh hsw hsh hww hwh
  have hr := aspectFit_screen_ratio (K := K) frameWidth frameHeight sarWidth sarHeight
    windowWidth windowHeight hfw hfh hsw hsh hww hwh
  obtain ⟨hvW, hwW, hwH, hvH⟩ := aspectFit_videoW (K := K) frameWidth frameHeight sarWidth
    sarHeight windowWidth windowHeight
  have hmul : (aspectFit frameWidth frameHeight sarWidth sarHeight windowWidth
        windowHeight : AspectFit K).ratioH
      / (aspectFit frameWidth frameHeight sarWidth sarHeight windowWidth
        windowHeight : AspectFit K).windowAR
      * (aspectFit frameWidth frameHeight sarWidth sarHeight windowWidth
        windowHeight : AspectFit K).windowAR
      = (aspectFit frameWidth frameHeight sarWidth sarHeight windowWidth
        windowHeight : AspectFit K).ratioH := div_mul_cancel₀ _ (ne_of_gt hw)
  refine ⟨_, frameGeometry_of_valid ops self headQuat headRefQuat mediaFov frameStride
    frameWidth frameHeight sarWidth sarHeight windowWidth windowHeight metadata false hvalid,
    ?_, ?_, ?_, ?_, hp.1, hp.2, hr⟩
  all_goals
    simp only [(vertexPosition_quadVertices _ _).1, (vertexPosition_quadVertices _ _).2.1,
      (vertexPosition_quadVertices _ _).2.2.1, (vertexPosition_quadVertices _ _).2.2.2,
      videoVertexShader_transformMatrix,
      headTracking_disabled ops self false headQuat headRefQuat mediaFov metadata _ _
        (Or.inl rfl), hcos, hsin, hvW, hwW, hwH, hvH]
    simp only [neg_zero, zero_mul, mul_zero, mul_one, add_zero, zero_add, one_mul, neg_mul,
      hmul]

/-- Witness of C13: a 16x8 frame with square pixels in a 640x480 window, with the real cosine and
sine: the top-right vertex lands on (1, 2/3), and 1 * 640 : 2/3 * 480 is 2 : 1. -/
theorem renderFrame_quad_preserves_aspect_witness :
    Real.cos 0 = 1 ∧ Real.sin 0 = 0
    ∧ ∃ g : FrameGeometry ℝ,
      sampleVideo.frameGeometry (sampleOps Real.cos Real.sin Real.pi) ⟨1, 1, 1⟩ ⟨0, 0, 0⟩ (0, 0)
        (16, 8, 8) 16 8 1 1 640 480 { cameraPan := 0, cameraTilt := 0 } false = some g
      ∧ videoVertexShader g.transformMatrix (vertexPosition g.vertices 3) = ⟨1, 2 / 3, 0, 1⟩
      ∧ videoVertexShader g.transformMatrix (vertexPosition g.vertices 0) = ⟨-1, -(2 / 3), 0, 1⟩ :=
  have h := renderFrame_quad_preserves_aspect (sampleOps Real.cos Real.sin Real.pi) sampleVideo
    ⟨1, 1, 1⟩ ⟨0, 0, 0⟩ (0, 0) (16, 8, 8) 16 8 1 1 640 480 { cameraPan := 0, cameraTilt := 0 }
    Real.cos_zero Real.sin_zero (by decide)
  ⟨Real.cos_zero, Real.sin_zero, h.choose, h.choose_spec.1,
    h.choose_spec.2.2.2.2.1.trans (by norm_num [aspectFit]),
    h.choose_spec.2.1.trans (by norm_num [aspectFit])⟩

/-- C14. With head-tracking disabled, or requested on a video sub-renderer without a session,
`Gles2Video::renderFrame` makes no call on the session or on the media, whatever the color
conversion, and for every head orientation, reference orientation, field of view and camera
pan and tilt the matrix it uploads is the diagonal scale `diag(1, windowAR, 1, 1)`: entries 3
and 7 are 0 and so is every other entry off the diagonal (`cosf 0 = 1`, `sinf 0 = 0`). The quad
is `(±videoW, ±videoH)`. Matrix and quad are functions of the frame, pixel-aspect and window
dimensions only. -/
theorem renderFrame_without_headtracking {K Q : Type} [LinearOrderedField K] (ops : MathOps K Q)
    (self : Gles2Video) (headtracking : Bool) (headQuat headRefQuat : Q) (mediaFov : K × K)
    (framePlane frameStride : Nat × Nat × Nat)
    (frameWidth frameHeight sarWidth sarHeight windowWidth windowHeight : Nat)
    (metadata : VideoFrameMetadata) (colorConversion : Gles2VideoColorConversion)
    (hcos : ops.cosf 0 = 1) (hsin : ops.sinf 0 = 0)
    (hoff : headtracking = false ∨ self.mSession = none)
    (hvalid : ¬ (frameWidth = 0 ∨ frameHeight = 0 ∨ sarWidth = 0 ∨ sarHeight = 0
      ∨ windowWidth = 0 ∨ windowHeight = 0 ∨ frameStride.1 = 0)) :
    self.readHeadOrientation headtracking = []
    ∧ (∀ s, Event.sessionGetSelfMetadata s
        ∉ (self.renderFrame framePlane frameStride frameWidth frameHeight sarWidth sarHeight
          windowWidth windowHeight colorConversion headtracking).2)
    ∧ (∀ m, Event.mediaGetFov m
        ∉ (self.renderFrame framePlane frameStride frameWidth frameHeight sarWidth sarHeight
          windowWidth windowHeight colorConversion headtracking).2)
    ∧ self.headTracking ops headtracking headQuat headRefQuat mediaFov metadata
        (aspectFit frameWidth frameHeight sarWidth sarHeight windowWidth
          windowHeight : AspectFit K).ratioW
        (aspectFit frameWidth frameHeight sarWidth sarHeight windowWidth
          windowHeight : AspectFit K).ratioH
      = { deltaX := 0, deltaY := 0, angle := 0 }
    ∧ self.frameGeometry ops headQuat headRefQuat mediaFov frameStride frameWidth frameHeight
        sarWidth sarHeight windowWidth windowHeight metadata headtracking
      = some
        { vertices :=
            quadVertices
              (aspectFit frameWidth frameHeight sarWidth sarHeight windowWidth
                windowHeight : AspectFit K).videoW
              (aspectFit frameWidth frameHeight sarWidth sarHeight windowWidth
                windowHeight : AspectFit K).videoH
          texCoords := texCoords frameWidth frameStride.1
          transformMatrix :=
            [1, 0, 0, 0,
             0, (windowWidth : K) / (windowHeight : K), 0, 0,
             0, 0, 1, 0,
             0, 0, 0, 1] } := by
  have hht := fun rW rH => headTracking_disabled ops self headtracking headQuat headRefQuat
    mediaFov metadata rW rH hoff
  have hread := readHeadOrientation_disabled self headtracking hoff
  refine ⟨hread, ?_, ?_, hht _ _, ?_⟩
  · intro s
    unfold Gles2Video.renderFrame
    rw [if_neg hvalid, hread]
    cases colorConversion <;>
      simp [Gles2Video.uploadTextures, GLES2_VIDEO_TEX_UNIT_COUNT, List.range_succ]
  · intro m
    unfold Gles2Video.renderFrame
    rw [if_neg hvalid, hread]
    cases colorConversion <;>
      simp [Gles2Video.uploadTextures, GLES2_VIDEO_TEX_UNIT_COUNT, List.range_succ]
  · obtain ⟨-, hwW, hwH, -⟩ := aspectFit_videoW (K := K) frameWidth frameHeight sarWidth
      sarHeight windowWidth windowHeight
    rw [frameGeometry_of_valid ops self headQuat headRefQuat mediaFov frameStride frameWidth
      frameHeight sarWidth sarHeight windowWidth windowHeight metadata headtracking hvalid, hht,
      hwW, hwH, aspectFit_windowAR]
    simp [transformMatrix, hcos, hsin]

/-- Witness of C14: head-tracking requested on a video sub-renderer without a session, with the
real cosine and sine and a head turned away from its reference: the matrix is
`diag(1, 4/3, 1, 1)`. -/
theorem renderFrame_without_headtracking_witness :
    Real.cos 0 = 1 ∧ Real.sin 0 = 0
    ∧ ({ sampleVideo with mSession := none } : Gles2Video).mSession = none
    ∧ ({ sampleVideo with mSession := none } : Gles2Video).frameGeometry
        (sampleOps Real.cos Real.sin Real.pi) ⟨1, 1, 1⟩ ⟨0, 0, 0⟩ (90, 60) (16, 8, 8) 16 8 1 1
        640 480 { cameraPan := 1, cameraTilt := 1 } true
      = some
        { vertices :=
            quadVertices (aspectFit 16 8 1 1 640 480 : AspectFit ℝ).videoW
              (aspectFit 16 8 1 1 640 480 : AspectFit ℝ).videoH
          texCoords := texCoords 16 16
          transformMatrix :=
            [1, 0, 0, 0, 0, ((640 : Nat) : ℝ) / ((480 : Nat) : ℝ), 0, 0, 0, 0, 1, 0, 0, 0, 0, 1] } :=
  have h := renderFrame_without_headtracking (sampleOps Real.cos Real.sin Real.pi)
    { sampleVideo with mSession := none } true ⟨1, 1, 1⟩ ⟨0, 0, 0⟩ (90, 60) (1, 2, 3) (16, 8, 8)
    16 8 1 1 640 480 { cameraPan := 1, cameraTilt := 1 }
    .GLES2_VIDEO_COLOR_CONVERSION_YUV420PLANAR_TO_RGB Real.cos_zero Real.sin_zero
    (Or.inr rfl) (by decide)
  ⟨Real.cos_zero, Real.sin_zero, rfl, h.2.2.2.2⟩

/-- C15. On the samples Y = U = V = 0.5 the planar and the semi-planar fragment shader both give
`r = g = b = 0.5` with alpha 1. For all samples the planar shader (U and V in the red channel of
textures 1 and 2) and the semi-planar shader (U in the red and V in the alpha channel of texture
1) give the same color, `r = y + 1.402 v`, `g = y - 0.344 u - 0.714 v`, `b = y + 1.772 u` with
`y = Y`, `u = U - 0.5`, `v = V - 0.5`, whatever the other channels hold. -/
theorem fragmentShaders_formula {K : Type} [LinearOrderedField K] (Y U V : K)
    (a b c d e f g h i j k : K) :
    video420PlanarFragmentShader (⟨0.5, a, b, c⟩ : Vec4 K) ⟨0.5, d, e, f⟩ ⟨0.5, g, h, i⟩
      = ⟨0.5, 0.5, 0.5, 1⟩
    ∧ video420SemiplanarFragmentShader (⟨0.5, a, b, c⟩ : Vec4 K) ⟨0.5, j, k, 0.5⟩
      = ⟨0.5, 0.5, 0.5, 1⟩
    ∧ video420PlanarFragmentShader (⟨Y, a, b, c⟩ : Vec4 K) ⟨U, d, e, f⟩ ⟨V, g, h, i⟩
      = ⟨Y + 1.402 * (V - 0.5), Y - 0.344 * (U - 0.5) - 0.714 * (V - 0.5),
         Y + 1.772 * (U - 0.5), 1⟩
    ∧ video420SemiplanarFragmentShader (⟨Y, a, b, c⟩ : Vec4 K) ⟨U, j, k, V⟩
      = video420PlanarFragmentShader (⟨Y, a, b, c⟩ : Vec4 K) ⟨U, d, e, f⟩ ⟨V, g, h, i⟩ := by
  refine ⟨?_, ?_, ?_, ?_⟩ <;>
    simp only [video420PlanarFragmentShader, video420SemiplanarFragmentShader] <;>
    norm_num

/-- C16 does not hold of the code. When a shader does not compile or a program does not link,
the constructor of `Gles2Video` does skip its later steps: it generates no texture and looks up
no location (its calls are shader and program build calls only), and after a compile failure it
creates and links no program. But its caller cannot see the failure: `setRendererParams` on a
non-empty render area, without distortion correction, returns 1 and leaves the renderer running
with that instance, whose textures (and, after a compile failure, programs) are unassigned. -/
theorem setRendererParams_ignores_shader_failure (env : Env) (w : World) (r : Gles2Renderer)
    (windowWidth windowHeight renderX renderY renderWidth renderHeight : Int)
    (headtracking : Bool)
    (hw : (if renderWidth ≠ 0 then renderWidth else windowWidth) ≠ 0)
    (hh : (if renderHeight ≠ 0 then renderHeight else windowHeight) ≠ 0)
    (hvideo : env.newGles2VideoOk = true) (hhud : env.newGles2HudOk = true)
    (hfail : (∃ shader, env.compileStatus shader = false)
      ∨ (∃ c, env.linkStatus c = false)) :
    (r.setRendererParams env w windowWidth windowHeight renderX renderY renderWidth
        renderHeight false headtracking).ret = 1
    ∧ (r.setRendererParams env w windowWidth windowHeight renderX renderY renderWidth
        renderHeight false headtracking).self.mRunning = true
    ∧ (r.setRendererParams env w windowWidth windowHeight renderX renderY renderWidth
        renderHeight false headtracking).self.mGles2Video
      = some (Gles2Video.new env r.mSession r.mMedia r.mGles2VideoFirstTexUnit).1
    ∧ (Gles2Video.new env r.mSession r.mMedia r.mGles2VideoFirstTexUnit).1.mTextures = none
    ∧ (∀ e ∈ (Gles2Video.new env r.mSession r.mMedia r.mGles2VideoFirstTexUnit).2,
        e.isShaderBuildCall = true ∨ e.isProgramBuildCall = true)
    ∧ ((∃ shader, env.compileStatus shader = false) →
        (Gles2Video.new env r.mSession r.mMedia r.mGles2VideoFirstTexUnit).1.mProgramNone = none
        ∧ (Gles2Video.new env r.mSession r.mMedia r.mGles2VideoFirstTexUnit).1.mProgramYuvp
          = none
        ∧ (Gles2Video.new env r.mSession r.mMedia r.mGles2VideoFirstTexUnit).1.mProgramYuvsp
          = none
        ∧ ∀ e ∈ (Gles2Video.new env r.mSession r.mMedia r.mGles2VideoFirstTexUnit).2,
          e.isShaderBuildCall = true) := by
  obtain ⟨k1, k2, k3⟩ := setRendererParams_video env w r windowWidth windowHeight renderX
    renderY renderWidth renderHeight headtracking hw hh hvideo hhud
  have ht : (Gles2Video.new env r.mSession r.mMedia r.mGles2VideoFirstTexUnit).1.mTextures
      = none := by
    by_contra hne
    obtain ⟨hs, hl⟩ := new_mTextures env _ _ _ hne
    rcases hfail with ⟨shader, hf⟩ | ⟨c, hf⟩
    · rw [hs shader] at hf; exact Bool.noConfusion hf
    · rw [hl c] at hf; exact Bool.noConfusion hf
  refine ⟨k1, k2, k3, ht, new_failure_calls env _ _ _ ht, ?_⟩
  rintro ⟨shader, hf⟩
  obtain ⟨hv, hc⟩ := new_compile_failure env r.mSession r.mMedia r.mGles2VideoFirstTexUnit
    shader hf
  rw [hv]
  exact ⟨rfl, rfl, rfl, hc⟩

/-- C16 on the sample renderer when the vertex shader does not compile: a 640x480 configuration
returns 1 and the renderer runs. -/
theorem setRendererParams_ignores_shader_failure_witness :
    vertexShaderFailureEnv.compileStatus .vertexShader = false
    ∧ (attachedRenderer.setRendererParams vertexShaderFailureEnv (sampleWorld []) 640 480 0 0 0 0
        false false).ret = 1
    ∧ (attachedRenderer.setRendererParams vertexShaderFailureEnv (sampleWorld []) 640 480 0 0 0 0
        false false).self.mRunning = true
    ∧ (attachedRenderer.setRendererParams vertexShaderFailureEnv (sampleWorld []) 640 480 0 0 0 0
        false false).self.mGles2Video
      = some { mSession := some 1, mMedia := some 7, mFirstTexUnit := 1, mProgramNone := none
               mProgramYuvp := none, mProgramYuvsp := none, mTextures := none } :=
  have h := setRendererParams_ignores_shader_failure vertexShaderFailureEnv (sampleWorld [])
    attachedRenderer 640 480 0 0 0 0 false (by decide) (by decide) rfl rfl
    (Or.inl ⟨.vertexShader, rfl⟩)
  ⟨rfl, h.1, h.2.1, h.2.2.1.trans (by decide)⟩

/-- C17, as the claim has it, fails: with no rotation, window scale (1, 1) and shift (1, 1) the
third column of the sixteen floats is (0, 0, 1, 0) whether they are read row by row or column by
column, so it does not hold the translation (-1, -1); the entries 3 and 7, outside the third
column and outside the top-left block, are -1 and not the identity's 0. -/
theorem transformMatrix_third_column_is_identity :
    (List.range 4).map
        (fun r => rowMajorEntry (transformMatrix (fun _ => (1 : ℚ)) (fun _ => 0) 0 1 1 1 1) r 2)
      = [0, 0, 1, 0]
    ∧ (List.range 4).map
        (fun r => columnMajorEntry (transformMatrix (fun _ => (1 : ℚ)) (fun _ => 0) 0 1 1 1 1) r 2)
      = [0, 0, 1, 0]
    ∧ (transformMatrix (fun _ => (1 : ℚ)) (fun _ => 0) 0 1 1 1 1).getD 3 0 = -1
    ∧ (transformMatrix (fun _ => (1 : ℚ)) (fun _ => 0) 0 1 1 1 1).getD 7 0 = -1 := by
  decide

/-- C17, amended. For every roll angle, shift and window scale the sixteen floats built by
`Gles2Video::renderFrame`, read row by row, are the rows
`(cosf(angle) * windowW, -sinf(angle) * windowW, 0, -deltaX)`,
`(sinf(angle) * windowH, cosf(angle) * windowH, 0, -deltaY)`, `(0, 0, 1, 0)`, `(0, 0, 0, 1)`:
the scaled rotation is the top-left 2x2 block, the translation `(-deltaX, -deltaY)` is in the
fourth column (array indices 3 and 7), the third column is `(0, 0, 1, 0)`, and every other entry
is the identity's. The vertex shader's `position * transform_matrix` takes the dot product of
the position with each of these rows, so a vertex `(x, y, 0, 1)` goes to
`(cosf(angle) * windowW * x - sinf(angle) * windowW * y - deltaX,
sinf(angle) * windowH * x + cosf(angle) * windowH * y - deltaY, 0, 1)`. -/
theorem transformMatrix_layout {K : Type} [LinearOrderedField K] (cosf sinf : K → K)
    (angle windowW windowH deltaX deltaY x y : K) :
    (transformMatrix cosf sinf angle windowW windowH deltaX deltaY).length = 16
    ∧ (List.range 4).map (fun r => (List.range 4).map (fun c =>
        rowMajorEntry (transformMatrix cosf sinf angle windowW windowH deltaX deltaY) r c))
      = [[cosf angle * windowW, -sinf angle * windowW, 0, -deltaX],
         [sinf angle * windowH, cosf angle * windowH, 0, -deltaY],
         [0, 0, 1, 0],
         [0, 0, 0, 1]]
    ∧ (List.range 4).map (fun r =>
        rowMajorEntry (transformMatrix cosf sinf angle windowW windowH deltaX deltaY) r 2)
      = [0, 0, 1, 0]
    ∧ (List.range 4).map (fun r =>
        rowMajorEntry (transformMatrix cosf sinf angle windowW windowH deltaX deltaY) r 3)
      = [-deltaX, -deltaY, 0, 1]
    ∧ (transformMatrix cosf sinf angle windowW windowH deltaX deltaY).getD 3 0 = -deltaX
    ∧ (transformMatrix cosf sinf angle windowW windowH deltaX deltaY).getD 7 0 = -deltaY
    ∧ videoVertexShader (transformMatrix cosf sinf angle windowW windowH deltaX deltaY)
          ⟨x, y, 0, 1⟩
      = ⟨cosf angle * windowW * x - sinf angle * windowW * y - deltaX,
         sinf angle * windowH * x + cosf angle * windowH * y - deltaY, 0, 1⟩ := by
  refine ⟨rfl, rfl, rfl, rfl, rfl, rfl, ?_⟩
  rw [videoVertexShader_transformMatrix]
  simp only [Vec4.mk.injEq]
  refine ⟨by ring, by ring, by ring, by ring⟩

/-- C18. With head-tracking enabled and a session present, valid dimensions and `M_PI > 0`
(exact arithmetic): the Euler triple is that of `headQuat * conj(headRefQuat)`; the horizontal
field of view is the media's value in degrees, or 78 when no media is set or the media reports
0, the vertical one likewise with 49, and neither is 0; with `hFov` and `vFov` these values
times `M_PI / 180`, `deltaX = 2 (psi - cameraPan) ratioW / hFov`,
`deltaY = 2 (theta - cameraTilt) ratioH / vFov`, and the angle of the rotation is `phi`. -/
theorem headTracking_shift {K Q : Type} [LinearOrderedField K] (ops : MathOps K Q)
    (self : Gles2Video) (s : SessionId) (headQuat headRefQuat : Q) (mediaFov : K × K)
    (frameWidth frameHeight sarWidth sarHeight windowWidth windowHeight : Nat)
    (metadata : VideoFrameMetadata)
    (hs : self.mSession = some s) (hpi : 0 < ops.M_PI)
    (hfw : 0 < frameWidth) (hfh : 0 < frameHeight) (hsw : 0 < sarWidth) (hsh : 0 < sarHeight)
    (hww : 0 < windowWidth) (hwh : 0 < windowHeight) :
    (self.fovDegrees mediaFov).1
      = (if self.mMedia = none ∨ mediaFov.1 = 0 then 78 else mediaFov.1)
    ∧ (self.fovDegrees mediaFov).2
      = (if self.mMedia = none ∨ mediaFov.2 = 0 then 49 else mediaFov.2)
    ∧ (self.fovDegrees mediaFov).1 * ops.M_PI / 180 ≠ 0
    ∧ (self.fovDegrees mediaFov).2 * ops.M_PI / 180 ≠ 0
    ∧ (self.headTracking ops true headQuat headRefQuat mediaFov metadata
        (aspectFit frameWidth frameHeight sarWidth sarHeight windowWidth
          windowHeight : AspectFit K).ratioW
        (aspectFit frameWidth frameHeight sarWidth sarHeight windowWidth
          windowHeight : AspectFit K).ratioH).deltaX
      = 2 * ((ops.pdraw_quat2euler
                (ops.pdraw_quat_mult headQuat (ops.pdraw_quat_conj headRefQuat))).psi
              - (metadata.cameraPan : K))
          * (aspectFit frameWidth frameHeight sarWidth sarHeight windowWidth
              windowHeight : AspectFit K).ratioW
          / ((self.fovDegrees mediaFov).1 * ops.M_PI / 180)
    ∧ (self.headTracking ops true headQuat headRefQuat mediaFov metadata
        (aspectFit frameWidth frameHeight sarWidth sarHeight windowWidth
          windowHeight : AspectFit K).ratioW
        (aspectFit frameWidth frameHeight sarWidth sarHeight windowWidth
          windowHeight : AspectFit K).ratioH).deltaY
      = 2 * ((ops.pdraw_quat2euler
                (ops.pdraw_quat_mult headQuat (ops.pdraw_quat_conj headRefQuat))).theta
              - (metadata.cameraTilt : K))
          * (aspectFit frameWidth frameHeight sarWidth sarHeight windowWidth
              windowHeight : AspectFit K).ratioH
          / ((self.fovDegrees mediaFov).2 * ops.M_PI / 180)
    ∧ (self.headTracking ops true headQuat headRefQuat mediaFov metadata
        (aspectFit frameWidth frameHeight sarWidth sarHeight windowWidth
          windowHeight : AspectFit K).ratioW
        (aspectFit frameWidth frameHeight sarWidth sarHeight windowWidth
          windowHeight : AspectFit K).ratioH).angle
      = (ops.pdraw_quat2euler
          (ops.pdraw_quat_mult headQuat (ops.pdraw_quat_conj headRefQuat))).phi := by
  have hp := aspectFit_ratio_pos (K := K) frameWidth frameHeight sarWidth sarHeight
    windowWidth windowHeight hfw hfh hsw hsh hww hwh
  have hf := fovDegrees_ne_zero self mediaFov
  have hh : (self.fovDegrees mediaFov).1 * ops.M_PI / 180 ≠ 0 :=
    div_ne_zero (mul_ne_zero hf.1 (ne_of_gt hpi)) (by norm_num)
  have hv : (self.fovDegrees mediaFov).2 * ops.M_PI / 180 ≠ 0 :=
    div_ne_zero (mul_ne_zero hf.2 (ne_of_gt hpi)) (by norm_num)
  refine ⟨(fovDegrees_eq self mediaFov).1, (fovDegrees_eq self mediaFov).2, hh, hv, ?_, ?_, ?_⟩
  · rw [headTracking_enabled ops self s headQuat headRefQuat mediaFov metadata _ _ hs]
    dsimp only
    rw [div_div_eq_mul_div]
    ring
  · rw [headTracking_enabled ops self s headQuat headRefQuat mediaFov metadata _ _ hs]
    dsimp only
    rw [div_div_eq_mul_div]
    ring
  · rw [headTracking_enabled ops self s headQuat headRefQuat mediaFov metadata _ _ hs]

/-- Witness of C18: session 1, media 7 reporting a field of view of 0 by 60 degrees, a 16x8 frame
in a 640x480 window, the real `π`: the horizontal field of view falls back to 78, the vertical
one is 60. -/
theorem headTracking_shift_witness :
    sampleVideo.mSession = some 1 ∧ 0 < Real.pi
    ∧ (sampleVideo.fovDegrees ((0, 60) : ℝ × ℝ)).1 = 78
    ∧ (sampleVideo.fovDegrees ((0, 60) : ℝ × ℝ)).2 = 60
    ∧ (sampleVideo.headTracking (sampleOps Real.cos Real.sin Real.pi) true ⟨3, 2, 1⟩ ⟨1, 1, 1⟩
        (0, 60) { cameraPan := 1, cameraTilt := 0 }
        (aspectFit 16 8 1 1 640 480 : AspectFit ℝ).ratioW
        (aspectFit 16 8 1 1 640 480 : AspectFit ℝ).ratioH).angle = 0
    ∧ (sampleVideo.headTracking (sampleOps Real.cos Real.sin Real.pi) true ⟨3, 2, 1⟩ ⟨1, 1, 1⟩
        (0, 60) { cameraPan := 1, cameraTilt := 0 }
        (aspectFit 16 8 1 1 640 480 : AspectFit ℝ).ratioW
        (aspectFit 16 8 1 1 640 480 : AspectFit ℝ).ratioH).deltaX
      = 2 * (2 - 1) * 1 / (78 * Real.pi / 180) :=
  have h := headTracking_shift (sampleOps Real.cos Real.sin Real.pi) sampleVideo 1 ⟨3, 2, 1⟩
    ⟨1, 1, 1⟩ ((0, 60) : ℝ × ℝ) 16 8 1 1 640 480 { cameraPan := 1, cameraTilt := 0 } rfl
    Real.pi_pos (by decide) (by decide) (by decide) (by decide) (by decide) (by decide)
  ⟨rfl, Real.pi_pos,
   h.1.trans (by simp),
   h.2.1.trans (by
    have : sampleVideo.mMedia = some 7 := rfl
    simp [this]),
   h.2.2.2.2.2.2.trans (by simp [sampleOps]),
   h.2.2.2.2.1.trans (by
    rw [h.1]
    norm_num [sampleOps, aspectFit])⟩

/-- C19. For every valid frame (the seven dimensions non-zero) `Gles2Video::renderFrame` hands GL
the texture coordinates (0,1), (w/s,1), (0,0), (w/s,0) with `w = frameWidth` and
`s = frameStride[0]`, for the vertices (-videoW,-videoH), (videoW,-videoH), (-videoW,videoH),
(videoW,videoH) in that order, where `videoW > 0` and `videoH > 0`: bottom-left, bottom-right,
top-left, top-right, so the texture row 0 is drawn at the top. If `frameWidth ≤ frameStride[0]`
then `0 < w/s ≤ 1`. -/
theorem renderFrame_texCoords {K Q : Type} [LinearOrderedField K] (ops : MathOps K Q)
    (self : Gles2Video) (headQuat headRefQuat : Q) (mediaFov : K × K)
    (frameStride : Nat × Nat × Nat)
    (frameWidth frameHeight sarWidth sarHeight windowWidth windowHeight : Nat)
    (metadata : VideoFrameMetadata) (headtracking : Bool)
    (hvalid : ¬ (frameWidth = 0 ∨ frameHeight = 0 ∨ sarWidth = 0 ∨ sarHeight = 0
      ∨ windowWidth = 0 ∨ windowHeight = 0 ∨ frameStride.1 = 0)) :
    ∃ g : FrameGeometry K,
      self.frameGeometry ops headQuat headRefQuat mediaFov frameStride frameWidth frameHeight
        sarWidth sarHeight windowWidth windowHeight metadata headtracking = some g
      ∧ g.texCoords
        = [0, 1, (frameWidth : K) / (frameStride.1 : K), 1,
           0, 0, (frameWidth : K) / (frameStride.1 : K), 0]
      ∧ 0 < (aspectFit frameWidth frameHeight sarWidth sarHeight windowWidth
              windowHeight : AspectFit K).videoW
      ∧ 0 < (aspectFit frameWidth frameHeight sarWidth sarHeight windowWidth
              windowHeight : AspectFit K).videoH
      ∧ vertexPosition g.vertices 0
        = ⟨-(aspectFit frameWidth frameHeight sarWidth sarHeight windowWidth
              windowHeight : AspectFit K).videoW,
            -(aspectFit frameWidth frameHeight sarWidth sarHeight windowWidth
              windowHeight : AspectFit K).videoH, 0, 1⟩
      ∧ vertexTexcoord g.texCoords 0 = (0, 1)
      ∧ vertexPosition g.vertices 1
        = ⟨(aspectFit frameWidth frameHeight sarWidth sarHeight windowWidth
              windowHeight : AspectFit K).videoW,
            -(aspectFit frameWidth frameHeight sarWidth sarHeight windowWidth
              windowHeight : AspectFit K).videoH, 0, 1⟩
      ∧ vertexTexcoord g.texCoords 1 = ((frameWidth : K) / (frameStride.1 : K), 1)
      ∧ vertexPosition g.vertices 2
        = ⟨-(aspectFit frameWidth frameHeight sarWidth sarHeight windowWidth
              windowHeight : AspectFit K).videoW,
            (aspectFit frameWidth frameHeight sarWidth sarHeight windowWidth
              windowHeight : AspectFit K).videoH, 0, 1⟩
      ∧ vertexTexcoord g.texCoords 2 = (0, 0)
      ∧ vertexPosition g.vertices 3
        = ⟨(aspectFit frameWidth frameHeight sarWidth sarHeight windowWidth
              windowHeight : AspectFit K).videoW,
            (aspectFit frameWidth frameHeight sarWidth sarHeight windowWidth
              windowHeight : AspectFit K).videoH, 0, 1⟩
      ∧ vertexTexcoord g.texCoords 3 = ((frameWidth : K) / (frameStride.1 : K), 0)
      ∧ (frameWidth ≤ frameStride.1 →
          0 < (frameWidth : K) / (frameStride.1 : K)
          ∧ (frameWidth : K) / (frameStride.1 : K) ≤ 1) := by
  obtain ⟨hfw, hfh, hsw, hsh, hww, hwh, hst⟩ := nat_pos_of_valid hvalid
  have hw := aspectFit_windowAR_pos (K := K) frameWidth frameHeight sarWidth sarHeight
    windowWidth windowHeight hww hwh
  have hp := aspectFit_ratio_pos (K := K) frameWidth frameHeight sarWidth sarHeight
    windowWidth windowHeight hfw hfh hsw hsh hww hwh
  obtain ⟨hvW, -, -, hvH⟩ := aspectFit_videoW (K := K) frameWidth frameHeight sarWidth
    sarHeight windowWidth windowHeight
  obtain ⟨p0, p1, p2, p3⟩ := vertexPosition_quadVertices
    (aspectFit frameWidth frameHeight sarWidth sarHeight windowWidth
      windowHeight : AspectFit K).videoW
    (aspectFit frameWidth frameHeight sarWidth sarHeight windowWidth
      windowHeight : AspectFit K).videoH
  obtain ⟨t0, t1, t2, t3⟩ := vertexTexcoord_texCoords (K := K) frameWidth frameStride.1
  have hfwK : (0 : K) < (frameWidth : K) := by exact_mod_cast hfw
  have hstK : (0 : K) < (frameStride.1 : K) := by exact_mod_cast hst
  refine ⟨_, frameGeometry_of_valid ops self headQuat headRefQuat mediaFov frameStride
    frameWidth frameHeight sarWidth sarHeight windowWidth windowHeight metadata headtracking
    hvalid, rfl, ?_, ?_, p0, t0, p1, t1, p2, t2, p3, t3, ?_⟩
  · rw [hvW]; exact hp.1
  · rw [hvH]; exact div_pos hp.2 hw
  · intro hle
    refine ⟨div_pos hfwK hstK, (div_le_one hstK).mpr ?_⟩
    exact_mod_cast hle

/-- Witness of C19: a 16x8 frame whose rows are padded to 32 bytes: the texture coordinates stop
at 1/2. -/
theorem renderFrame_texCoords_witness :
    ∃ g : FrameGeometry ℝ,
      sampleVideo.frameGeometry (sampleOps Real.cos Real.sin Real.pi) ⟨0, 0, 0⟩ ⟨0, 0, 0⟩
        (0, 0) (32, 16, 16) 16 8 1 1 640 480 { cameraPan := 0, cameraTilt := 0 } false = some g
      ∧ g.texCoords = [0, 1, 1 / 2, 1, 0, 0, 1 / 2, 0]
      ∧ vertexTexcoord g.texCoords 3 = (1 / 2, 0) :=
  have h := renderFrame_texCoords (sampleOps Real.cos Real.sin Real.pi) sampleVideo
    ⟨0, 0, 0⟩ ⟨0, 0, 0⟩ (0, 0) (32, 16, 16) 16 8 1 1 640 480 { cameraPan := 0, cameraTilt := 0 }
    false (by decide)
  ⟨h.choose, h.choose_spec.1, h.choose_spec.2.1.trans (by norm_num),
    h.choose_spec.2.2.2.2.2.2.2.2.2.2.2.1.trans (by norm_num)⟩

/-- C20 does not hold of the code. After a constructor of `Gles2Video` in which every step
succeeded, with a pass-through program whose name differs from the two others, the destructor
deletes the three textures and the planar and semi-planar programs, and nothing else: the
pass-through program `mProgram[GLES2_VIDEO_COLOR_CONVERSION_NONE]`, which the constructor
linked, is not deleted, neither by the destructor nor by `destroyGles2` of a renderer that
holds the instance. -/
theorem delete_keeps_passthrough_program (env : Env) (session : Option SessionId)
    (media : Option MediaId) (firstTexUnit : Nat)
    (hh : ∀ shader, env.createShader shader ≠ 0 ∧ env.createShader shader ≠ 1280)
    (hs : ∀ shader, env.compileStatus shader = true) (hl : ∀ c, env.linkStatus c = true)
    (hp : env.createProgram .GLES2_VIDEO_COLOR_CONVERSION_NONE
      ≠ env.createProgram .GLES2_VIDEO_COLOR_CONVERSION_YUV420PLANAR_TO_RGB)
    (hsp : env.createProgram .GLES2_VIDEO_COLOR_CONVERSION_NONE
      ≠ env.createProgram .GLES2_VIDEO_COLOR_CONVERSION_YUV420SEMIPLANAR_TO_RGB) :
    (Gles2Video.new env session media firstTexUnit).1.mProgramNone
      = some (env.createProgram .GLES2_VIDEO_COLOR_CONVERSION_NONE)
    ∧ Event.gl .glLinkProgram [(env.createProgram .GLES2_VIDEO_COLOR_CONVERSION_NONE : Int)]
        ∈ (Gles2Video.new env session media firstTexUnit).2
    ∧ (Gles2Video.new env session media firstTexUnit).1.delete
      = [Event.gl .glDeleteTextures
           [(env.videoTextures.1 : Int), (env.videoTextures.2.1 : Int),
            (env.videoTextures.2.2 : Int)],
         Event.gl .glDeleteProgram
           [(env.createProgram .GLES2_VIDEO_COLOR_CONVERSION_YUV420PLANAR_TO_RGB : Int)],
         Event.gl .glDeleteProgram
           [(env.createProgram .GLES2_VIDEO_COLOR_CONVERSION_YUV420SEMIPLANAR_TO_RGB : Int)]]
    ∧ Event.gl .glDeleteProgram [(env.createProgram .GLES2_VIDEO_COLOR_CONVERSION_NONE : Int)]
        ∉ (Gles2Video.new env session media firstTexUnit).1.delete
    ∧ ∀ r : Gles2Renderer,
        r.mGles2Video = some (Gles2Video.new env session media firstTexUnit).1 →
        Event.gl .glDeleteProgram [(env.createProgram .GLES2_VIDEO_COLOR_CONVERSION_NONE : Int)]
          ∉ r.destroyGles2.2.2 := by
  obtain ⟨hv, hlink⟩ := new_success env session media firstTexUnit hh hs hl
  have hp' : ((env.createProgram .GLES2_VIDEO_COLOR_CONVERSION_NONE : Nat) : Int)
      ≠ (env.createProgram .GLES2_VIDEO_COLOR_CONVERSION_YUV420PLANAR_TO_RGB : Int) := by
    exact_mod_cast hp
  have hsp' : ((env.createProgram .GLES2_VIDEO_COLOR_CONVERSION_NONE : Nat) : Int)
      ≠ (env.createProgram .GLES2_VIDEO_COLOR_CONVERSION_YUV420SEMIPLANAR_TO_RGB : Int) := by
    exact_mod_cast hsp
  refine ⟨by rw [hv], hlink, by rw [hv]; rfl, ?_, ?_⟩
  · rw [hv]
    simp [Gles2Video.delete, glName, hp', hsp']
  · intro r hr hmem
    have := destroyGles2_deleteProgram r _ _ hr hmem
    rw [hv] at this
    simp [glName, hp', hsp'] at this

/-- C20 on the sample environment (programs 10, 11, 12): the constructor links program 10, the
destructor deletes the programs 11 and 12 only, and a second configuration of the renderer
makes no call that deletes program 10. -/
theorem delete_keeps_passthrough_program_witness :
    sampleVideo.mProgramNone = some 10
    ∧ Event.gl .glLinkProgram [10] ∈ (Gles2Video.new distinctNamesEnv (some 1) (some 7) 0).2
    ∧ sampleVideo.delete
      = [Event.gl .glDeleteTextures [31, 32, 33], Event.gl .glDeleteProgram [11],
         Event.gl .glDeleteProgram [12]]
    ∧ Event.gl .glDeleteProgram [10] ∉ sampleVideo.delete
    ∧ Event.gl .glDeleteProgram [10]
      ∉ ((attachedRenderer.setRendererParams distinctNamesEnv (sampleWorld []) 640 480 0 0 0 0
          false false).self.setRendererParams distinctNamesEnv (sampleWorld []) 640 480 0 0 0 0
          false false).events :=
  have h := delete_keeps_passthrough_program distinctNamesEnv (some 1) (some 7) 0
    (by intro shader; cases shader <;> decide) (by intro shader; cases shader <;> rfl)
    (by intro c; cases c <;> rfl) (by decide) (by decide)
  ⟨h.1, h.2.1, h.2.2.1, h.2.2.2.1, by decide⟩

/-- C21 does not hold of the code. On a running renderer whose session pointer is null,
`render()` does not return exactly when it has a current buffer with frame data, a non-empty
render area, and the video, overlay and distortion stages all succeed on it: the instrumentation
block of `render_nolock` then calls `mSession->getCurrentTime()` with no test of `mSession`, and
that call through the null pointer is the last call made. The other uses of the session are
guarded as the claim says: `Gles2Video::renderFrame` makes no call through a null session for
any object state and arguments, and neither does `setRendererParams` (the configure path). -/
theorem render_dereferences_null_session (env : Env) (w : World) (r : Gles2Renderer) (t : Nat)
    (hs : r.mSession = none) (hrun : r.mRunning = true) :
    ((r.render env w t).ret = none
      ↔ ∃ b data, (r.render env w t).self.mCurrentBuffer = some b ∧ b.metadataPtr = some data
          ∧ r.mRenderWidth ≠ 0 ∧ r.mRenderHeight ≠ 0
          ∧ (r.hmdStage env (r.hudStage env data (r.videoStage data).1).1).1 = 0)
    ∧ ((r.render env w t).ret = none →
        (r.render env w t).events.getLast? = some (Event.sessionGetCurrentTime none))
    ∧ (∀ (v : Gles2Video) (framePlane frameStride : Nat × Nat × Nat)
        (frameWidth frameHeight sarWidth sarHeight windowWidth windowHeight : Nat)
        (colorConversion : Gles2VideoColorConversion) (headtracking : Bool),
        ∀ e ∈ (v.renderFrame framePlane frameStride frameWidth frameHeight sarWidth sarHeight
          windowWidth windowHeight colorConversion headtracking).2,
          e.isNullSessionCall = false)
    ∧ (∀ (windowWidth windowHeight renderX renderY renderWidth renderHeight : Int)
        (hmdDistorsionCorrection headtracking : Bool),
        ∀ e ∈ (r.setRendererParams env w windowWidth windowHeight renderX renderY renderWidth
          renderHeight hmdDistorsionCorrection headtracking).events,
          e.isNullSessionCall = false) := by
  have hk := keepBuffer_stages env r (r.drainOutputQueue w).2.1
  have hks : (r.keepBuffer (r.drainOutputQueue w).2.1).mSession = none := by
    rw [keepBuffer_mSession]; exact hs
  obtain ⟨hd1, hd2⟩ := drawCurrentBuffer_null env (r.keepBuffer (r.drainOutputQueue w).2.1) hks
  obtain ⟨hr1, hr2⟩ := render_nolock_ret_none env w r t
  rw [render_of_running env w r t hrun, render_nolock_self]
  refine ⟨?_, ?_, isNullSessionCall_renderFrame, isNullSessionCall_setRendererParams env w r⟩
  · rw [hr1, hd1]
    constructor
    · rintro ⟨b, data, h1, h2, h3, h4, h5⟩
      rw [(hk data).1] at h3
      rw [(hk data).2.1] at h4
      rw [(hk data).2.2] at h5
      exact ⟨b, data, h1, h2, h3, h4, h5⟩
    · rintro ⟨b, data, h1, h2, h3, h4, h5⟩
      refine ⟨b, data, h1, h2, ?_, ?_, ?_⟩
      · rw [(hk data).1]; exact h3
      · rw [(hk data).2.1]; exact h4
      · rw [(hk data).2.2]; exact h5
  · intro hnone
    have hdraw := hr1.mp hnone
    have hlast := hd2 hdraw
    rw [hr2 hnone]
    have hne : ((r.keepBuffer (r.drainOutputQueue w).2.1).drawCurrentBuffer env).2 ≠ [] := by
      intro hnil
      rw [hnil] at hlast
      simp at hlast
    rw [List.getLast?_append_of_ne_nil _ hne]
    exact hlast

/-- C21 on a renderer constructed without a session, configured at 640x480 and attached to a
decoder whose queue holds one valid frame: every stage succeeds and `render()` does not return;
its last call is `getCurrentTime()` through the null session. -/
theorem render_dereferences_null_session_witness :
    sessionlessRenderer.mSession = none
    ∧ sessionlessRenderer.mRunning = true
    ∧ (sessionlessRenderer.render sampleEnv (sampleWorld [bufferA]) 0).ret = none
    ∧ (sessionlessRenderer.render sampleEnv (sampleWorld [bufferA]) 0).events.getLast?
        = some (Event.sessionGetCurrentTime none) :=
  have h := render_dereferences_null_session sampleEnv (sampleWorld [bufferA])
    sessionlessRenderer 0 rfl rfl
  have hcur : (sessionlessRenderer.render sampleEnv (sampleWorld [bufferA]) 0).self.mCurrentBuffer
      = some bufferA :=
    (congrArg Gles2Renderer.mCurrentBuffer
      ((render_of_running sampleEnv (sampleWorld [bufferA]) sessionlessRenderer 0 rfl).symm ▸
        (render_nolock_queue sampleEnv (sampleWorld [bufferA]) sessionlessRenderer 0 4 5 []
          bufferA rfl rfl rfl rfl).1)).trans rfl
  have hnone : (sessionlessRenderer.render sampleEnv (sampleWorld [bufferA]) 0).ret = none :=
    h.1.mpr ⟨bufferA, sampleFrame, hcur, rfl, by decide, by decide, rfl⟩
  ⟨rfl, rfl, hnone, h.2.1 hnone⟩

end Pdraw
